import Mathlib

/-!
# leaf-odbc-driver: session and result-marshalling engine

A shallow embedding of `src/resultset.cpp` (class `leafodbc::ResultSet`:
schema inference over sampled rows, the forward-only cursor, the type-directed
marshalling of one field into a caller buffer), of `src/handles.cpp`
(`DiagStack`, `HandleRegistry`), of `src/sql_guard.cpp`, of
`src/conn_string.cpp`, of the client in `src/leaf_client.cpp` and of the
connection, execution and cursor calls of `src/odbc_api.cpp` (`SQLConnect`,
`SQLDriverConnect`, `SQLDisconnect`, `SQLPrepare`, `SQLExecute`,
`SQLExecDirect`, `SQLFetch`, `SQLGetData`).

Conventions of the embedding.

* A `std::string` is a `List Char`; one `Char` stands for one C++ `char`, so
  `List.length` is `std::string::length()`.
* `nlohmann::json` values are the inductive type `Json`.  The library keeps
  three number kinds apart (`number_integer` : `int64_t`, `number_unsigned` :
  `uint64_t`, `number_float` : `double`); `is_number_integer()` holds for the
  first two and `get<int64_t>()` is a `static_cast` from the stored kind.
* A finite `double` is a dyadic rational `mant * 2 ^ exp` (`Double`).
* Machine integers are `Int`/`Nat`; casts are written with explicit `%`.
* Pointers handed in by the caller are modelled by a `Bool` (`true` = non-null);
  what the call stores through them is returned in `GetDataResult`.
* Library routines whose result is not determined by the repository
  (`json::dump`, `std::stoi`, `std::stoll`, `std::stod`, integer to `double`
  rounding) and the iteration order of `std::unordered_map` are parameters.
  Where a statement depends on what `std::stoi` returns, `std_stoi` gives the
  function as the C and C++ standards define it.
* A handle is the numeric value of the pointer; the registry's maps are
  association lists.  Mutexes and time stamps are not modelled.
* The backend is a function from the requests sent so far to the answer to the
  latest one; every call that may reach it returns the list of requests sent.
-/

namespace leafodbc

/-! ## ODBC constants (`sql.h`, `sqlext.h`) -/

def SQL_SUCCESS : Int := 0
def SQL_ERROR : Int := -1
def SQL_NO_DATA : Int := 100
def SQL_NULL_DATA : Int := -1
def SQL_NULLABLE : Int := 1

def SQL_BIT : Int := -7
def SQL_INTEGER : Int := 4
def SQL_BIGINT : Int := -5
def SQL_DOUBLE : Int := 8
def SQL_VARCHAR : Int := 12
def SQL_LONGVARCHAR : Int := -1

def SQL_C_CHAR : Int := 1
def SQL_C_WCHAR : Int := -8
def SQL_C_BIT : Int := -7
def SQL_C_LONG : Int := 4
def SQL_C_SLONG : Int := -16
def SQL_C_SBIGINT : Int := -25
def SQL_C_DOUBLE : Int := 8

def INT32_MIN : Int := -2147483648
def INT32_MAX : Int := 2147483647

/-! ## Values -/

/-- A `std::string`, one `Char` per C++ `char`. -/
abbrev CString := List Char

/-- A finite IEEE `double`, as the dyadic rational `mant * 2 ^ exp`. -/
structure Double where
  mant : Int
  exp : Int
  deriving DecidableEq, Repr

/-- Conversion `static_cast<int64_t>(double)`: the fractional part is discarded
(truncation toward zero).  C++ defines it only when the truncated value is
representable; the embedding keeps the mathematical value elsewhere. -/
def Double.trunc (d : Double) : Int :=
  if 0 ≤ d.exp then d.mant * 2 ^ d.exp.toNat else Int.tdiv d.mant (2 ^ (-d.exp).toNat)

/-- Two's-complement reinterpretation in 64 bits (`static_cast<int64_t>`). -/
def wrap64 (x : Int) : Int := (x + 2 ^ 63) % 2 ^ 64 - 2 ^ 63

/-- Two's-complement reinterpretation in 32 bits (`static_cast<int32_t>`). -/
def wrap32 (x : Int) : Int := (x + 2 ^ 31) % 2 ^ 32 - 2 ^ 31

/-- Conversion `static_cast<size_t>(x)` of a signed 64-bit value. -/
def to_size_t (x : Int) : Nat := (x % 2 ^ 64).toNat

/-- A `nlohmann::json` value.  An object lists its members in iteration order;
`number_integer` holds an `int64_t`, `number_unsigned` a `uint64_t`. -/
inductive Json where
  | null
  | boolean (b : Bool)
  | number_integer (v : Int)
  | number_unsigned (v : Nat)
  | number_float (d : Double)
  | string (s : CString)
  | array (elems : List Json)
  | object (members : List (CString × Json))

namespace Json

def is_null : Json → Bool
  | .null => true
  | _ => false

def is_boolean : Json → Bool
  | .boolean _ => true
  | _ => false

/-- True for both integer kinds, as in the library. -/
def is_number_integer : Json → Bool
  | .number_integer _ => true
  | .number_unsigned _ => true
  | _ => false

def is_number_float : Json → Bool
  | .number_float _ => true
  | _ => false

def is_number (j : Json) : Bool := j.is_number_integer || j.is_number_float

def is_string : Json → Bool
  | .string _ => true
  | _ => false

def is_array : Json → Bool
  | .array _ => true
  | _ => false

def is_object : Json → Bool
  | .object _ => true
  | _ => false

/-- Member names of an object in iteration order (`begin()` .. `end()`). -/
def keys : Json → List CString
  | .object ms => ms.map Prod.fst
  | _ => []

/-- Membership test `contains(key)`. -/
def contains : Json → CString → Bool
  | .object ms, k => ms.any (fun m => m.1 == k)
  | _, _ => false

/-- Read access `operator[](key) const` of an object that holds `key`. -/
def at_key : Json → CString → Json
  | .object ms, k =>
    match ms.find? (fun m => m.1 == k) with
    | some m => m.2
    | none => .null
  | _, _ => .null

/-- Elements of an array in order; empty for every other kind. -/
def elements : Json → List Json
  | .array es => es
  | _ => []

/-- Accessor `get<bool>()`. -/
def get_bool : Json → Bool
  | .boolean b => b
  | _ => false

/-- Accessor `get<std::string>()`. -/
def get_string : Json → CString
  | .string s => s
  | _ => []

/-- Accessor `get<int64_t>()`: a `static_cast` from the stored kind. -/
def get_int64 : Json → Int
  | .number_integer v => v
  | .number_unsigned v => wrap64 v
  | .number_float d => d.trunc
  | .boolean b => if b then 1 else 0
  | _ => 0

end Json

/-- Library routines used by the marshalling code whose results the repository
does not determine. -/
structure Runtime where
  /-- Serialisation `nlohmann::json::dump()`. -/
  dump : Json → CString
  /-- Parser `std::stoi`; `none` when it throws. -/
  stoi : CString → Option Int
  /-- Parser `std::stoll`; `none` when it throws. -/
  stoll : CString → Option Int
  /-- Parser `std::stod`; `none` when it throws. -/
  stod : CString → Option Double
  /-- Rounding of a 64-bit integer to the nearest `double`. -/
  int_to_double : Int → Double

/-- Accessor `get<double>()`: the stored `double`, or the stored integer
rounded to a `double`. -/
def Json.get_double (rt : Runtime) : Json → Double
  | .number_float d => d
  | .number_integer v => rt.int_to_double v
  | .number_unsigned v => rt.int_to_double v
  | .boolean b => if b then ⟨1, 0⟩ else ⟨0, 0⟩
  | _ => ⟨0, 0⟩

/-- Iteration order of `std::unordered_map<std::string, bool>`: given the
distinct keys in order of first insertion, the order in which a range-for
visits them.  The standard fixes only that every key is visited once. -/
structure HashOrder where
  visit : List CString → List CString
  visit_perm : ∀ ks, (visit ks).Perm ks

/-! ## Result set state -/

structure ColumnInfo where
  name : CString
  sql_type : Int
  column_size : Nat
  decimal_digits : Int
  nullable : Int
  type_name : CString
  deriving DecidableEq, Repr

/-- The members `columns_`, `rows_`, `current_row_` of `ResultSet`. -/
structure ResultSet where
  columns_ : List ColumnInfo
  rows_ : List Json
  current_row_ : Nat

/-- Constructor `ResultSet::ResultSet()`. -/
def ResultSet.new : ResultSet := ⟨[], [], 0⟩

/-! ## Schema inference -/

def infer_sql_type (value : Json) : Int :=
  if value.is_null then SQL_VARCHAR
  else if value.is_boolean then SQL_BIT
  else if value.is_number_integer then
    let v := value.get_int64
    if v ≥ INT32_MIN ∧ v ≤ INT32_MAX then SQL_INTEGER else SQL_BIGINT
  else if value.is_number_float then SQL_DOUBLE
  else if value.is_string then
    let str := value.get_string
    if str.length > 4000 then SQL_LONGVARCHAR else SQL_VARCHAR
  else SQL_LONGVARCHAR

def infer_type_name (sql_type : Int) : CString :=
  if sql_type = SQL_BIT then "BIT".toList
  else if sql_type = SQL_INTEGER then "INTEGER".toList
  else if sql_type = SQL_BIGINT then "BIGINT".toList
  else if sql_type = SQL_DOUBLE then "DOUBLE".toList
  else if sql_type = SQL_VARCHAR then "VARCHAR".toList
  else if sql_type = SQL_LONGVARCHAR then "LONGVARCHAR".toList
  else "VARCHAR".toList

def infer_column_size (sql_type : Int) : Nat :=
  if sql_type = SQL_BIT then 1
  else if sql_type = SQL_INTEGER then 10
  else if sql_type = SQL_BIGINT then 19
  else if sql_type = SQL_DOUBLE then 15
  else if sql_type = SQL_VARCHAR then 4000
  else if sql_type = SQL_LONGVARCHAR then 0
  else 4000

/-- Statement `column_seen[key] = true`: a new key is added, a known key leaves
the key set as it is.  The list keeps the keys in order of first insertion. -/
def seen_insert (seen : List CString) (key : CString) : List CString :=
  if key ∈ seen then seen else seen ++ [key]

/-- First loop of `infer_schema`: the keys of every object row go into
`column_seen`. -/
def collect_columns : List Json → List CString → List CString
  | [], seen => seen
  | row :: rest, seen =>
    if row.is_object then collect_columns rest (row.keys.foldl seen_insert seen)
    else collect_columns rest seen

/-- Inner loop of `infer_schema`: the type of the first sample row holding a
non-null value under `col_name` (the `break`), the running default otherwise. -/
def infer_column_type (col_name : CString) : List Json → Int → Int
  | [], sql_type => sql_type
  | row :: rest, sql_type =>
    if row.is_object && row.contains col_name then
      let value := row.at_key col_name
      if !value.is_null then infer_sql_type value
      else infer_column_type col_name rest sql_type
    else infer_column_type col_name rest sql_type

/-- Body of the second loop of `infer_schema` for one column name. -/
def make_column (sample_rows : List Json) (col_name : CString) : ColumnInfo :=
  let sql_type := infer_column_type col_name sample_rows SQL_VARCHAR
  { name := col_name
    nullable := SQL_NULLABLE
    sql_type := sql_type
    column_size := infer_column_size sql_type
    decimal_digits := 0
    type_name := infer_type_name sql_type }

def infer_schema (ord : HashOrder) (sample_rows : List Json) (rs : ResultSet) : ResultSet :=
  if sample_rows.isEmpty then rs
  else
    let column_seen := ord.visit (collect_columns sample_rows [])
    { rs with columns_ := rs.columns_ ++ column_seen.map (make_column sample_rows) }

def load_from_json (ord : HashOrder) (json_data : Json) (_rs : ResultSet) : ResultSet :=
  let cleared : ResultSet := ⟨[], [], 0⟩
  if !json_data.is_array then cleared
  else
    let sample_size := min json_data.elements.length 50
    let sample_rows := json_data.elements.take sample_size
    let loaded : ResultSet := { cleared with rows_ := cleared.rows_ ++ json_data.elements }
    infer_schema ord sample_rows loaded

def add_row (row : Json) (rs : ResultSet) : ResultSet :=
  { rs with rows_ := rs.rows_ ++ [row] }

def reset (rs : ResultSet) : ResultSet :=
  { rs with current_row_ := 0 }

/-! ## Cursor -/

/-- Method `ResultSet::fetch`: the return code and the state afterwards.  The
increment cannot wrap: it runs only below `rows_.size()`. -/
def fetch (rs : ResultSet) : Int × ResultSet :=
  if rs.current_row_ ≥ rs.rows_.length then (SQL_NO_DATA, rs)
  else (SQL_SUCCESS, { rs with current_row_ := rs.current_row_ + 1 })

/-- Return codes of `n` consecutive calls of `fetch`, first call first. -/
def fetch_codes : Nat → ResultSet → List Int
  | 0, _ => []
  | n + 1, rs => (fetch rs).1 :: fetch_codes n (fetch rs).2

/-- State after `n` consecutive calls of `fetch`. -/
def fetch_times : Nat → ResultSet → ResultSet
  | 0, rs => rs
  | n + 1, rs => fetch_times n (fetch rs).2

/-! ## Marshalling -/

/-- What a call stored through `target_value_ptr`. -/
inductive Written where
  /-- No store through the pointer. -/
  | nothing
  /-- The `char`s stored from offset 0 on, the terminator included. -/
  | text (chars : CString)
  /-- One `unsigned char`. -/
  | bit (b : Nat)
  /-- One `SQLINTEGER` (4 bytes). -/
  | sqlinteger (v : Int)
  /-- One `SQLBIGINT` (8 bytes). -/
  | sqlbigint (v : Int)
  /-- One `double` (8 bytes). -/
  | dbl (d : Double)
  deriving DecidableEq, Repr

/-- Number of bytes stored through `target_value_ptr`. -/
def Written.byte_count : Written → Nat
  | .nothing => 0
  | .text chars => chars.length
  | .bit _ => 1
  | .sqlinteger _ => 4
  | .sqlbigint _ => 8
  | .dbl _ => 8

/-- Outcome of `convert_value`: its `bool` result, the store through
`target_value_ptr`, and the value stored through `str_len_or_ind_ptr`
(`none`: no store). -/
structure Converted where
  ok : Bool
  written : Written
  ind : Option Int
  deriving DecidableEq, Repr

/-- Outcome of `get_data`: the return code and the two stores. -/
structure GetDataResult where
  ret : Int
  written : Written
  ind : Option Int
  deriving DecidableEq, Repr

/-- Guarded store `if (str_len_or_ind_ptr) *str_len_or_ind_ptr = v`. -/
def store_ind (str_len_or_ind_ptr : Bool) (v : Int) : Option Int :=
  if str_len_or_ind_ptr then some v else none

/-- The `memcpy` of `copy_len` chars followed by the terminator store. -/
def copy_text (str_value : CString) (buffer_length : Int) : Written :=
  let copy_len := min str_value.length (to_size_t (buffer_length - 1))
  .text (str_value.take copy_len ++ [Char.ofNat 0])

/-- Method `ResultSet::convert_value`.  The `switch` is read top to bottom.  A
`double` outside the target range makes the integer casts undefined in C++;
the embedding reduces the truncated value modulo 2^32 for the 32-bit target
and keeps it as it is for the 64-bit target. -/
def convert_value (rt : Runtime) (value : Json) (target_type : Int)
    (target_value_ptr : Bool) (buffer_length : Int) (str_len_or_ind_ptr : Bool) : Converted :=
  if !target_value_ptr then
    ⟨true, .nothing, store_ind str_len_or_ind_ptr SQL_NULL_DATA⟩
  else if target_type = SQL_C_CHAR ∨ target_type = SQL_C_WCHAR ∨ target_type = SQL_VARCHAR
      ∨ target_type = SQL_LONGVARCHAR then
    let str_value : CString :=
      if value.is_string then value.get_string
      else if value.is_number then rt.dump value
      else if value.is_boolean then (if value.get_bool then "1".toList else "0".toList)
      else rt.dump value
    ⟨true, copy_text str_value buffer_length, store_ind str_len_or_ind_ptr str_value.length⟩
  else if target_type = SQL_C_BIT then
    let bool_val : Bool :=
      if value.is_boolean then value.get_bool
      else if value.is_number then decide (value.get_int64 ≠ 0)
      else if value.is_string then
        let s := value.get_string
        decide (s = "true".toList ∨ s = "1".toList ∨ s = "yes".toList)
      else false
    ⟨true, .bit (if bool_val then 1 else 0), store_ind str_len_or_ind_ptr 1⟩
  else if target_type = SQL_C_LONG ∨ target_type = SQL_C_SLONG ∨ target_type = SQL_INTEGER then
    let int_val : Option Int :=
      if value.is_number_integer then some (wrap32 value.get_int64)
      else if value.is_number_float then some (wrap32 (value.get_double rt).trunc)
      else if value.is_string then rt.stoi value.get_string
      else some 0
    match int_val with
    | none => ⟨false, .nothing, none⟩
    | some v => ⟨true, .sqlinteger v, store_ind str_len_or_ind_ptr 4⟩
  else if target_type = SQL_C_SBIGINT ∨ target_type = SQL_BIGINT then
    let bigint_val : Option Int :=
      if value.is_number_integer then some value.get_int64
      else if value.is_number_float then some (value.get_double rt).trunc
      else if value.is_string then rt.stoll value.get_string
      else some 0
    match bigint_val with
    | none => ⟨false, .nothing, none⟩
    | some v => ⟨true, .sqlbigint v, store_ind str_len_or_ind_ptr 8⟩
  else if target_type = SQL_C_DOUBLE ∨ target_type = SQL_DOUBLE then
    let double_val : Option Double :=
      if value.is_number then some (value.get_double rt)
      else if value.is_string then rt.stod value.get_string
      else some ⟨0, 0⟩
    match double_val with
    | none => ⟨false, .nothing, none⟩
    | some d => ⟨true, .dbl d, store_ind str_len_or_ind_ptr 8⟩
  else
    let str_value := rt.dump value
    ⟨true, copy_text str_value buffer_length, store_ind str_len_or_ind_ptr str_value.length⟩

def get_data (rt : Runtime) (rs : ResultSet) (column_number : Nat) (target_type : Int)
    (target_value_ptr : Bool) (buffer_length : Int) (str_len_or_ind_ptr : Bool) :
    GetDataResult :=
  if rs.current_row_ = 0 ∨ rs.current_row_ > rs.rows_.length then
    ⟨SQL_ERROR, .nothing, none⟩
  else if column_number < 1 ∨ column_number > rs.columns_.length then
    ⟨SQL_ERROR, .nothing, none⟩
  else
    match rs.columns_[column_number - 1]?, rs.rows_[rs.current_row_ - 1]? with
    | some col_info, some row =>
      if row.is_object && row.contains col_info.name then
        let value := row.at_key col_info.name
        if value.is_null then
          ⟨SQL_SUCCESS, .nothing, store_ind str_len_or_ind_ptr SQL_NULL_DATA⟩
        else
          let c := convert_value rt value target_type target_value_ptr buffer_length
            str_len_or_ind_ptr
          ⟨if c.ok then SQL_SUCCESS else SQL_ERROR, c.written, c.ind⟩
      else
        ⟨SQL_SUCCESS, .nothing, store_ind str_len_or_ind_ptr SQL_NULL_DATA⟩
    | _, _ => ⟨SQL_ERROR, .nothing, none⟩

/-! ## Call sequences -/

/-- The public mutating and reading calls on one `ResultSet`. -/
inductive Op where
  | load_from_json (json_data : Json)
  | add_row (row : Json)
  | fetch
  | get_data (column_number : Nat) (target_type : Int) (target_value_ptr : Bool)
      (buffer_length : Int) (str_len_or_ind_ptr : Bool)
  | reset

/-- State after one call; `get_data` is a `const`-like read of the state. -/
def Op.apply (ord : HashOrder) (rs : ResultSet) : Op → ResultSet
  | .load_from_json j => leafodbc.load_from_json ord j rs
  | .add_row row => leafodbc.add_row row rs
  | .fetch => (leafodbc.fetch rs).2
  | .get_data _ _ _ _ _ => rs
  | .reset => leafodbc.reset rs

/-- State after a sequence of calls on a newly constructed `ResultSet`. -/
def run_ops (ord : HashOrder) (ops : List Op) : ResultSet :=
  ops.foldl (Op.apply ord) ResultSet.new

/-! ## Specification-side definitions -/

/-- The row carries the field `k` with a value other than JSON null. -/
def has_value (row : Json) (k : CString) : Bool :=
  row.is_object && row.contains k && !(row.at_key k).is_null

/-- Column type as the specification words it: the inferred type of the value
in the first of the first 50 rows that carries the field with a non-null value,
and variable-length text when there is no such row. -/
def spec_column_type (rows : List Json) (k : CString) : Int :=
  match (rows.take 50).find? (fun row => has_value row k) with
  | some row => infer_sql_type (row.at_key k)
  | none => SQL_VARCHAR

/-- The order that visits keys as first inserted. -/
def HashOrder.insertion : HashOrder := ⟨fun ks => ks, fun ks => List.Perm.refl ks⟩

/-- A runtime whose serialiser and parsers return fixed results; used where the
outcome does not depend on them. -/
def Runtime.trivial : Runtime :=
  ⟨fun _ => [], fun _ => none, fun _ => none, fun _ => none, fun v => ⟨v, 0⟩⟩

/-- A runtime that serialises the values whose text needs neither escaping nor
number formatting as `nlohmann::json::dump()` does: `true`, `false`, `null`,
and a string of plain chars between double quotes. -/
def Runtime.plain : Runtime :=
  { dump := fun j =>
      match j with
      | .boolean true => "true".toList
      | .boolean false => "false".toList
      | .null => "null".toList
      | .string s => [Char.ofNat 34] ++ s ++ [Char.ofNat 34]
      | _ => []
    stoi := fun _ => none
    stoll := fun _ => none
    stod := fun _ => none
    int_to_double := fun v => ⟨v, 0⟩ }

/-! ## Diagnostics (`handles.cpp`, class `DiagStack`) -/

def SQL_INVALID_HANDLE : Int := -2
def SQL_DIAG_SQLSTATE : Int := 4
def SQL_DIAG_NATIVE : Int := 5
def SQL_DIAG_MESSAGE_TEXT : Int := 6

/-- Two's-complement reinterpretation in 16 bits (`static_cast<SQLSMALLINT>`). -/
def wrap16 (x : Int) : Int := (x + 2 ^ 15) % 2 ^ 16 - 2 ^ 15

structure DiagRecord where
  sqlstate : CString
  native_error : Int
  message : CString
  deriving DecidableEq, Repr

/-- The member `records_` of `DiagStack` (the mutex is not modelled). -/
structure DiagStack where
  records_ : List DiagRecord
  deriving DecidableEq, Repr

/-- Method `DiagStack::add`: insert at the front, then cut back to 10. -/
def DiagStack.add (d : DiagStack) (sqlstate : CString) (native_error : Int) (message : CString) :
    DiagStack :=
  let rec_ : DiagRecord := ⟨sqlstate, native_error, message⟩
  let records := rec_ :: d.records_
  if records.length > 10 then ⟨records.take 10⟩ else ⟨records⟩

def DiagStack.clear (_d : DiagStack) : DiagStack := ⟨[]⟩

/-- Inline method `DiagStack::count`. -/
def DiagStack.count (d : DiagStack) : Int := wrap16 d.records_.length

/-- Stack after adding the given records one after the other. -/
def DiagStack.add_all (d : DiagStack) (pushes : List DiagRecord) : DiagStack :=
  pushes.foldl (fun acc r => acc.add r.sqlstate r.native_error r.message) d

/-- Outcome of `get_record`: the return code and what was stored through each
output pointer (`none`: no store).  Text stores list the chars written from
offset 0 on, a terminator included where one is written. -/
structure DiagRecResult where
  ret : Int
  sqlstate : Option CString
  native_error : Option Int
  message_text : Option CString
  text_length : Option Int
  deriving DecidableEq, Repr

/-- Method `DiagStack::get_record`.  The four pointers are given by their
non-nullness. -/
def DiagStack.get_record (d : DiagStack) (rec_number : Int) (sqlstate : Bool)
    (native_error : Bool) (message_text : Bool) (buffer_length : Int) (text_length : Bool) :
    DiagRecResult :=
  if rec_number < 1 ∨ rec_number > wrap16 d.records_.length then
    ⟨SQL_NO_DATA, none, none, none, none⟩
  else
    match d.records_[(rec_number - 1).toNat]? with
    | none => ⟨SQL_NO_DATA, none, none, none, none⟩
    | some rec_ =>
      let state_out : Option CString :=
        if sqlstate then
          let len := min rec_.sqlstate.length 5
          some (rec_.sqlstate.take len ++ (if len < 5 then [Char.ofNat 0] else []))
        else none
      let native_out : Option Int := if native_error then some rec_.native_error else none
      if message_text ∧ buffer_length > 0 then
        let len := min rec_.message.length (to_size_t (buffer_length - 1))
        ⟨SQL_SUCCESS, state_out, native_out, some (rec_.message.take len ++ [Char.ofNat 0]),
          if text_length then some (wrap16 len) else none⟩
      else
        ⟨SQL_SUCCESS, state_out, native_out, none,
          if text_length then some (wrap16 rec_.message.length) else none⟩

/-- What `get_field` stored through `diag_info_ptr`. -/
inductive DiagInfo where
  | nothing
  | text (chars : CString)
  | integer (v : Int)
  deriving DecidableEq, Repr

structure DiagFieldResult where
  ret : Int
  info : DiagInfo
  string_length : Option Int
  deriving DecidableEq, Repr

/-- Method `DiagStack::get_field`. -/
def DiagStack.get_field (d : DiagStack) (rec_number : Int) (diag_identifier : Int)
    (diag_info_ptr : Bool) (buffer_length : Int) (string_length : Bool) : DiagFieldResult :=
  if rec_number < 1 ∨ rec_number > wrap16 d.records_.length then
    ⟨SQL_NO_DATA, .nothing, none⟩
  else
    match d.records_[(rec_number - 1).toNat]? with
    | none => ⟨SQL_NO_DATA, .nothing, none⟩
    | some rec_ =>
      if diag_identifier = SQL_DIAG_SQLSTATE then
        if diag_info_ptr ∧ buffer_length ≥ 6 then
          let len := min rec_.sqlstate.length 5
          ⟨SQL_SUCCESS, .text (rec_.sqlstate.take len ++ [Char.ofNat 0]),
            if string_length then some (wrap16 len) else none⟩
        else ⟨SQL_ERROR, .nothing, none⟩
      else if diag_identifier = SQL_DIAG_NATIVE then
        if diag_info_ptr then ⟨SQL_SUCCESS, .integer rec_.native_error, none⟩
        else ⟨SQL_ERROR, .nothing, none⟩
      else if diag_identifier = SQL_DIAG_MESSAGE_TEXT then
        if diag_info_ptr ∧ buffer_length > 0 then
          let len := min rec_.message.length (to_size_t (buffer_length - 1))
          ⟨SQL_SUCCESS, .text (rec_.message.take len ++ [Char.ofNat 0]),
            if string_length then some (wrap16 len) else none⟩
        else ⟨SQL_ERROR, .nothing, none⟩
      else ⟨SQL_ERROR, .nothing, none⟩

/-! ## Handles (`handles.h`, `handles.cpp`, class `HandleRegistry`) -/

def SQL_OV_ODBC3 : Nat := 3
def DEFAULT_ENDPOINT_BASE : CString := "https://api.withleaf.io".toList
def DEFAULT_SQL_ENGINE : CString := "SPARK_SQL".toList
def DEFAULT_REMEMBER_ME : Bool := true
def DEFAULT_TIMEOUT_SEC : Int := 60
def DEFAULT_VERIFY_TLS : Bool := true
def DEFAULT_USER_AGENT : CString := "LeafODBC/0.1".toList

/-- Struct `EnvHandle` (mutexes are not modelled). -/
structure EnvHandle where
  odbc_version : Nat
  diag : DiagStack

/-- Struct `ConnHandle`; the time stamp `token_obtained_at` is left out. -/
structure ConnHandle where
  endpoint_base : CString
  username : CString
  password : CString
  remember_me : Bool
  sql_engine : CString
  timeout_sec : Int
  verify_tls : Bool
  user_agent : CString
  auth_token : CString
  token_valid : Bool
  diag : DiagStack

/-- Struct `StmtHandle`; `conn_handle` 0 is the null pointer and `resultset`
`none` is the empty `unique_ptr`. -/
structure StmtHandle where
  conn_handle : Nat
  sql_text : CString
  prepared : Bool
  resultset : Option ResultSet
  current_row : Nat
  executed : Bool
  diag : DiagStack

/-- Default member initialisers of `EnvHandle`. -/
def EnvHandle.new : EnvHandle := ⟨SQL_OV_ODBC3, ⟨[]⟩⟩

/-- Default member initialisers of `ConnHandle`. -/
def ConnHandle.new : ConnHandle :=
  { endpoint_base := DEFAULT_ENDPOINT_BASE
    username := []
    password := []
    remember_me := DEFAULT_REMEMBER_ME
    sql_engine := DEFAULT_SQL_ENGINE
    timeout_sec := DEFAULT_TIMEOUT_SEC
    verify_tls := DEFAULT_VERIFY_TLS
    user_agent := DEFAULT_USER_AGENT
    auth_token := []
    token_valid := false
    diag := ⟨[]⟩ }

/-- Default member initialisers of `StmtHandle`. -/
def StmtHandle.new : StmtHandle :=
  { conn_handle := 0
    sql_text := []
    prepared := false
    resultset := none
    current_row := 0
    executed := false
    diag := ⟨[]⟩ }

def ConnHandle.is_connected (c : ConnHandle) : Bool := c.token_valid && !c.auth_token.isEmpty

/-- A `std::unordered_map` from handle values to owned objects. -/
abbrev HandleMap (α : Type) := List (Nat × α)

/-- Lookup `find(h)`: the mapped object, `none` for `end()`. -/
def HandleMap.find {α : Type} (m : HandleMap α) (h : Nat) : Option α :=
  match m with
  | [] => none
  | (k, v) :: rest => if k = h then some v else HandleMap.find rest h

/-- Removal `erase(it)` of the entry under `h`. -/
def HandleMap.erase {α : Type} (m : HandleMap α) (h : Nat) : HandleMap α :=
  m.filter (fun p => decide (p.1 ≠ h))

/-- Assignment `m[h] = v`: a new entry, or a new object under a known key. -/
def HandleMap.assign {α : Type} (m : HandleMap α) (h : Nat) (v : α) : HandleMap α :=
  (h, v) :: HandleMap.erase m h

/-- The data members of `HandleRegistry`.  A handle is the numeric value of
the pointer (`uintptr_t`, 64 bits). -/
structure HandleRegistry where
  env_handles_ : HandleMap EnvHandle
  conn_handles_ : HandleMap ConnHandle
  stmt_handles_ : HandleMap StmtHandle
  next_env_handle_ : Nat
  next_conn_handle_ : Nat
  next_stmt_handle_ : Nat

/-- A newly constructed registry: empty maps, the three counters at 1. -/
def HandleRegistry.new : HandleRegistry := ⟨[], [], [], 1, 1, 1⟩

/-- Outcome of an allocation: return code, the handle stored through the
output pointer (`none`: no store) and the registry afterwards. -/
structure AllocResult where
  ret : Int
  out : Option Nat
  reg : HandleRegistry

/-- The successor `reinterpret_cast<uintptr_t>(next) + 1` in 64 bits. -/
def next_handle (next : Nat) : Nat := (next + 1) % 2 ^ 64

namespace HandleRegistry

def alloc_env (reg : HandleRegistry) (env_handle : Bool) : AllocResult :=
  if !env_handle then ⟨SQL_ERROR, none, reg⟩
  else
    let h := next_handle reg.next_env_handle_
    ⟨SQL_SUCCESS, some h,
      { reg with next_env_handle_ := h, env_handles_ := reg.env_handles_.assign h EnvHandle.new }⟩

def alloc_connect (reg : HandleRegistry) (env_handle : Nat) (conn_handle : Bool) : AllocResult :=
  if !conn_handle then ⟨SQL_ERROR, none, reg⟩
  else if (reg.env_handles_.find env_handle).isNone then ⟨SQL_INVALID_HANDLE, none, reg⟩
  else
    let h := next_handle reg.next_conn_handle_
    ⟨SQL_SUCCESS, some h,
      { reg with next_conn_handle_ := h
                 conn_handles_ := reg.conn_handles_.assign h ConnHandle.new }⟩

def alloc_stmt (reg : HandleRegistry) (conn_handle : Nat) (stmt_handle : Bool) : AllocResult :=
  if !stmt_handle then ⟨SQL_ERROR, none, reg⟩
  else if (reg.conn_handles_.find conn_handle).isNone then ⟨SQL_INVALID_HANDLE, none, reg⟩
  else
    let handle : StmtHandle := { StmtHandle.new with conn_handle := conn_handle }
    let h := next_handle reg.next_stmt_handle_
    ⟨SQL_SUCCESS, some h,
      { reg with next_stmt_handle_ := h, stmt_handles_ := reg.stmt_handles_.assign h handle }⟩

def free_env (reg : HandleRegistry) (env_handle : Nat) : Int × HandleRegistry :=
  if (reg.env_handles_.find env_handle).isNone then (SQL_INVALID_HANDLE, reg)
  else (SQL_SUCCESS, { reg with env_handles_ := reg.env_handles_.erase env_handle })

def free_connect (reg : HandleRegistry) (conn_handle : Nat) : Int × HandleRegistry :=
  if (reg.conn_handles_.find conn_handle).isNone then (SQL_INVALID_HANDLE, reg)
  else (SQL_SUCCESS, { reg with conn_handles_ := reg.conn_handles_.erase conn_handle })

def free_stmt (reg : HandleRegistry) (stmt_handle : Nat) : Int × HandleRegistry :=
  if (reg.stmt_handles_.find stmt_handle).isNone then (SQL_INVALID_HANDLE, reg)
  else (SQL_SUCCESS, { reg with stmt_handles_ := reg.stmt_handles_.erase stmt_handle })

/-- Lookup `get_env`: `none` is the null pointer. -/
def get_env (reg : HandleRegistry) (env_handle : Nat) : Option EnvHandle :=
  reg.env_handles_.find env_handle

def get_conn (reg : HandleRegistry) (conn_handle : Nat) : Option ConnHandle :=
  reg.conn_handles_.find conn_handle

def get_stmt (reg : HandleRegistry) (stmt_handle : Nat) : Option StmtHandle :=
  reg.stmt_handles_.find stmt_handle

end HandleRegistry

/-- The three kinds of handle. -/
inductive HandleKind where
  | env
  | conn
  | stmt
  deriving DecidableEq, Repr

/-- One allocation or free on the registry. -/
inductive RegistryOp where
  | alloc_env (out : Bool)
  | alloc_connect (env_handle : Nat) (out : Bool)
  | alloc_stmt (conn_handle : Nat) (out : Bool)
  | free_env (h : Nat)
  | free_connect (h : Nat)
  | free_stmt (h : Nat)

/-- Registry after one call, and the identifier handed out when the call is an
allocation that succeeded. -/
def RegistryOp.apply (reg : HandleRegistry) : RegistryOp → HandleRegistry × Option (HandleKind × Nat)
  | .alloc_env out =>
    ((reg.alloc_env out).reg, (reg.alloc_env out).out.map (fun h => (HandleKind.env, h)))
  | .alloc_connect e out =>
    ((reg.alloc_connect e out).reg,
      (reg.alloc_connect e out).out.map (fun h => (HandleKind.conn, h)))
  | .alloc_stmt c out =>
    ((reg.alloc_stmt c out).reg, (reg.alloc_stmt c out).out.map (fun h => (HandleKind.stmt, h)))
  | .free_env h => ((reg.free_env h).2, none)
  | .free_connect h => ((reg.free_connect h).2, none)
  | .free_stmt h => ((reg.free_stmt h).2, none)

/-- Identifiers handed out, in order, by a sequence of calls. -/
def issued : List RegistryOp → HandleRegistry → List (HandleKind × Nat)
  | [], _ => []
  | op :: ops, reg => (op.apply reg).2.toList ++ issued ops (op.apply reg).1

/-- Identifiers of one kind handed out, in order, by a sequence of calls. -/
def issued_of (k : HandleKind) (ops : List RegistryOp) (reg : HandleRegistry) : List Nat :=
  ((issued ops reg).filter (fun p => decide (p.1 = k))).map Prod.snd

/-- The counter `next_*_handle_` of one kind. -/
def HandleRegistry.counter (reg : HandleRegistry) : HandleKind → Nat
  | .env => reg.next_env_handle_
  | .conn => reg.next_conn_handle_
  | .stmt => reg.next_stmt_handle_

/-! ## Statement guard (`sql_guard.cpp`, class `SQLGuard`) -/

/-- Function `::toupper` in the C locale. -/
def c_toupper (c : Char) : Char :=
  if 'a' ≤ c ∧ c ≤ 'z' then Char.ofNat (c.toNat - 32) else c

/-- Function `std::isalnum` in the C locale. -/
def c_isalnum (c : Char) : Bool :=
  decide (('0' ≤ c ∧ c ≤ '9') ∨ ('A' ≤ c ∧ c ≤ 'Z') ∨ ('a' ≤ c ∧ c ≤ 'z'))

/-- The string starts with `needle`. -/
def starts_with : CString → CString → Bool
  | _, [] => true
  | [], _ :: _ => false
  | c :: cs, n :: ns => c == n && starts_with cs ns

/-- Search for `needle` in the rest `s` of a string whose first char has index
`i`: the index of the first occurrence. -/
def find_at : CString → CString → Nat → Option Nat
  | [], needle, i => if starts_with [] needle then some i else none
  | c :: cs, needle, i =>
    if starts_with (c :: cs) needle then some i else find_at cs needle (i + 1)

/-- Method `std::string::find(needle)`; `none` is `npos`. -/
def str_find (s needle : CString) : Option Nat := find_at s needle 0

/-- Method `std::string::find(needle, pos)`; `none` is `npos`. -/
def str_find_from (s needle : CString) (pos : Nat) : Option Nat :=
  if pos > s.length then none else find_at (s.drop pos) needle pos

/-- Membership in the set of blanks, tab, carriage return and line feed. -/
def is_trim_char (c : Char) : Bool :=
  c == Char.ofNat 32 || c == Char.ofNat 9 || c == Char.ofNat 13 || c == Char.ofNat 10

namespace SQLGuard

def trim (str : CString) : CString :=
  match str.findIdx? (fun c => !is_trim_char c) with
  | none => []
  | some first =>
    match str.reverse.findIdx? (fun c => !is_trim_char c) with
    | none => []
    | some back =>
      let last := str.length - 1 - back
      (str.drop first).take (last - first + 1)

def normalize_sql (sql : CString) : CString := (trim sql).map c_toupper

def is_select (sql : CString) : Bool :=
  let normalized := normalize_sql sql
  if normalized.take 6 = "SELECT".toList then true
  else
    match str_find normalized "WITH".toList with
    | none => false
    | some with_pos =>
      if with_pos < 20 then (str_find_from normalized "SELECT".toList with_pos).isSome
      else false

def blocked_keywords : List CString :=
  ["INSERT".toList, "UPDATE".toList, "DELETE".toList, "DROP".toList, "CREATE".toList,
    "ALTER".toList, "TRUNCATE".toList, "GRANT".toList, "REVOKE".toList, "COMMIT".toList,
    "ROLLBACK".toList]

/-- Body of the keyword loop of `is_allowed`: the first occurrence of the
keyword stands as a whole word, which makes the loop return `false`. -/
def keyword_blocks (normalized keyword : CString) : Bool :=
  match str_find normalized keyword with
  | none => false
  | some pos =>
    if pos = 0 ∨ !c_isalnum (normalized.getD (pos - 1) (Char.ofNat 0)) then
      let end_ := pos + keyword.length
      if end_ ≥ normalized.length ∨ !c_isalnum (normalized.getD end_ (Char.ofNat 0)) then true
      else false
    else false

def is_allowed (sql : CString) : Bool :=
  let normalized := normalize_sql sql
  if blocked_keywords.any (keyword_blocks normalized) then false
  else is_select sql

end SQLGuard

/-! ## Backend client (`leaf_client.cpp`, class `LeafClient`) -/

/-- One HTTP request as the backend sees it. -/
inductive Request where
  | authenticate (username password : CString) (remember_me : Bool)
  | query (sql sql_engine auth_token : CString)
  deriving DecidableEq, Repr

def Request.is_query : Request → Bool
  | .query _ _ _ => true
  | _ => false

def Request.is_authenticate : Request → Bool
  | .authenticate _ _ _ => true
  | _ => false

/-- Outcome of `http_post`: whether the transfer completed, the status code
and the body. -/
structure HttpResponse where
  ok : Bool
  status_code : Int
  body : CString
  deriving DecidableEq, Repr

/-- The collaborators of the driver that the repository does not determine:
the behaviour of the backend (its answer to the latest of the requests sent so
far), the JSON parser (`none` when it throws), the unordered-map iteration
order, and the catalog provider's GEOMETRY_COLUMNS result. -/
structure World where
  backend : List Request → HttpResponse
  parse : CString → Option Json
  ord : HashOrder
  geometry_columns : ResultSet

structure LeafClient where
  endpoint_base_ : CString
  user_agent_ : CString
  timeout_sec_ : Int
  verify_tls_ : Bool
  auth_token_ : CString

/-- Method `http_post`: the request is appended to the requests sent so far
and the backend answers. -/
def http_post (w : World) (sent : List Request) (req : Request) : HttpResponse × List Request :=
  (w.backend (sent ++ [req]), sent ++ [req])

structure AuthResult where
  ok : Bool
  client : LeafClient
  sent : List Request

def LeafClient.authenticate (w : World) (c : LeafClient) (sent : List Request)
    (username password : CString) (remember_me : Bool) : AuthResult :=
  let post := http_post w sent (.authenticate username password remember_me)
  if !post.1.ok then ⟨false, c, post.2⟩
  else if post.1.status_code ≠ 200 then ⟨false, c, post.2⟩
  else
    match w.parse post.1.body with
    | none => ⟨false, c, post.2⟩
    | some result =>
      if result.contains "id_token".toList then
        match result.at_key "id_token".toList with
        | .string token => ⟨true, { c with auth_token_ := token }, post.2⟩
        | _ => ⟨false, c, post.2⟩
      else ⟨false, c, post.2⟩

/-- The two accepted response formats of `execute_query`. -/
def normalize_payload (result : Json) : Json :=
  if result.is_array then result
  else if result.is_object && result.contains "rows".toList then
    if (result.at_key "rows".toList).is_array then result.at_key "rows".toList
    else if (result.at_key "rows".toList).is_object
        && (result.at_key "rows".toList).contains "rows".toList then
      (result.at_key "rows".toList).at_key "rows".toList
    else result
  else result

structure QueryResult where
  ok : Bool
  result : Json
  sent : List Request

/-- Method `execute_query`; `result` is the in-out parameter. -/
def LeafClient.execute_query (w : World) (c : LeafClient) (sent : List Request)
    (sql sql_engine : CString) (result : Json) : QueryResult :=
  if c.auth_token_.isEmpty then ⟨false, result, sent⟩
  else
    let post := http_post w sent (.query sql sql_engine c.auth_token_)
    if !post.1.ok then ⟨false, result, post.2⟩
    else if post.1.status_code = 401 then ⟨false, result, post.2⟩
    else if post.1.status_code ≠ 200 then ⟨false, result, post.2⟩
    else
      match w.parse post.1.body with
      | none => ⟨false, result, post.2⟩
      | some parsed => ⟨true, normalize_payload parsed, post.2⟩

/-! ## Statement execution (`odbc_api.cpp`) -/

/-- Replacement of the object stored under a live handle (a write through the
pointer that `find` returned). -/
def HandleMap.update {α : Type} (m : HandleMap α) (h : Nat) (v : α) : HandleMap α :=
  m.map (fun p => if p.1 = h then (p.1, v) else p)

def HandleRegistry.set_stmt (reg : HandleRegistry) (h : Nat) (s : StmtHandle) : HandleRegistry :=
  { reg with stmt_handles_ := reg.stmt_handles_.update h s }

def HandleRegistry.set_conn (reg : HandleRegistry) (h : Nat) (c : ConnHandle) : HandleRegistry :=
  { reg with conn_handles_ := reg.conn_handles_.update h c }

/-- Outcome of an API call that may talk to the backend: return code, registry
afterwards, and all requests sent so far. -/
structure ExecResult where
  ret : Int
  reg : HandleRegistry
  sent : List Request

/-- The metadata test of `SQLExecDirect` on the upper-cased text. -/
def is_geometry_query (sql : CString) : Bool :=
  (str_find (sql.map c_toupper) "GEOMETRY_COLUMNS".toList).isSome
    && (str_find (sql.map c_toupper) "SELECT".toList).isSome

/-- Tail of `SQLExecDirect`: install the result set built from the payload. -/
def exec_load (w : World) (reg : HandleRegistry) (statement_handle : Nat) (stmt : StmtHandle)
    (json_result : Json) (sent : List Request) : ExecResult :=
  ⟨SQL_SUCCESS,
    reg.set_stmt statement_handle
      { stmt with resultset := some (load_from_json w.ord json_result ResultSet.new)
                  executed := true
                  current_row := 0 },
    sent⟩

/-- An error exit of `SQLExecDirect`: one record on the statement, `SQL_ERROR`. -/
def exec_fail (reg : HandleRegistry) (statement_handle : Nat) (stmt : StmtHandle)
    (sqlstate message : CString) (sent : List Request) : ExecResult :=
  ⟨SQL_ERROR,
    reg.set_stmt statement_handle { stmt with diag := stmt.diag.add sqlstate 0 message }, sent⟩

/-- Part of `SQLExecDirect` after the connection has been found connected: the
query, the single re-authentication with retry, and the load of the result. -/
def exec_backend (w : World) (reg : HandleRegistry) (sent : List Request)
    (statement_handle : Nat) (stmt : StmtHandle) (conn : ConnHandle) (sql : CString) :
    ExecResult :=
  let client : LeafClient :=
    ⟨conn.endpoint_base, conn.user_agent, conn.timeout_sec, conn.verify_tls, conn.auth_token⟩
  let q1 := client.execute_query w sent sql conn.sql_engine .null
  if !q1.ok then
    if conn.token_valid then
      let a := client.authenticate w q1.sent conn.username conn.password conn.remember_me
      if a.ok then
        let reg1 := reg.set_conn stmt.conn_handle { conn with auth_token := a.client.auth_token_ }
        let q2 := a.client.execute_query w a.sent sql conn.sql_engine q1.result
        if !q2.ok then
          exec_fail reg1 statement_handle stmt "HY000".toList
            "Query execution failed".toList q2.sent
        else exec_load w reg1 statement_handle stmt q2.result q2.sent
      else
        exec_fail reg statement_handle stmt "28000".toList
          "Reauthentication failed".toList a.sent
    else
      exec_fail reg statement_handle stmt "HY000".toList "Query execution failed".toList q1.sent
  else exec_load w reg statement_handle stmt q1.result q1.sent

/-- Function `SQLExecDirect`.  `statement_text` is the text that the pointer
and length argument denote (`none`: null pointer); `sent` lists the requests
sent before the call. -/
def SQLExecDirect (w : World) (reg : HandleRegistry) (sent : List Request)
    (statement_handle : Nat) (statement_text : Option CString) : ExecResult :=
  match reg.get_stmt statement_handle with
  | none => ⟨SQL_INVALID_HANDLE, reg, sent⟩
  | some stmt0 =>
    let sql : CString := statement_text.getD []
    let stmt : StmtHandle :=
      { stmt0 with diag := stmt0.diag.clear
                   sql_text := sql
                   executed := false
                   resultset := none
                   current_row := 0 }
    if is_geometry_query sql then
      ⟨SQL_SUCCESS,
        reg.set_stmt statement_handle
          { stmt with resultset := some w.geometry_columns, executed := true },
        sent⟩
    else if !SQLGuard.is_allowed sql then
      exec_fail reg statement_handle stmt "42000".toList
        "Only SELECT statements are allowed".toList sent
    else if stmt.conn_handle = 0 then
      exec_fail reg statement_handle stmt "08003".toList "Connection does not exist".toList sent
    else
      match reg.get_conn stmt.conn_handle with
      | none =>
        exec_fail reg statement_handle stmt "08003".toList
          "Connection not established".toList sent
      | some conn =>
        if !conn.is_connected then
          exec_fail reg statement_handle stmt "08003".toList
            "Connection not established".toList sent
        else exec_backend w reg sent statement_handle stmt conn sql

/-- A world whose backend never completes a transfer. -/
def World.offline : World :=
  { backend := fun _ => ⟨false, 0, []⟩
    parse := fun _ => none
    ord := HashOrder.insertion
    geometry_columns := ResultSet.new }

/-- A registry holding one environment and one statement (both with handle 2)
whose connection (handle 2) has been freed after the statement was allocated. -/
def HandleRegistry.orphaned : HandleRegistry :=
  ((((HandleRegistry.new.alloc_env true).reg.alloc_connect 2 true).reg.alloc_stmt 2
    true).reg.free_connect 2).2

/-! ## Connection strings (`conn_string.cpp`, class `ConnectionStringParser`) -/

/-- Struct `ConnectionParams`. -/
structure ConnectionParams where
  endpoint_base : CString
  username : CString
  password : CString
  remember_me : Bool
  sql_engine : CString
  timeout_sec : Int
  verify_tls : Bool
  user_agent : CString
  deriving DecidableEq, Repr

/-- Default member initialisers of `ConnectionParams`. -/
def ConnectionParams.new : ConnectionParams :=
  { endpoint_base := DEFAULT_ENDPOINT_BASE
    username := []
    password := []
    remember_me := DEFAULT_REMEMBER_ME
    sql_engine := DEFAULT_SQL_ENGINE
    timeout_sec := DEFAULT_TIMEOUT_SEC
    verify_tls := DEFAULT_VERIFY_TLS
    user_agent := DEFAULT_USER_AGENT }

/-- Function `::tolower` in the C locale. -/
def c_tolower (c : Char) : Char :=
  if 'A' ≤ c ∧ c ≤ 'Z' then Char.ofNat (c.toNat + 32) else c

namespace ConnectionStringParser

def trim (str : CString) : CString :=
  match str.findIdx? (fun c => !is_trim_char c) with
  | none => []
  | some first =>
    match str.reverse.findIdx? (fun c => !is_trim_char c) with
    | none => []
    | some back =>
      let last := str.length - 1 - back
      (str.drop first).take (last - first + 1)

def to_lower (str : CString) : CString := str.map c_tolower

def parse_bool (value : CString) : Bool :=
  let lower := to_lower (trim value)
  decide (lower = "true".toList ∨ lower = "1".toList ∨ lower = "yes".toList
    ∨ lower = "on".toList)

/-- Function `parse_int`: `std::stoi` of the trimmed value, 0 when it throws. -/
def parse_int (rt : Runtime) (value : CString) : Int :=
  match rt.stoi (trim value) with
  | some v => v
  | none => 0

/-- Assignment `params[key] = value` on the `unordered_map` of pairs, kept as
the list of entries in order of first insertion. -/
def pairs_set (params : List (CString × CString)) (key value : CString) :
    List (CString × CString) :=
  if params.any (fun p => p.1 == key) then
    params.map (fun p => if p.1 == key then (p.1, value) else p)
  else params ++ [(key, value)]

/-- The local variables of `parse_key_value_pairs`. -/
structure KvState where
  params : List (CString × CString)
  current_key : CString
  current_value : CString
  in_key : Bool
  in_quoted_value : Bool
  deriving DecidableEq, Repr

/-- One iteration of the loop of `parse_key_value_pairs` on the char `c`;
`prev` is `conn_str[i-1]`, `none` when `i` is 0. -/
def kv_step (st : KvState) (prev : Option Char) (c : Char) : KvState :=
  if st.in_quoted_value then
    if c = Char.ofNat 34 ∧ (prev = none ∨ prev ≠ some (Char.ofNat 92)) then
      { params := pairs_set st.params (to_lower st.current_key) st.current_value
        current_key := []
        current_value := []
        in_key := true
        in_quoted_value := false }
    else { st with current_value := st.current_value ++ [c] }
  else if c = '=' ∧ st.in_key = true ∧ st.current_key.isEmpty = false then
    { st with in_key := false }
  else if c = Char.ofNat 59 ∨ c = Char.ofNat 0 then
    if st.current_key.isEmpty = false then
      { st with params := pairs_set st.params (to_lower st.current_key) (trim st.current_value)
                current_key := []
                current_value := []
                in_key := true }
    else { st with in_key := true }
  else if c = Char.ofNat 34 ∧ st.in_key = false then
    { st with in_quoted_value := true }
  else if st.in_key then { st with current_key := st.current_key ++ [c] }
  else { st with current_value := st.current_value ++ [c] }

/-- The loop of `parse_key_value_pairs` over the rest of the string. -/
def kv_loop : KvState → Option Char → CString → KvState
  | st, _, [] => st
  | st, prev, c :: rest => kv_loop (kv_step st prev c) (some c) rest

def parse_key_value_pairs (conn_str : CString) : List (CString × CString) :=
  let st := kv_loop ⟨[], [], [], true, false⟩ none conn_str
  if st.current_key.isEmpty = false then
    pairs_set st.params (to_lower st.current_key) (trim st.current_value)
  else st.params

/-- The key dispatch shared by `parse` and `parse_dsn`: one recognised option
is stored in `params`, any other key is ignored. -/
def apply_option (rt : Runtime) (params : ConnectionParams) (key value : CString) :
    ConnectionParams :=
  if key = "endpointbase".toList ∨ key = "endpoint_base".toList then
    { params with endpoint_base := value }
  else if key = "username".toList ∨ key = "uid".toList ∨ key = "user".toList then
    { params with username := value }
  else if key = "password".toList ∨ key = "pwd".toList then
    { params with password := value }
  else if key = "rememberme".toList ∨ key = "remember_me".toList then
    { params with remember_me := parse_bool value }
  else if key = "sqlengine".toList ∨ key = "sql_engine".toList then
    { params with sql_engine := value }
  else if key = "timeoutsec".toList ∨ key = "timeout_sec".toList ∨ key = "timeout".toList then
    let t := parse_int rt value
    { params with timeout_sec := if t ≤ 0 then DEFAULT_TIMEOUT_SEC else t }
  else if key = "verifytls".toList ∨ key = "verify_tls".toList ∨ key = "sslverify".toList then
    { params with verify_tls := parse_bool value }
  else if key = "useragent".toList ∨ key = "user_agent".toList then
    { params with user_agent := value }
  else params

/-- Value stored under `key` in the map of pairs. -/
def pairs_get (pairs : List (CString × CString)) (key : CString) : CString :=
  match pairs.find? (fun p => p.1 == key) with
  | some p => p.2
  | none => []

/-- Function `parse`: the pairs are visited in the iteration order of the
`unordered_map`. -/
def parse (rt : Runtime) (ord : HashOrder) (conn_str : CString) : ConnectionParams :=
  let pairs := parse_key_value_pairs conn_str
  (ord.visit (pairs.map Prod.fst)).foldl
    (fun params key => apply_option rt params key (pairs_get pairs key)) ConnectionParams.new

def merge (dsn_params conn_str_params : ConnectionParams) : ConnectionParams :=
  let m1 := if conn_str_params.endpoint_base.isEmpty = false then
    { dsn_params with endpoint_base := conn_str_params.endpoint_base } else dsn_params
  let m2 := if conn_str_params.username.isEmpty = false then
    { m1 with username := conn_str_params.username } else m1
  let m3 := if conn_str_params.password.isEmpty = false then
    { m2 with password := conn_str_params.password } else m2
  let m4 := if conn_str_params.remember_me ≠ DEFAULT_REMEMBER_ME then
    { m3 with remember_me := conn_str_params.remember_me } else m3
  let m5 := if conn_str_params.sql_engine.isEmpty = false then
    { m4 with sql_engine := conn_str_params.sql_engine } else m4
  let m6 := if conn_str_params.timeout_sec > 0 then
    { m5 with timeout_sec := conn_str_params.timeout_sec } else m5
  let m7 := if conn_str_params.verify_tls ≠ DEFAULT_VERIFY_TLS then
    { m6 with verify_tls := conn_str_params.verify_tls } else m6
  if conn_str_params.user_agent.isEmpty = false then
    { m7 with user_agent := conn_str_params.user_agent } else m7

end ConnectionStringParser

/-! ## Connection calls (`odbc_api.cpp`) -/

/-- The block `conn->endpoint_base = params.endpoint_base; ...` that copies the
eight configuration members into the connection. -/
def ConnHandle.apply_params (conn : ConnHandle) (p : ConnectionParams) : ConnHandle :=
  { conn with endpoint_base := p.endpoint_base
              username := p.username
              password := p.password
              remember_me := p.remember_me
              sql_engine := p.sql_engine
              timeout_sec := p.timeout_sec
              verify_tls := p.verify_tls
              user_agent := p.user_agent }

/-- Outcome of the authentication block shared by `SQLConnect` and
`SQLDriverConnect`: whether it succeeded, the connection object afterwards and
the requests sent. -/
structure ConnectStep where
  ok : Bool
  conn : ConnHandle
  sent : List Request

/-- The block `// Authenticate` of `SQLConnect` and `SQLDriverConnect`: a new
client without token authenticates with the stored credentials. -/
def connect_authenticate (w : World) (sent : List Request) (conn : ConnHandle) : ConnectStep :=
  let client : LeafClient :=
    ⟨conn.endpoint_base, conn.user_agent, conn.timeout_sec, conn.verify_tls, []⟩
  let a := client.authenticate w sent conn.username conn.password conn.remember_me
  if !a.ok then
    ⟨false, { conn with diag := conn.diag.add "28000".toList 0 "Authentication failed".toList },
      a.sent⟩
  else ⟨true, { conn with auth_token := a.client.auth_token_, token_valid := true }, a.sent⟩

/-- The configuration that `SQLConnect` builds: the DSN parameters, with the
user name and password arguments put in where they are not empty.  `dsn`, `uid`
and `pwd` are the texts that the pointer and length arguments denote (`none`:
null pointer); `parse_dsn` is the result of
`ConnectionStringParser::parse_dsn`, which reads the persisted configuration
from the file system. -/
def connect_params (parse_dsn : CString → ConnectionParams) (dsn uid pwd : Option CString) :
    ConnectionParams :=
  let dsn_str : CString := dsn.getD []
  let uid_str : CString := uid.getD []
  let pwd_str : CString := pwd.getD []
  let p0 := parse_dsn dsn_str
  let p1 := if uid_str.isEmpty = false then { p0 with username := uid_str } else p0
  if pwd_str.isEmpty = false then { p1 with password := pwd_str } else p1

/-- Function `SQLConnect`. -/
def SQLConnect (w : World) (parse_dsn : CString → ConnectionParams) (reg : HandleRegistry)
    (sent : List Request) (connection_handle : Nat) (dsn uid pwd : Option CString) :
    ExecResult :=
  match reg.get_conn connection_handle with
  | none => ⟨SQL_INVALID_HANDLE, reg, sent⟩
  | some conn0 =>
    let conn : ConnHandle := { conn0 with diag := conn0.diag.clear }
    let step := connect_authenticate w sent
      (conn.apply_params (connect_params parse_dsn dsn uid pwd))
    if !step.ok then ⟨SQL_ERROR, reg.set_conn connection_handle step.conn, step.sent⟩
    else ⟨SQL_SUCCESS, reg.set_conn connection_handle step.conn, step.sent⟩

/-- Outcome of `SQLDriverConnect`: as `ExecResult`, with the chars stored
through `out_connection_string` and the value stored through
`string_length2_ptr` (`none`: no store). -/
structure DriverConnectResult where
  ret : Int
  reg : HandleRegistry
  sent : List Request
  out_connection_string : Option CString
  string_length2 : Option Int

/-- The DSN name that `SQLDriverConnect` cuts out of the connection string. -/
def driver_dsn_name (conn_str : CString) : CString :=
  match str_find conn_str "DSN=".toList with
  | none => []
  | some dsn_pos =>
    let start := dsn_pos + 4
    let end_ := (str_find_from conn_str [Char.ofNat 59] start).getD conn_str.length
    (conn_str.drop start).take (end_ - start)

/-- The configuration that `SQLDriverConnect` builds: the parsed connection
string, merged over the DSN parameters when the string names a DSN. -/
def driver_connect_params (rt : Runtime) (ord : HashOrder)
    (parse_dsn : CString → ConnectionParams) (conn_str : CString) : ConnectionParams :=
  let parsed := ConnectionStringParser.parse rt ord conn_str
  let dsn_name := driver_dsn_name conn_str
  if dsn_name.isEmpty = false then ConnectionStringParser.merge (parse_dsn dsn_name) parsed
  else parsed

/-- Function `SQLDriverConnect`.  `in_connection_string` is the text that the
pointer and length denote; the window handle and the completion mode are not
read by the code. -/
def SQLDriverConnect (w : World) (rt : Runtime) (parse_dsn : CString → ConnectionParams)
    (reg : HandleRegistry) (sent : List Request) (connection_handle : Nat)
    (in_connection_string : Option CString) (out_connection_string : Bool)
    (buffer_length : Int) (string_length2_ptr : Bool) : DriverConnectResult :=
  match reg.get_conn connection_handle with
  | none => ⟨SQL_INVALID_HANDLE, reg, sent, none, none⟩
  | some conn0 =>
    let conn : ConnHandle := { conn0 with diag := conn0.diag.clear }
    let conn_str : CString := in_connection_string.getD []
    let step := connect_authenticate w sent
      (conn.apply_params (driver_connect_params rt w.ord parse_dsn conn_str))
    if !step.ok then ⟨SQL_ERROR, reg.set_conn connection_handle step.conn, step.sent, none, none⟩
    else if out_connection_string = true ∧ buffer_length > 0 then
      let copy_len := min conn_str.length (to_size_t (buffer_length - 1))
      ⟨SQL_SUCCESS, reg.set_conn connection_handle step.conn, step.sent,
        some (conn_str.take copy_len ++ [Char.ofNat 0]),
        if string_length2_ptr then some (wrap16 copy_len) else none⟩
    else ⟨SQL_SUCCESS, reg.set_conn connection_handle step.conn, step.sent, none, none⟩

def SQLDisconnect (reg : HandleRegistry) (connection_handle : Nat) : Int × HandleRegistry :=
  match reg.get_conn connection_handle with
  | none => (SQL_INVALID_HANDLE, reg)
  | some conn =>
    (SQL_SUCCESS, reg.set_conn connection_handle { conn with auth_token := [], token_valid := false })

/-! ## Prepared execution (`odbc_api.cpp`) -/

def SQLPrepare (reg : HandleRegistry) (statement_handle : Nat) (statement_text : Option CString) :
    Int × HandleRegistry :=
  match reg.get_stmt statement_handle with
  | none => (SQL_INVALID_HANDLE, reg)
  | some stmt =>
    (SQL_SUCCESS,
      reg.set_stmt statement_handle
        { stmt with diag := stmt.diag.clear
                    sql_text := statement_text.getD []
                    prepared := true
                    executed := false })

/-- The zero-terminated text that `s.c_str()` denotes when it is read with the
length `SQL_NTS`: the chars before the first NUL. -/
def c_str_text (s : CString) : CString := s.takeWhile (fun c => c != Char.ofNat 0)

/-- Function `SQLExecute`: the stored text is handed to `SQLExecDirect` as a
zero-terminated string. -/
def SQLExecute (w : World) (reg : HandleRegistry) (sent : List Request) (statement_handle : Nat) :
    ExecResult :=
  match reg.get_stmt statement_handle with
  | none => ⟨SQL_INVALID_HANDLE, reg, sent⟩
  | some stmt =>
    if !stmt.prepared then
      ⟨SQL_ERROR,
        reg.set_stmt statement_handle
          { stmt with diag := stmt.diag.add "HY010".toList 0 "Function sequence error".toList },
        sent⟩
    else SQLExecDirect w reg sent statement_handle (some (c_str_text stmt.sql_text))

/-! ## Sample states -/

/-- A registry holding one environment, one connection and one statement of
that connection (each with handle 2); the connection holds the credentials
u / p and the token tok with the validity flag set. -/
def HandleRegistry.connected : HandleRegistry :=
  ((((HandleRegistry.new.alloc_env true).reg.alloc_connect 2 true).reg.alloc_stmt 2 true).reg).set_conn
    2 { ConnHandle.new with username := "u".toList
                            password := "p".toList
                            auth_token := "tok".toList
                            token_valid := true }

/-- A world whose backend completes every transfer with the given status and
an empty body. -/
def World.status (code : Int) : World :=
  { backend := fun _ => ⟨true, code, []⟩
    parse := fun _ => none
    ord := HashOrder.insertion
    geometry_columns := ResultSet.new }

/-- A world whose backend answers every request with status 200 and a body
that parses to an object carrying the given token as `id_token`. -/
def World.token (tok : CString) : World :=
  { backend := fun _ => ⟨true, 200, []⟩
    parse := fun _ => some (.object [("id_token".toList, .string tok)])
    ord := HashOrder.insertion
    geometry_columns := ResultSet.new }

/-! ## The steps of the backend part of `SQLExecDirect`, by name -/

/-- The client that `SQLExecDirect` builds from the connection and its token. -/
def exec_client (conn : ConnHandle) : LeafClient :=
  ⟨conn.endpoint_base, conn.user_agent, conn.timeout_sec, conn.verify_tls, conn.auth_token⟩

/-- The first `execute_query` of `SQLExecDirect`. -/
def exec_first_query (w : World) (sent : List Request) (conn : ConnHandle) (sql : CString) :
    QueryResult :=
  (exec_client conn).execute_query w sent sql conn.sql_engine .null

/-- The re-authentication of `SQLExecDirect`, made after the first query. -/
def exec_reauth (w : World) (sent : List Request) (conn : ConnHandle) (sql : CString) :
    AuthResult :=
  (exec_client conn).authenticate w (exec_first_query w sent conn sql).sent conn.username
    conn.password conn.remember_me

/-- The retried `execute_query` of `SQLExecDirect`, made after the
re-authentication. -/
def exec_retry (w : World) (sent : List Request) (conn : ConnHandle) (sql : CString) :
    QueryResult :=
  (exec_reauth w sent conn sql).client.execute_query w (exec_reauth w sent conn sql).sent sql
    conn.sql_engine (exec_first_query w sent conn sql).result

/-- A registry holding one environment and one newly allocated connection
(each with handle 2). -/
def HandleRegistry.fresh_conn : HandleRegistry :=
  ((HandleRegistry.new.alloc_env true).reg.alloc_connect 2 true).reg

/-! ## Specification-side definitions for payloads and keywords -/

/-- Rows of the installed result set as the specification words them: the
payload itself when it is an array; its `rows` member when that is an array;
the `rows` member of its `rows` member when that is an array; `none` (an empty
result) in every other shape. -/
def spec_payload_rows (p : Json) : Option (List Json) :=
  match p with
  | .array rows => some rows
  | .object _ =>
    if p.contains "rows".toList then
      match p.at_key "rows".toList with
      | .array rows => some rows
      | .object ms =>
        if (Json.object ms).contains "rows".toList then
          match (Json.object ms).at_key "rows".toList with
          | .array rows => some rows
          | _ => none
        else none
      | _ => none
    else none
  | _ => none

/-- The keyword stands in `s` at index `pos`. -/
def occurs_at (s keyword : CString) (pos : Nat) : Bool :=
  pos ≤ s.length && starts_with (s.drop pos) keyword

/-- The keyword stands in `s` at index `pos` as a whole word: no alphanumeric
char right before it and none right after it. -/
def whole_word_at (s keyword : CString) (pos : Nat) : Bool :=
  occurs_at s keyword pos
    && (pos == 0 || !c_isalnum (s.getD (pos - 1) (Char.ofNat 0)))
    && (decide (pos + keyword.length ≥ s.length)
        || !c_isalnum (s.getD (pos + keyword.length) (Char.ofNat 0)))

/-- The keyword occurs somewhere in `s` as a whole word. -/
def occurs_as_whole_word (s keyword : CString) : Bool :=
  (List.range (s.length + 1)).any (whole_word_at s keyword)

/-- A world whose backend answers every request with status 200 and a body
that parses to the given payload. -/
def World.payload (p : Json) : World :=
  { backend := fun _ => ⟨true, 200, []⟩
    parse := fun _ => some p
    ord := HashOrder.insertion
    geometry_columns := ResultSet.new }

/-! ## Cursor and field calls (`odbc_api.cpp`) -/

/-- Function `SQLFetch`: the return code and the registry afterwards. -/
def SQLFetch (reg : HandleRegistry) (statement_handle : Nat) : Int × HandleRegistry :=
  match reg.get_stmt statement_handle with
  | none => (SQL_INVALID_HANDLE, reg)
  | some stmt =>
    match stmt.resultset with
    | none =>
      (SQL_ERROR,
        reg.set_stmt statement_handle
          { stmt with diag := stmt.diag.add "24000".toList 0 "Invalid cursor state".toList })
    | some rs =>
      ((fetch rs).1, reg.set_stmt statement_handle { stmt with resultset := some (fetch rs).2 })

/-- Outcome of `SQLGetData`: return code, registry afterwards and the two
stores. -/
structure GetDataCall where
  ret : Int
  reg : HandleRegistry
  written : Written
  ind : Option Int

/-- Function `SQLGetData`. -/
def SQLGetData (rt : Runtime) (reg : HandleRegistry) (statement_handle : Nat)
    (column_number : Nat) (target_type : Int) (target_value_ptr : Bool) (buffer_length : Int)
    (str_len_or_ind_ptr : Bool) : GetDataCall :=
  match reg.get_stmt statement_handle with
  | none => ⟨SQL_INVALID_HANDLE, reg, .nothing, none⟩
  | some stmt =>
    match stmt.resultset with
    | none =>
      ⟨SQL_ERROR,
        reg.set_stmt statement_handle
          { stmt with diag := stmt.diag.add "24000".toList 0 "Invalid cursor state".toList },
        .nothing, none⟩
    | some rs =>
      let r := get_data rt rs column_number target_type target_value_ptr buffer_length
        str_len_or_ind_ptr
      ⟨r.ret, reg, r.written, r.ind⟩

/-! ## The integer parser of the standard library -/

/-- Function `std::isspace` in the C locale: blank, tab, line feed, vertical
tab, form feed, carriage return. -/
def c_isspace (c : Char) : Bool :=
  c == Char.ofNat 32 || c == Char.ofNat 9 || c == Char.ofNat 10 || c == Char.ofNat 11
    || c == Char.ofNat 12 || c == Char.ofNat 13

/-- Function `std::isdigit`. -/
def c_isdigit (c : Char) : Bool := decide ('0' ≤ c ∧ c ≤ '9')

/-- The digit loop of `strtol` in base 10: the value accumulated over the
leading digits. -/
def strtol_digits (acc : Nat) : CString → Nat
  | [] => acc
  | c :: cs => if c_isdigit c then strtol_digits (acc * 10 + (c.toNat - 48)) cs else acc

/-- Function `strtol(str, &end, 10)` as the C standard defines it, with the
mathematical value as result: leading white space is skipped, one sign is
accepted, then the longest run of digits is read; `none` when no digit is read
(`end == str`). -/
def std_strtol (str : CString) : Option Int :=
  let s1 := str.dropWhile c_isspace
  let s2 := if s1.head? = some '-' ∨ s1.head? = some '+' then s1.tail else s1
  match s2 with
  | [] => none
  | c :: _ =>
    if c_isdigit c then
      some (if s1.head? = some '-' then -(strtol_digits 0 s2 : Int) else (strtol_digits 0 s2 : Int))
    else none

/-- Function `std::stoi(str)` as the C++ standard defines it: `strtol` in base
10; `std::invalid_argument` when no conversion is made and `std::out_of_range`
when the value is outside the range of `int` (both `none`). -/
def std_stoi (str : CString) : Option Int :=
  match std_strtol str with
  | none => none
  | some v => if v < INT32_MIN ∨ v > INT32_MAX then none else some v

/-- A runtime whose `std::stoi` is the parser of the standard library. -/
def Runtime.standard : Runtime := { Runtime.plain with stoi := std_stoi }

/-! ## Specification-side definitions for text to integer conversion -/

/-- Value of a string of decimal digits, most significant digit first. -/
def decimal_value (ds : CString) : Nat :=
  Nat.ofDigits 10 (ds.reverse.map (fun c => c.toNat - 48))

/-- The text, after optional leading white space, begins with an optionally
signed decimal integer of value `v`: the digits are the longest run of digits
at that place, and whatever follows them is ignored. -/
def begins_with_integer (s : CString) (v : Int) : Prop :=
  ∃ ws sign ds rest : CString, s = ws ++ sign ++ ds ++ rest ∧
    (∀ c ∈ ws, c_isspace c = true) ∧
    (sign = [] ∨ sign = ['+'] ∨ sign = ['-']) ∧
    ds ≠ [] ∧ (∀ c ∈ ds, c_isdigit c = true) ∧
    (∀ c, rest.head? = some c → c_isdigit c = false) ∧
    v = if sign = ['-'] then -(decimal_value ds : Int) else (decimal_value ds : Int)

end leafodbc

/-! # Theorems -/

namespace leafodbc

/-! ## Loading and the cursor -/

theorem infer_schema_rows (ord : HashOrder) (sample : List Json) (rs : ResultSet) :
    (infer_schema ord sample rs).rows_ = rs.rows_ ∧
      (infer_schema ord sample rs).current_row_ = rs.current_row_ := by
  unfold infer_schema
  split <;> simp

theorem load_array_rows (ord : HashOrder) (rows : List Json) (rs0 : ResultSet) :
    (load_from_json ord (.array rows) rs0).rows_ = rows ∧
      (load_from_json ord (.array rows) rs0).current_row_ = 0 := by
  simp [load_from_json, Json.is_array, Json.elements, infer_schema_rows]

theorem load_cursor_le (ord : HashOrder) (j : Json) (rs0 : ResultSet) :
    (load_from_json ord j rs0).current_row_ ≤ (load_from_json ord j rs0).rows_.length := by
  unfold load_from_json
  split
  · simp
  · simp [infer_schema_rows]

theorem fetch_rows (rs : ResultSet) : (fetch rs).2.rows_ = rs.rows_ := by
  unfold fetch
  split <;> rfl

theorem fetch_cursor_le (rs : ResultSet) (h : rs.current_row_ ≤ rs.rows_.length) :
    (fetch rs).2.current_row_ ≤ (fetch rs).2.rows_.length := by
  unfold fetch
  split
  · exact h
  · simp only
    omega

theorem fetch_codes_eq (n : Nat) (rs : ResultSet) (h : rs.current_row_ ≤ rs.rows_.length) :
    fetch_codes n rs =
      List.replicate (min n (rs.rows_.length - rs.current_row_)) SQL_SUCCESS ++
        List.replicate (n - (rs.rows_.length - rs.current_row_)) SQL_NO_DATA := by
  induction n generalizing rs with
  | zero => simp [fetch_codes]
  | succ n ih =>
    rw [fetch_codes, ih _ (fetch_cursor_le rs h), fetch_rows]
    unfold fetch
    split
    · rename_i hge
      have h0 : rs.rows_.length - rs.current_row_ = 0 := by omega
      simp [h0, List.replicate_succ]
    · rename_i hlt
      have h1 : rs.rows_.length - (rs.current_row_ + 1) + 1 =
          rs.rows_.length - rs.current_row_ := by omega
      have h2 : min (n + 1) (rs.rows_.length - rs.current_row_) =
          min n (rs.rows_.length - (rs.current_row_ + 1)) + 1 := by omega
      have h3 : n + 1 - (rs.rows_.length - rs.current_row_) =
          n - (rs.rows_.length - (rs.current_row_ + 1)) := by omega
      simp only [h2, h3, List.replicate_succ, List.cons_append]

theorem apply_cursor_le (ord : HashOrder) (rs : ResultSet) (op : Op)
    (h : rs.current_row_ ≤ rs.rows_.length) :
    (op.apply ord rs).current_row_ ≤ (op.apply ord rs).rows_.length := by
  cases op with
  | load_from_json j => exact load_cursor_le ord j rs
  | add_row row =>
    simp only [Op.apply, add_row, List.length_append, List.length_singleton]
    omega
  | fetch => exact fetch_cursor_le rs h
  | get_data _ _ _ _ _ => exact h
  | reset => simp [Op.apply, reset]

theorem foldl_cursor_le (ord : HashOrder) (ops : List Op) (rs : ResultSet)
    (h : rs.current_row_ ≤ rs.rows_.length) :
    (ops.foldl (Op.apply ord) rs).current_row_ ≤ (ops.foldl (Op.apply ord) rs).rows_.length := by
  induction ops generalizing rs with
  | nil => exact h
  | cons op ops ih => exact ih _ (apply_cursor_le ord rs op h)

/-- C4: on a result set loaded from an array of K rows, n consecutive calls of
fetch return success for the first min n K of them and no-data for every later
one; with K = 0 the first call already returns no-data. -/
theorem fetch_succeeds_exactly_row_count (ord : HashOrder) (rows : List Json) (rs0 : ResultSet)
    (n : Nat) :
    fetch_codes n (load_from_json ord (.array rows) rs0) =
      List.replicate (min n rows.length) SQL_SUCCESS ++
        List.replicate (n - rows.length) SQL_NO_DATA := by
  have h := load_array_rows ord rows rs0
  rw [fetch_codes_eq n _ (by rw [h.1, h.2]; exact Nat.zero_le _), h.1, h.2]
  simp

/-- C5: in every state reached from a new ResultSet by load_from_json, add_row,
fetch, get_data and reset the cursor lies in [0, row_count]; a fetch from such a
state returns success or no-data, adds exactly one to the cursor when it returns
success and leaves the cursor as it is when it returns no-data. -/
theorem cursor_invariant (ord : HashOrder) (ops : List Op) :
    0 ≤ (run_ops ord ops).current_row_ ∧
    (run_ops ord ops).current_row_ ≤ (run_ops ord ops).rows_.length ∧
    ((fetch (run_ops ord ops)).1 = SQL_SUCCESS ∨ (fetch (run_ops ord ops)).1 = SQL_NO_DATA) ∧
    (fetch (run_ops ord ops)).2.current_row_ =
      (if (fetch (run_ops ord ops)).1 = SQL_SUCCESS then (run_ops ord ops).current_row_ + 1
       else (run_ops ord ops).current_row_) := by
  refine ⟨Nat.zero_le _, foldl_cursor_le ord ops ResultSet.new (Nat.zero_le _), ?_, ?_⟩
  · unfold fetch
    split <;> simp
  · unfold fetch
    split <;> simp [SQL_NO_DATA, SQL_SUCCESS]

/-! ## Reading a field -/

theorem at_key_present (row : Json) (k : CString) (h : (row.at_key k).is_null = false) :
    (row.is_object && row.contains k) = true := by
  cases row with
  | object ms =>
    simp only [Json.at_key] at h
    simp only [Json.is_object, Json.contains, Bool.true_and]
    cases hf : ms.find? (fun m => m.1 == k) with
    | none => rw [hf] at h; simp [Json.is_null] at h
    | some m =>
      rw [List.any_eq_true]
      have hk := @List.find?_some _ (fun m : CString × Json => m.1 == k) m ms hf
      exact ⟨m, List.mem_of_find?_eq_some hf, hk⟩
  | _ => simp [Json.at_key, Json.is_null] at h

theorem positioned_of_row (rs : ResultSet) (row : Json) (hcur : 1 ≤ rs.current_row_)
    (hrow : rs.rows_[rs.current_row_ - 1]? = some row) :
    ¬ (rs.current_row_ = 0 ∨ rs.current_row_ > rs.rows_.length) := by
  have := (List.getElem?_eq_some_iff.mp hrow).1
  omega

theorem valid_of_column (rs : ResultSet) (n : Nat) (col_info : ColumnInfo) (hcol : 1 ≤ n)
    (hinfo : rs.columns_[n - 1]? = some col_info) :
    ¬ (n < 1 ∨ n > rs.columns_.length) := by
  have := (List.getElem?_eq_some_iff.mp hinfo).1
  omega

theorem to_size_t_pred (C : Int) (h1 : 1 ≤ C) (h2 : C < 2 ^ 63) :
    to_size_t (C - 1) = (C - 1).toNat := by
  unfold to_size_t
  rw [Int.emod_eq_of_lt (by omega) (by omega)]

/-- C1: on a positioned cursor, for a string value of length L under a valid
column and a capacity C with 1 <= C, get_data with the SQL_C_CHAR target and a
non-null buffer stores the first min L (C - 1) chars of the value followed by
the terminator, returns success, and stores L in the indicator. -/
theorem get_data_char_truncates (rt : Runtime) (rs : ResultSet) (column_number : Nat)
    (col_info : ColumnInfo) (row : Json) (s : CString) (C : Int) (ind_ptr : Bool)
    (hcol : 1 ≤ column_number) (hinfo : rs.columns_[column_number - 1]? = some col_info)
    (hcur : 1 ≤ rs.current_row_) (hrow : rs.rows_[rs.current_row_ - 1]? = some row)
    (hval : row.at_key col_info.name = .string s) (hC : 1 ≤ C) (hC64 : C < 2 ^ 63) :
    get_data rt rs column_number SQL_C_CHAR true C ind_ptr =
      ⟨SQL_SUCCESS, .text (s.take (min s.length (C - 1).toNat) ++ [Char.ofNat 0]),
        if ind_ptr then some (s.length : Int) else none⟩ := by
  have hpres := at_key_present row col_info.name (by rw [hval]; rfl)
  unfold get_data
  rw [if_neg (positioned_of_row rs row hcur hrow), if_neg (valid_of_column rs _ _ hcol hinfo),
    hinfo, hrow]
  simp only [hpres, if_true, hval, Json.is_null]
  simp [convert_value, copy_text, store_ind, to_size_t_pred C hC hC64, Json.is_string,
    Json.get_string, SQL_C_CHAR, SQL_SUCCESS]

theorem get_data_char_truncates_witness :
    get_data Runtime.trivial
      ⟨[make_column [] "a".toList], [.object [("a".toList, .string "abcdefg".toList)]], 1⟩
      1 SQL_C_CHAR true 4 true =
      ⟨SQL_SUCCESS, .text ['a', 'b', 'c', Char.ofNat 0], some 7⟩ :=
  get_data_char_truncates Runtime.trivial
    ⟨[make_column [] "a".toList], [.object [("a".toList, .string "abcdefg".toList)]], 1⟩
    1 (make_column [] "a".toList) (.object [("a".toList, .string "abcdefg".toList)])
    "abcdefg".toList 4 true (by decide) rfl (by decide) rfl rfl (by decide) (by decide)

theorem visit_singleton (ord : HashOrder) (k : CString) : ord.visit [k] = [k] :=
  List.perm_singleton.mp (ord.visit_perm [k])

theorem load_one_field (ord : HashOrder) (k : CString) (v : Json) (rs0 : ResultSet) :
    load_from_json ord (.array [.object [(k, v)]]) rs0 =
      ⟨[make_column [.object [(k, v)]] k], [.object [(k, v)]], 0⟩ := by
  simp [load_from_json, infer_schema, collect_columns, Json.keys, seen_insert, Json.is_array,
    Json.elements, Json.is_object, visit_singleton]

/-- C2: evaluation at the failing input.  With the one-row result whose row
maps the field a to the string abc, and the cursor on that row, get_data for SQL_C_CHAR with
capacity 0 stores 4 bytes (the 3 chars and the terminator) through the buffer
pointer, and with capacity -5 it stores the same 4 bytes: more than the
capacity in both cases. -/
theorem get_data_char_overruns_at_capacity_zero (ord : HashOrder) (rt : Runtime)
    (rs0 : ResultSet) :
    (get_data rt
      (fetch_times 1
        (load_from_json ord (.array [.object [("a".toList, .string "abc".toList)]]) rs0))
      1 SQL_C_CHAR true 0 true)
      = ⟨SQL_SUCCESS, .text ['a', 'b', 'c', Char.ofNat 0], some 3⟩ ∧
    (get_data rt
      (fetch_times 1
        (load_from_json ord (.array [.object [("a".toList, .string "abc".toList)]]) rs0))
      1 SQL_C_CHAR true (-5) true).written.byte_count = 4 := by
  rw [load_one_field]
  constructor
  · rfl
  · rfl

/-- C3: evaluation at the failing input.  On the one-row result whose row maps
the field a to the string x, the first fetch returns success and the second returns
no-data; get_data called after that second fetch returns success and delivers
the value of the last row instead of failing. -/
theorem get_data_after_exhaustion_succeeds (ord : HashOrder) (rt : Runtime) (rs0 : ResultSet) :
    fetch_codes 2 (load_from_json ord (.array [.object [("a".toList, .string "x".toList)]]) rs0)
      = [SQL_SUCCESS, SQL_NO_DATA] ∧
    get_data rt
      (fetch_times 2
        (load_from_json ord (.array [.object [("a".toList, .string "x".toList)]]) rs0))
      1 SQL_C_CHAR true 10 true
      = ⟨SQL_SUCCESS, .text ['x', Char.ofNat 0], some 1⟩ := by
  rw [load_one_field]
  constructor
  · decide
  · rfl

/-- C6: on a positioned cursor and a valid column index, when the field of the
column is absent from the current row or holds JSON null, get_data returns
success, stores nothing through the buffer pointer and stores SQL_NULL_DATA in
the indicator, for every target type, buffer pointer and capacity. -/
theorem get_data_null_field (rt : Runtime) (rs : ResultSet) (column_number : Nat)
    (col_info : ColumnInfo) (row : Json) (target_type : Int) (target_value_ptr : Bool)
    (buffer_length : Int) (ind_ptr : Bool)
    (hcol : 1 ≤ column_number) (hinfo : rs.columns_[column_number - 1]? = some col_info)
    (hcur : 1 ≤ rs.current_row_) (hrow : rs.rows_[rs.current_row_ - 1]? = some row)
    (hnull : (row.is_object && row.contains col_info.name) = false ∨
      (row.at_key col_info.name).is_null = true) :
    get_data rt rs column_number target_type target_value_ptr buffer_length ind_ptr =
      ⟨SQL_SUCCESS, .nothing, if ind_ptr then some SQL_NULL_DATA else none⟩ := by
  unfold get_data
  rw [if_neg (positioned_of_row rs row hcur hrow), if_neg (valid_of_column rs _ _ hcol hinfo),
    hinfo, hrow]
  rcases hnull with h | h
  · simp [h, store_ind]
  · cases hp : (row.is_object && row.contains col_info.name) <;> simp [hp, h, store_ind]

theorem get_data_null_field_witness :
    get_data Runtime.trivial
      ⟨[make_column [] "a".toList, make_column [] "b".toList],
        [.object [("a".toList, .null)]], 1⟩ 1 SQL_C_CHAR true 8 true =
      ⟨SQL_SUCCESS, .nothing, some SQL_NULL_DATA⟩ ∧
    get_data Runtime.trivial
      ⟨[make_column [] "a".toList, make_column [] "b".toList],
        [.object [("a".toList, .null)]], 1⟩ 2 SQL_C_LONG true 4 true =
      ⟨SQL_SUCCESS, .nothing, some SQL_NULL_DATA⟩ :=
  ⟨get_data_null_field Runtime.trivial _ 1 (make_column [] "a".toList)
      (.object [("a".toList, .null)]) SQL_C_CHAR true 8 true (by decide) rfl (by decide) rfl
      (Or.inr rfl),
    get_data_null_field Runtime.trivial _ 2 (make_column [] "b".toList)
      (.object [("a".toList, .null)]) SQL_C_LONG true 4 true (by decide) rfl (by decide) rfl
      (Or.inl (by decide))⟩

/-! ## Schema inference -/

theorem seen_insert_nodup (seen : List CString) (k : CString) (h : seen.Nodup) :
    (seen_insert seen k).Nodup := by
  unfold seen_insert
  split
  · exact h
  · rename_i hk
    exact List.nodup_append.mpr ⟨h, List.nodup_singleton k, by
      intro a ha hb
      rw [List.mem_singleton] at hb
      exact hk (hb ▸ ha)⟩

theorem mem_seen_insert (seen : List CString) (k a : CString) :
    a ∈ seen_insert seen k ↔ a ∈ seen ∨ a = k := by
  unfold seen_insert
  split
  · rename_i hk
    constructor
    · exact Or.inl
    · rintro (h | h)
      · exact h
      · exact h ▸ hk
  · simp

theorem foldl_seen_insert_nodup (ks seen : List CString) (h : seen.Nodup) :
    (ks.foldl seen_insert seen).Nodup := by
  induction ks generalizing seen with
  | nil => exact h
  | cons k ks ih => exact ih _ (seen_insert_nodup seen k h)

theorem mem_foldl_seen_insert (ks seen : List CString) (a : CString) :
    a ∈ ks.foldl seen_insert seen ↔ a ∈ seen ∨ a ∈ ks := by
  induction ks generalizing seen with
  | nil => simp
  | cons k ks ih =>
    rw [List.foldl_cons, ih, mem_seen_insert, List.mem_cons]
    tauto

theorem collect_columns_nodup (rows : List Json) (seen : List CString) (h : seen.Nodup) :
    (collect_columns rows seen).Nodup := by
  induction rows generalizing seen with
  | nil => exact h
  | cons row rows ih =>
    unfold collect_columns
    split
    · exact ih _ (foldl_seen_insert_nodup _ _ h)
    · exact ih _ h

theorem mem_collect_columns (rows : List Json) (seen : List CString) (a : CString) :
    a ∈ collect_columns rows seen ↔
      a ∈ seen ∨ ∃ row ∈ rows, row.is_object = true ∧ a ∈ row.keys := by
  induction rows generalizing seen with
  | nil => simp [collect_columns]
  | cons row rows ih =>
    unfold collect_columns
    split
    · rename_i hobj
      rw [ih, mem_foldl_seen_insert]
      simp only [List.mem_cons, exists_eq_or_imp, hobj, true_and]
      tauto
    · rename_i hobj
      rw [ih]
      simp only [List.mem_cons, exists_eq_or_imp, hobj]
      simp

theorem make_column_name (sample : List Json) (ks : List CString) :
    (ks.map (make_column sample)).map ColumnInfo.name = ks := by
  induction ks with
  | nil => rfl
  | cons k ks ih => simp [make_column, ih]

theorem load_array_columns (ord : HashOrder) (rows : List Json) (rs0 : ResultSet) :
    (load_from_json ord (.array rows) rs0).columns_ =
      (ord.visit (collect_columns (rows.take (min rows.length 50)) [])).map
        (make_column (rows.take (min rows.length 50))) := by
  simp only [load_from_json, Json.is_array, Json.elements, infer_schema, Bool.not_true,
    Bool.false_eq_true, if_false, List.nil_append]
  split
  · rename_i hempty
    rw [List.isEmpty_iff] at hempty
    simp only [hempty, collect_columns]
    have : ord.visit [] = [] := List.Perm.eq_nil (ord.visit_perm [])
    rw [this]
    rfl
  · rfl

/-- C9: load_from_json on an array of n rows stores the n rows in order with the
cursor at 0, and the names of the columns it establishes are free of duplicates
and are exactly the member names of the object rows among the first min n 50
rows; hence a name that no such row carries (one occurring only after the 50th
row) is not a column. -/
theorem load_from_json_rows_and_column_names (ord : HashOrder) (rows : List Json)
    (rs0 : ResultSet) :
    (load_from_json ord (.array rows) rs0).rows_ = rows ∧
    (load_from_json ord (.array rows) rs0).rows_.length = rows.length ∧
    (load_from_json ord (.array rows) rs0).current_row_ = 0 ∧
    ((load_from_json ord (.array rows) rs0).columns_.map ColumnInfo.name).Nodup ∧
    ∀ k : CString, k ∈ (load_from_json ord (.array rows) rs0).columns_.map ColumnInfo.name ↔
      ∃ row ∈ rows.take (min rows.length 50), row.is_object = true ∧ k ∈ row.keys := by
  have hr := load_array_rows ord rows rs0
  refine ⟨hr.1, by rw [hr.1], hr.2, ?_, ?_⟩
  · rw [load_array_columns, make_column_name]
    exact (List.Perm.nodup_iff (ord.visit_perm _)).mpr
      (collect_columns_nodup _ [] List.nodup_nil)
  · intro k
    rw [load_array_columns, make_column_name, List.Perm.mem_iff (ord.visit_perm _),
      mem_collect_columns]
    simp

theorem infer_column_type_eq_find (k : CString) (rows : List Json) (d : Int) :
    infer_column_type k rows d =
      match rows.find? (fun row => has_value row k) with
      | some row => infer_sql_type (row.at_key k)
      | none => d := by
  induction rows with
  | nil => rfl
  | cons row rows ih =>
    unfold infer_column_type
    cases hp : (row.is_object && row.contains k)
    · simp [has_value, hp, ih]
    · cases hn : (row.at_key k).is_null
      · simp [has_value, hp, hn]
      · simp [has_value, hp, hn, ih]

theorem infer_sql_type_range (v : Json) :
    infer_sql_type v = SQL_BIT ∨ infer_sql_type v = SQL_INTEGER ∨ infer_sql_type v = SQL_BIGINT ∨
      infer_sql_type v = SQL_DOUBLE ∨ infer_sql_type v = SQL_VARCHAR ∨
      infer_sql_type v = SQL_LONGVARCHAR := by
  simp only [infer_sql_type]
  split_ifs <;> simp

theorem spec_column_type_range (rows : List Json) (k : CString) :
    spec_column_type rows k = SQL_BIT ∨ spec_column_type rows k = SQL_INTEGER ∨
      spec_column_type rows k = SQL_BIGINT ∨ spec_column_type rows k = SQL_DOUBLE ∨
      spec_column_type rows k = SQL_VARCHAR ∨ spec_column_type rows k = SQL_LONGVARCHAR := by
  unfold spec_column_type
  split
  · exact infer_sql_type_range _
  · simp

/-- C8: every column established by load_from_json on a row array has as its
type the inferred type of the value in the first of the first 50 rows that
carries the column with a non-null value, and SQL_VARCHAR when no such row
exists; its type name and column size are fixed by that type: BIT 1, INTEGER
10, BIGINT 19, DOUBLE 15, VARCHAR 4000, LONGVARCHAR 0. -/
theorem inferred_column_type_and_size (ord : HashOrder) (rows : List Json) (rs0 : ResultSet)
    (c : ColumnInfo) (hc : c ∈ (load_from_json ord (.array rows) rs0).columns_) :
    c.sql_type = spec_column_type rows c.name ∧
    ((c.sql_type = SQL_BIT ∧ c.type_name = "BIT".toList ∧ c.column_size = 1) ∨
     (c.sql_type = SQL_INTEGER ∧ c.type_name = "INTEGER".toList ∧ c.column_size = 10) ∨
     (c.sql_type = SQL_BIGINT ∧ c.type_name = "BIGINT".toList ∧ c.column_size = 19) ∨
     (c.sql_type = SQL_DOUBLE ∧ c.type_name = "DOUBLE".toList ∧ c.column_size = 15) ∨
     (c.sql_type = SQL_VARCHAR ∧ c.type_name = "VARCHAR".toList ∧ c.column_size = 4000) ∨
     (c.sql_type = SQL_LONGVARCHAR ∧ c.type_name = "LONGVARCHAR".toList ∧
       c.column_size = 0)) := by
  rw [load_array_columns, List.mem_map] at hc
  obtain ⟨k, -, rfl⟩ := hc
  have htake : rows.take (min rows.length 50) = rows.take 50 := by
    rcases Nat.le_total rows.length 50 with h | h
    · rw [Nat.min_eq_left h, List.take_of_length_le h, List.take_of_length_le (Nat.le_refl _)]
    · rw [Nat.min_eq_right h]
  have htype : (make_column (rows.take (min rows.length 50)) k).sql_type =
      spec_column_type rows k := by
    simp only [make_column, htake, infer_column_type_eq_find, spec_column_type]
  refine ⟨htype, ?_⟩
  have hname : (make_column (rows.take (min rows.length 50)) k).type_name =
      infer_type_name (spec_column_type rows k) := by
    rw [← htype]; rfl
  have hsize : (make_column (rows.take (min rows.length 50)) k).column_size =
      infer_column_size (spec_column_type rows k) := by
    rw [← htype]; rfl
  rw [htype, hname, hsize]
  rcases spec_column_type_range rows k with h | h | h | h | h | h <;> rw [h] <;> decide

theorem inferred_column_type_and_size_witness :
    make_column [.object [("a".toList, .null)], .object [("a".toList, .boolean true)]]
        "a".toList ∈
      (load_from_json HashOrder.insertion
        (.array [.object [("a".toList, .null)], .object [("a".toList, .boolean true)]])
        ResultSet.new).columns_ ∧
    (make_column [.object [("a".toList, .null)], .object [("a".toList, .boolean true)]]
        "a".toList).sql_type =
      spec_column_type [.object [("a".toList, .null)], .object [("a".toList, .boolean true)]]
        "a".toList ∧
    (make_column [.object [("a".toList, .null)], .object [("a".toList, .boolean true)]]
        "a".toList).sql_type = SQL_BIT :=
  ⟨by decide,
    (inferred_column_type_and_size HashOrder.insertion
      [.object [("a".toList, .null)], .object [("a".toList, .boolean true)]] ResultSet.new
      (make_column [.object [("a".toList, .null)], .object [("a".toList, .boolean true)]]
        "a".toList) (by decide)).1,
    by decide⟩

/-- C7: evaluation at the failing input.  The JSON integer 18446744073709551615
(stored as an unsigned 64-bit number) does not fit in 32 bits, yet
infer_sql_type classifies it as SQL_INTEGER: the signed 64-bit read turns it
into -1 before the range test. -/
theorem infer_sql_type_large_unsigned :
    (Json.number_unsigned 18446744073709551615).get_int64 = -1 ∧
    ¬ ((18446744073709551615 : Int) ≤ INT32_MAX) ∧
    infer_sql_type (.number_unsigned 18446744073709551615) = SQL_INTEGER := by
  decide

/-- C10: evaluation at the failing input.  On the one-row result whose row maps
the field a to the floating-point number 0.5, get_data with the SQL_C_BIT
target returns success and stores 0, although 0.5 is a non-zero number: the
value is read as a 64-bit integer, which truncates it to 0, before the test
against zero. -/
theorem get_data_bit_of_fraction_is_zero (ord : HashOrder) (rt : Runtime) (rs0 : ResultSet) :
    (Json.number_float ⟨1, -1⟩).get_int64 = 0 ∧
    get_data rt
      (fetch_times 1
        (load_from_json ord (.array [.object [("a".toList, .number_float ⟨1, -1⟩)]]) rs0))
      1 SQL_C_BIT true 1 true
      = ⟨SQL_SUCCESS, .bit 0, some 1⟩ := by
  rw [load_one_field]
  constructor
  · decide
  · rfl

/-! ## Fallback target types -/

/-- C11: evaluation at the failing input.  On the one-row result whose row maps
the field a to the boolean true, with a serialiser that prints that value as
the text true (as the JSON library does), get_data for the unrecognised target
type 7 (SQL_C_FLOAT) stores the four chars of true and reports length 4, while
for SQL_C_CHAR it stores the single char 1 and reports length 1: buffer
contents and indicator differ. -/
theorem get_data_fallback_differs_from_char (ord : HashOrder) (rt : Runtime) (rs0 : ResultSet)
    (hdump : rt.dump (.boolean true) = "true".toList) :
    get_data rt
      (fetch_times 1
        (load_from_json ord (.array [.object [("a".toList, .boolean true)]]) rs0))
      1 7 true 10 true
      = ⟨SQL_SUCCESS, .text ['t', 'r', 'u', 'e', Char.ofNat 0], some 4⟩ ∧
    get_data rt
      (fetch_times 1
        (load_from_json ord (.array [.object [("a".toList, .boolean true)]]) rs0))
      1 SQL_C_CHAR true 10 true
      = ⟨SQL_SUCCESS, .text ['1', Char.ofNat 0], some 1⟩ := by
  rw [load_one_field]
  constructor
  · have h : get_data rt
        (fetch_times 1
          ⟨[make_column [.object [("a".toList, .boolean true)]] "a".toList],
            [.object [("a".toList, .boolean true)]], 0⟩) 1 7 true 10 true =
        ⟨SQL_SUCCESS, copy_text (rt.dump (.boolean true)) 10,
          some ((rt.dump (.boolean true)).length : Int)⟩ := rfl
    rw [h, hdump]
    rfl
  · rfl

theorem get_data_fallback_differs_from_char_witness :
    get_data Runtime.plain
      (fetch_times 1
        (load_from_json HashOrder.insertion
          (.array [.object [("a".toList, .boolean true)]]) ResultSet.new))
      1 7 true 10 true
      = ⟨SQL_SUCCESS, .text ['t', 'r', 'u', 'e', Char.ofNat 0], some 4⟩ :=
  (get_data_fallback_differs_from_char HashOrder.insertion Runtime.plain ResultSet.new rfl).1

/-! ## Diagnostic stack -/

theorem diag_add_records (d : DiagStack) (s : CString) (n : Int) (m : CString) :
    (d.add s n m).records_ = ((⟨s, n, m⟩ : DiagRecord) :: d.records_).take 10 := by
  unfold DiagStack.add
  simp only
  split
  · rfl
  · rename_i h
    show (⟨s, n, m⟩ : DiagRecord) :: d.records_ = _
    exact (List.take_of_length_le (by omega)).symm

theorem take_append_take {α : Type} (n : Nat) (xs ys : List α) :
    (xs ++ ys.take n).take n = (xs ++ ys).take n := by
  rw [List.take_append_eq_append_take, List.take_append_eq_append_take, List.take_take]
  congr 2
  omega

theorem diag_add_all_records (pushes : List DiagRecord) (d : DiagStack)
    (hd : d.records_.length ≤ 10) :
    (d.add_all pushes).records_ = (pushes.reverse ++ d.records_).take 10 := by
  induction pushes generalizing d with
  | nil =>
    simp only [DiagStack.add_all, List.foldl_nil, List.reverse_nil, List.nil_append]
    exact (List.take_of_length_le hd).symm
  | cons r rs ih =>
    have hlen : (d.add r.sqlstate r.native_error r.message).records_.length ≤ 10 := by
      rw [diag_add_records, List.length_take]
      omega
    have step : d.add_all (r :: rs) = (d.add r.sqlstate r.native_error r.message).add_all rs :=
      rfl
    rw [step, ih _ hlen, diag_add_records, take_append_take]
    simp

/-- C12: after pushing n records onto an empty DiagStack the stack holds exactly
min n 10 records, and for 1 <= k <= min n 10 the record at position k is the
record pushed as number n - k + 1; get_record for that k returns success and
delivers that record's native error code. -/
theorem diag_stack_keeps_ten_most_recent (pushes : List DiagRecord) (k : Nat)
    (hk1 : 1 ≤ k) (hk2 : k ≤ min pushes.length 10) :
    ((DiagStack.mk []).add_all pushes).records_.length = min pushes.length 10 ∧
    ((DiagStack.mk []).add_all pushes).records_[k - 1]? = pushes[pushes.length - k]? ∧
    (((DiagStack.mk []).add_all pushes).get_record k false true false 0 false).ret
      = SQL_SUCCESS ∧
    (((DiagStack.mk []).add_all pushes).get_record k false true false 0 false).native_error
      = (pushes[pushes.length - k]?).map DiagRecord.native_error := by
  have hrec := diag_add_all_records pushes ⟨[]⟩ (Nat.zero_le _)
  simp only [List.append_nil] at hrec
  have hlen : ((DiagStack.mk []).add_all pushes).records_.length = min pushes.length 10 := by
    rw [hrec, List.length_take, List.length_reverse, Nat.min_comm]
  have hget : ((DiagStack.mk []).add_all pushes).records_[k - 1]? =
      pushes[pushes.length - k]? := by
    rw [hrec, List.getElem?_take_of_lt (by omega), List.getElem?_reverse (by omega)]
    congr 1
    omega
  have hlt : pushes.length - k < pushes.length := by omega
  obtain ⟨r, hr⟩ : ∃ r, pushes[pushes.length - k]? = some r :=
    ⟨pushes[pushes.length - k], List.getElem?_eq_getElem hlt⟩
  have hw : wrap16 (((DiagStack.mk []).add_all pushes).records_.length : Int) =
      (min pushes.length 10 : Nat) := by
    rw [hlen]
    unfold wrap16
    omega
  have hidx : ((k : Int) - 1).toNat = k - 1 := by omega
  refine ⟨hlen, hget, ?_, ?_⟩
  · unfold DiagStack.get_record
    rw [if_neg (by rw [hw]; omega), hidx, hget, hr]
    simp
  · unfold DiagStack.get_record
    rw [if_neg (by rw [hw]; omega), hidx, hget, hr]
    simp

theorem diag_stack_keeps_ten_most_recent_witness :
    ((DiagStack.mk []).add_all
      ((List.range 11).map (fun i => (⟨"HY000".toList, i, []⟩ : DiagRecord)))).records_.length
      = 10 ∧
    ((DiagStack.mk []).add_all
      ((List.range 11).map (fun i => (⟨"HY000".toList, i, []⟩ : DiagRecord)))).records_[0]?
      = some ⟨"HY000".toList, 10, []⟩ := by
  have h := diag_stack_keeps_ten_most_recent
    ((List.range 11).map (fun i => (⟨"HY000".toList, i, []⟩ : DiagRecord))) 1
    (by decide) (by decide)
  exact ⟨h.1, h.2.1⟩

theorem wrap16_small (m : Nat) (hm : m < 2 ^ 15) : wrap16 (m : Int) = m := by
  unfold wrap16
  omega

theorem take_min_length {α : Type} (xs : List α) (n : Nat) :
    xs.take (min xs.length n) = xs.take n := by
  rcases Nat.le_total xs.length n with h | h
  · rw [Nat.min_eq_left h, List.take_of_length_le h, List.take_of_length_le (Nat.le_refl _)]
  · rw [Nat.min_eq_right h]

/-- C13: for a DiagStack holding m records (m representable as SQLSMALLINT) and
a record number r with r < 1 or r > m, get_record and get_field return
SQL_NO_DATA and store nothing through any output pointer; for 1 <= r <= m
get_record returns SQL_SUCCESS and stores the state code (its first five
chars), the native code and the message of record r (cut to the capacity C)
through the pointers that are non-null. -/
theorem diag_get_record_range (d : DiagStack) (r : Int) (hm : d.records_.length < 2 ^ 15) :
    ((r < 1 ∨ r > d.records_.length) →
      (∀ (sp np mp tp : Bool) (C : Int),
        d.get_record r sp np mp C tp = ⟨SQL_NO_DATA, none, none, none, none⟩) ∧
      (∀ (ident C : Int) (ip lp : Bool),
        d.get_field r ident ip C lp = ⟨SQL_NO_DATA, .nothing, none⟩)) ∧
    ((1 ≤ r ∧ r ≤ d.records_.length) →
      ∃ rec_, d.records_[(r - 1).toNat]? = some rec_ ∧
        ∀ (sp np mp tp : Bool) (C : Int), C < 2 ^ 15 →
          (d.get_record r sp np mp C tp).ret = SQL_SUCCESS ∧
          (d.get_record r sp np mp C tp).sqlstate =
            (if sp then some (rec_.sqlstate.take 5 ++
              (if rec_.sqlstate.length < 5 then [Char.ofNat 0] else [])) else none) ∧
          (d.get_record r sp np mp C tp).native_error =
            (if np then some rec_.native_error else none) ∧
          (d.get_record r sp np mp C tp).message_text =
            (if mp = true ∧ C > 0 then
              some (rec_.message.take (min rec_.message.length (C - 1).toNat) ++ [Char.ofNat 0])
             else none)) := by
  have hw := wrap16_small _ hm
  constructor
  · intro hr
    constructor
    · intro sp np mp tp C
      unfold DiagStack.get_record
      rw [if_pos (by rw [hw]; exact hr)]
    · intro ident C ip lp
      unfold DiagStack.get_field
      rw [if_pos (by rw [hw]; exact hr)]
  · intro hr
    have hlt : (r - 1).toNat < d.records_.length := by omega
    refine ⟨d.records_[(r - 1).toNat], List.getElem?_eq_getElem hlt, ?_⟩
    intro sp np mp tp C hC
    unfold DiagStack.get_record
    rw [if_neg (by rw [hw]; omega), List.getElem?_eq_getElem hlt]
    generalize d.records_[(r - 1).toNat] = rec_
    have hmin : (min rec_.sqlstate.length 5 < 5) ↔ rec_.sqlstate.length < 5 := by omega
    simp only [take_min_length, hmin]
    by_cases hc : mp = true ∧ C > 0
    · have hsz : to_size_t (C - 1) = (C - 1).toNat := by
        unfold to_size_t
        rw [Int.emod_eq_of_lt (by omega) (by omega)]
      rw [if_pos hc, if_pos hc, hsz]
      exact ⟨rfl, rfl, rfl, rfl⟩
    · rw [if_neg hc, if_neg hc]
      exact ⟨rfl, rfl, rfl, rfl⟩

theorem diag_get_record_range_witness :
    (DiagStack.mk [⟨"24000".toList, 0, "Invalid cursor state".toList⟩]).get_record 2 true true
        true 64 true = ⟨SQL_NO_DATA, none, none, none, none⟩ ∧
    (DiagStack.mk [⟨"24000".toList, 0, "Invalid cursor state".toList⟩]).get_field 0
        SQL_DIAG_NATIVE true 4 true = ⟨SQL_NO_DATA, .nothing, none⟩ :=
  ⟨((diag_get_record_range
      (DiagStack.mk [⟨"24000".toList, 0, "Invalid cursor state".toList⟩]) 2 (by decide)).1
      (Or.inr (by decide))).1 true true true true 64,
    ((diag_get_record_range
      (DiagStack.mk [⟨"24000".toList, 0, "Invalid cursor state".toList⟩]) 0 (by decide)).1
      (Or.inl (by decide))).2 SQL_DIAG_NATIVE 4 true true⟩

/-- C14: evaluation at the failing input.  For a stack whose record 1 carries
the 20-char message Invalid cursor state, get_record with a message buffer of
capacity 8 stores the first 7 chars and the terminator and stores 7, the
length of the copy, as the text length; with no message buffer it stores 20. -/
theorem diag_get_record_reports_copied_length :
    (DiagStack.mk [⟨"24000".toList, 0, "Invalid cursor state".toList⟩]).get_record 1 true true
        true 8 true =
      ⟨SQL_SUCCESS, some "24000".toList, some 0,
        some ['I', 'n', 'v', 'a', 'l', 'i', 'd', Char.ofNat 0], some 7⟩ ∧
    ("Invalid cursor state".toList).length = 20 ∧
    ((DiagStack.mk [⟨"24000".toList, 0, "Invalid cursor state".toList⟩]).get_record 1 true true
        false 0 true).text_length = some 20 := by
  refine ⟨by decide, by decide, by decide⟩

/-! ## Handle registry -/

theorem find_erase_self {α : Type} (m : HandleMap α) (h : Nat) :
    (HandleMap.erase m h).find h = none := by
  induction m with
  | nil => rfl
  | cons p m ih =>
    obtain ⟨k, v⟩ := p
    by_cases hk : k = h
    · simpa [HandleMap.erase, List.filter_cons, hk] using ih
    · simp only [HandleMap.erase, List.filter_cons, ne_eq, hk, not_false_eq_true, decide_True,
        if_true, HandleMap.find, if_false]
      exact ih

theorem find_erase_ne {α : Type} (m : HandleMap α) (h h' : Nat) (hne : h' ≠ h) :
    (HandleMap.erase m h).find h' = m.find h' := by
  induction m with
  | nil => rfl
  | cons p m ih =>
    obtain ⟨k, v⟩ := p
    by_cases hk : k = h
    · have hk' : k ≠ h' := fun e => hne (e ▸ hk)
      simp only [HandleMap.erase, List.filter_cons, ne_eq, hk, not_true_eq_false, decide_False,
        Bool.false_eq_true, if_false, HandleMap.find]
      rw [if_neg (by rw [← hk]; exact hk')]
      exact ih
    · simp only [HandleMap.erase, List.filter_cons, ne_eq, hk, not_false_eq_true, decide_True,
        if_true, HandleMap.find]
      split
      · rfl
      · exact ih

theorem find_assign_self {α : Type} (m : HandleMap α) (h : Nat) (v : α) :
    (HandleMap.assign m h v).find h = some v := by
  simp [HandleMap.assign, HandleMap.find]

theorem find_assign_ne {α : Type} (m : HandleMap α) (h h' : Nat) (v : α) (hne : h' ≠ h) :
    (HandleMap.assign m h v).find h' = m.find h' := by
  simp only [HandleMap.assign, HandleMap.find]
  rw [if_neg (fun e => hne e.symm)]
  exact find_erase_ne m h h' hne

/-- C15: for every registry state and handle value h: when h is a live handle
of a kind, freeing it returns success, afterwards resolving h of that kind gives
the null pointer and freeing h again returns SQL_INVALID_HANDLE, and every other
handle value of that kind resolves to what it resolved to before. -/
theorem free_invalidates_only_that_handle (reg : HandleRegistry) (h : Nat) :
    ((reg.get_env h).isSome = true →
      (reg.free_env h).1 = SQL_SUCCESS ∧ (reg.free_env h).2.get_env h = none ∧
      ((reg.free_env h).2.free_env h).1 = SQL_INVALID_HANDLE ∧
      ∀ h2, h2 ≠ h → (reg.free_env h).2.get_env h2 = reg.get_env h2) ∧
    ((reg.get_conn h).isSome = true →
      (reg.free_connect h).1 = SQL_SUCCESS ∧ (reg.free_connect h).2.get_conn h = none ∧
      ((reg.free_connect h).2.free_connect h).1 = SQL_INVALID_HANDLE ∧
      ∀ h2, h2 ≠ h → (reg.free_connect h).2.get_conn h2 = reg.get_conn h2) ∧
    ((reg.get_stmt h).isSome = true →
      (reg.free_stmt h).1 = SQL_SUCCESS ∧ (reg.free_stmt h).2.get_stmt h = none ∧
      ((reg.free_stmt h).2.free_stmt h).1 = SQL_INVALID_HANDLE ∧
      ∀ h2, h2 ≠ h → (reg.free_stmt h).2.get_stmt h2 = reg.get_stmt h2) := by
  refine ⟨?_, ?_, ?_⟩
  · intro hl
    have hl2 : ¬ ((reg.env_handles_.find h).isNone = true) := by
      simp only [HandleRegistry.get_env] at hl
      simp [Option.isSome_iff_ne_none.mp hl]
    simp only [HandleRegistry.free_env, if_neg hl2, HandleRegistry.get_env, find_erase_self,
      Option.isNone_none, if_true, true_and]
    exact fun h2 hne => find_erase_ne _ h h2 hne
  · intro hl
    have hl2 : ¬ ((reg.conn_handles_.find h).isNone = true) := by
      simp only [HandleRegistry.get_conn] at hl
      simp [Option.isSome_iff_ne_none.mp hl]
    simp only [HandleRegistry.free_connect, if_neg hl2, HandleRegistry.get_conn, find_erase_self,
      Option.isNone_none, if_true, true_and]
    exact fun h2 hne => find_erase_ne _ h h2 hne
  · intro hl
    have hl2 : ¬ ((reg.stmt_handles_.find h).isNone = true) := by
      simp only [HandleRegistry.get_stmt] at hl
      simp [Option.isSome_iff_ne_none.mp hl]
    simp only [HandleRegistry.free_stmt, if_neg hl2, HandleRegistry.get_stmt, find_erase_self,
      Option.isNone_none, if_true, true_and]
    exact fun h2 hne => find_erase_ne _ h h2 hne

theorem free_invalidates_only_that_handle_witness :
    ((HandleRegistry.new.alloc_env true).reg.free_env 2).1 = SQL_SUCCESS ∧
    (((HandleRegistry.new.alloc_env true).reg.free_env 2).2.free_env 2).1 = SQL_INVALID_HANDLE :=
  ⟨((free_invalidates_only_that_handle (HandleRegistry.new.alloc_env true).reg 2).1 rfl).1,
    ((free_invalidates_only_that_handle (HandleRegistry.new.alloc_env true).reg 2).1 rfl).2.2.1⟩

/-- C17: alloc_connect with an environment handle that is not live and
alloc_stmt with a connection handle that is not live return SQL_INVALID_HANDLE,
store nothing through the output pointer and leave the registry (maps and
counters) as it was; with a live parent each returns success and stores a
handle that resolves to the new object, and the new statement carries the
connection handle as its conn_handle. -/
theorem alloc_child_needs_live_parent (reg : HandleRegistry) (parent : Nat) :
    ((reg.get_env parent).isNone = true →
      reg.alloc_connect parent true = ⟨SQL_INVALID_HANDLE, none, reg⟩) ∧
    ((reg.get_conn parent).isNone = true →
      reg.alloc_stmt parent true = ⟨SQL_INVALID_HANDLE, none, reg⟩) ∧
    ((reg.get_env parent).isSome = true →
      (reg.alloc_connect parent true).ret = SQL_SUCCESS ∧
      ∃ h, (reg.alloc_connect parent true).out = some h ∧
        ((reg.alloc_connect parent true).reg.get_conn h).isSome = true) ∧
    ((reg.get_conn parent).isSome = true →
      (reg.alloc_stmt parent true).ret = SQL_SUCCESS ∧
      ∃ h, (reg.alloc_stmt parent true).out = some h ∧
        ((reg.alloc_stmt parent true).reg.get_stmt h).map StmtHandle.conn_handle
          = some parent) := by
  refine ⟨?_, ?_, ?_, ?_⟩
  · intro hn
    simp only [HandleRegistry.get_env] at hn
    simp [HandleRegistry.alloc_connect, hn]
  · intro hn
    simp only [HandleRegistry.get_conn] at hn
    simp [HandleRegistry.alloc_stmt, hn]
  · intro hl
    have hl2 : ¬ ((reg.env_handles_.find parent).isNone = true) := by
      simp only [HandleRegistry.get_env] at hl
      simp [Option.isSome_iff_ne_none.mp hl]
    simp only [HandleRegistry.alloc_connect, Bool.not_true, Bool.false_eq_true, if_false,
      if_neg hl2, true_and]
    exact ⟨_, rfl, by simp [HandleRegistry.get_conn, find_assign_self]⟩
  · intro hl
    have hl2 : ¬ ((reg.conn_handles_.find parent).isNone = true) := by
      simp only [HandleRegistry.get_conn] at hl
      simp [Option.isSome_iff_ne_none.mp hl]
    simp only [HandleRegistry.alloc_stmt, Bool.not_true, Bool.false_eq_true, if_false,
      if_neg hl2, true_and]
    exact ⟨_, rfl, by simp [HandleRegistry.get_stmt, find_assign_self]⟩

theorem alloc_child_needs_live_parent_witness :
    (HandleRegistry.new.alloc_connect 2 true).ret = SQL_INVALID_HANDLE ∧
    ((HandleRegistry.new.alloc_env true).reg.alloc_connect 2 true).ret = SQL_SUCCESS := by
  have h1 := (alloc_child_needs_live_parent HandleRegistry.new 2).1 rfl
  have h2 := ((alloc_child_needs_live_parent (HandleRegistry.new.alloc_env true).reg 2).2.2.1
    rfl).1
  exact ⟨by rw [h1], h2⟩

theorem next_handle_small (n : Nat) (h : n + 1 < 2 ^ 64) : next_handle n = n + 1 := by
  unfold next_handle
  exact Nat.mod_eq_of_lt h

theorem apply_counter (reg : HandleRegistry) (op : RegistryOp) (k : HandleKind)
    (hb : reg.counter k + 1 < 2 ^ 64) :
    reg.counter k ≤ (op.apply reg).1.counter k ∧ (op.apply reg).1.counter k ≤ reg.counter k + 1 ∧
    ∀ h, (k, h) ∈ (op.apply reg).2.toList →
      h = reg.counter k + 1 ∧ (op.apply reg).1.counter k = h := by
  cases op with
  | alloc_env out =>
    cases out <;> cases k <;>
      simp_all [RegistryOp.apply, HandleRegistry.alloc_env, HandleRegistry.counter,
        next_handle_small]
  | alloc_connect e out =>
    simp only [RegistryOp.apply, HandleRegistry.alloc_connect]
    cases out <;> cases k <;> split_ifs <;>
      simp_all [HandleRegistry.counter, next_handle_small]
  | alloc_stmt c out =>
    simp only [RegistryOp.apply, HandleRegistry.alloc_stmt]
    cases out <;> cases k <;> split_ifs <;>
      simp_all [HandleRegistry.counter, next_handle_small]
  | free_env h =>
    simp only [RegistryOp.apply, HandleRegistry.free_env]
    cases k <;> split_ifs <;> simp_all [HandleRegistry.counter]
  | free_connect h =>
    simp only [RegistryOp.apply, HandleRegistry.free_connect]
    cases k <;> split_ifs <;> simp_all [HandleRegistry.counter]
  | free_stmt h =>
    simp only [RegistryOp.apply, HandleRegistry.free_stmt]
    cases k <;> split_ifs <;> simp_all [HandleRegistry.counter]

theorem issued_of_cons (k : HandleKind) (op : RegistryOp) (ops : List RegistryOp)
    (reg : HandleRegistry) :
    issued_of k (op :: ops) reg =
      (((op.apply reg).2.toList.filter (fun p => decide (p.1 = k))).map Prod.snd) ++
        issued_of k ops (op.apply reg).1 := by
  simp [issued_of, issued]

theorem issued_increasing (k : HandleKind) (ops : List RegistryOp) (reg : HandleRegistry)
    (hb : reg.counter k + ops.length < 2 ^ 64) :
    (issued_of k ops reg).Pairwise (· < ·) ∧ ∀ h ∈ issued_of k ops reg, reg.counter k < h := by
  induction ops generalizing reg with
  | nil => simp [issued_of, issued]
  | cons op ops ih =>
    rw [List.length_cons] at hb
    obtain ⟨hlo, hhi, hiss⟩ := apply_counter reg op k (by omega)
    obtain ⟨ihp, ihb⟩ := ih (op.apply reg).1 (by omega)
    rw [issued_of_cons]
    have hhead : ∀ h ∈ ((op.apply reg).2.toList.filter (fun p => decide (p.1 = k))).map Prod.snd,
        h = reg.counter k + 1 ∧ (op.apply reg).1.counter k = h := by
      intro h hh
      rw [List.mem_map] at hh
      obtain ⟨⟨k2, h2⟩, hmem, rfl⟩ := hh
      rw [List.mem_filter] at hmem
      have hk : k2 = k := by simpa using hmem.2
      subst hk
      exact hiss _ hmem.1
    constructor
    · rw [List.pairwise_append]
      refine ⟨?_, ihp, ?_⟩
      · cases hopt : (op.apply reg).2 with
        | none => simp
        | some p =>
          simp only [Option.toList_some, List.filter_cons, List.filter_nil]
          split <;> simp
      · intro a ha b hb2
        have h1 := hhead a ha
        have h2 := ihb b hb2
        omega
    · intro h hh
      rw [List.mem_append] at hh
      rcases hh with hh | hh
      · have := hhead h hh
        omega
      · have := ihb h hh
        omega

/-- C16: for every sequence of allocations and frees on a newly constructed
registry that is short enough for the 64-bit counters not to wrap, the
identifiers handed out by the successful allocations of one kind are strictly
increasing in the order of the calls, hence pairwise distinct: none is handed
out a second time, whether or not it was freed in between. -/
theorem issued_identifiers_strictly_increase (k : HandleKind) (ops : List RegistryOp)
    (hb : ops.length + 1 < 2 ^ 64) :
    (issued_of k ops HandleRegistry.new).Pairwise (· < ·) ∧
    (issued_of k ops HandleRegistry.new).Nodup := by
  have hc : HandleRegistry.new.counter k = 1 := by cases k <;> rfl
  have h := (issued_increasing k ops HandleRegistry.new (by rw [hc]; omega)).1
  exact ⟨h, h.imp (fun hlt => Nat.ne_of_lt hlt)⟩

theorem issued_identifiers_strictly_increase_witness :
    issued_of .env [.alloc_env true, .free_env 2, .alloc_env true, .alloc_connect 3 true,
        .alloc_env true] HandleRegistry.new = [2, 3, 4] ∧
    (issued_of .env [.alloc_env true, .free_env 2, .alloc_env true, .alloc_connect 3 true,
        .alloc_env true] HandleRegistry.new).Nodup :=
  ⟨by decide,
    (issued_identifiers_strictly_increase .env
      [.alloc_env true, .free_env 2, .alloc_env true, .alloc_connect 3 true, .alloc_env true]
      (by decide)).2⟩

/-! ## Statement execution -/

theorem find_update {α : Type} (m : HandleMap α) (h h2 : Nat) (v : α) :
    (HandleMap.update m h v).find h2 =
      if h2 = h then (HandleMap.find m h).map (fun _ => v) else HandleMap.find m h2 := by
  induction m with
  | nil => simp [HandleMap.update, HandleMap.find]
  | cons p m ih =>
    obtain ⟨k, v0⟩ := p
    have step : HandleMap.update ((k, v0) :: m) h v =
        (if k = h then (k, v) else (k, v0)) :: HandleMap.update m h v := rfl
    rw [step]
    by_cases hk : k = h
    · rw [if_pos hk]
      simp only [HandleMap.find, ih]
      split_ifs <;> simp_all
    · rw [if_neg hk]
      simp only [HandleMap.find, ih]
      split_ifs <;> simp_all

theorem get_stmt_set_stmt (reg : HandleRegistry) (h : Nat) (s0 s : StmtHandle)
    (hs : reg.get_stmt h = some s0) : (reg.set_stmt h s).get_stmt h = some s := by
  simp only [HandleRegistry.get_stmt] at hs
  simp [HandleRegistry.get_stmt, HandleRegistry.set_stmt, find_update, hs]

theorem exec_fail_spec (reg : HandleRegistry) (h : Nat) (s0 stmt : StmtHandle)
    (state msg : CString) (sent : List Request) (hs : reg.get_stmt h = some s0) :
    (exec_fail reg h stmt state msg sent).ret = SQL_ERROR ∧
    (exec_fail reg h stmt state msg sent).sent = sent ∧
    (exec_fail reg h stmt state msg sent).reg.get_stmt h =
      some { stmt with diag := stmt.diag.add state 0 msg } :=
  ⟨rfl, rfl, get_stmt_set_stmt reg h s0 _ hs⟩

/-- C18 (amended): for a live statement whose conn_handle does not resolve to a
live connection, and a statement text that is not taken as a GEOMETRY_COLUMNS
metadata query and that the statement guard allows, SQLExecDirect returns
SQL_ERROR, sends no request, installs no result set and leaves exactly one
diagnostic record on the statement, with state 08003. -/
theorem exec_direct_without_connection (w : World) (reg : HandleRegistry)
    (sent : List Request) (h : Nat) (stmt0 : StmtHandle) (text : Option CString)
    (hs : reg.get_stmt h = some stmt0) (hc : reg.get_conn stmt0.conn_handle = none)
    (hgeo : is_geometry_query (text.getD []) = false)
    (hallow : SQLGuard.is_allowed (text.getD []) = true) :
    (SQLExecDirect w reg sent h text).ret = SQL_ERROR ∧
    (SQLExecDirect w reg sent h text).sent = sent ∧
    ∃ s msg, (SQLExecDirect w reg sent h text).reg.get_stmt h = some s ∧
      s.diag.records_ = [⟨"08003".toList, 0, msg⟩] ∧ s.resultset = none := by
  unfold SQLExecDirect
  simp only [hs, hgeo, hallow, Bool.false_eq_true, if_false, Bool.not_true]
  split
  · exact ⟨(exec_fail_spec reg h stmt0 _ _ _ sent hs).1, (exec_fail_spec reg h stmt0 _ _ _ sent hs).2.1,
      _, _, (exec_fail_spec reg h stmt0 _ _ _ sent hs).2.2, rfl, rfl⟩
  · simp only [hc]
    exact ⟨(exec_fail_spec reg h stmt0 _ _ _ sent hs).1, (exec_fail_spec reg h stmt0 _ _ _ sent hs).2.1,
      _, _, (exec_fail_spec reg h stmt0 _ _ _ sent hs).2.2, rfl, rfl⟩

theorem exec_direct_without_connection_witness :
    (SQLExecDirect World.offline HandleRegistry.orphaned [] 2 (some "SELECT 1".toList)).ret
      = SQL_ERROR ∧
    (SQLExecDirect World.offline HandleRegistry.orphaned [] 2 (some "SELECT 1".toList)).sent
      = [] :=
  ⟨(exec_direct_without_connection World.offline HandleRegistry.orphaned [] 2
      { StmtHandle.new with conn_handle := 2 } (some "SELECT 1".toList) rfl rfl
      (by decide) (by decide)).1,
    (exec_direct_without_connection World.offline HandleRegistry.orphaned [] 2
      { StmtHandle.new with conn_handle := 2 } (some "SELECT 1".toList) rfl rfl
      (by decide) (by decide)).2.1⟩

/-- C18 (counterexample): on a live statement whose connection has been freed,
SQLExecDirect with the text SELECT * FROM GEOMETRY_COLUMNS returns SQL_SUCCESS,
and with the text DELETE FROM t it returns SQL_ERROR with a record of state
42000, not 08003. -/
theorem exec_direct_without_connection_not_always_08003 :
    (HandleRegistry.orphaned.get_stmt 2).isSome = true ∧
    (HandleRegistry.orphaned.get_conn 2).isNone = true ∧
    (SQLExecDirect World.offline HandleRegistry.orphaned [] 2
      (some "SELECT * FROM GEOMETRY_COLUMNS".toList)).ret = SQL_SUCCESS ∧
    (SQLExecDirect World.offline HandleRegistry.orphaned [] 2
      (some "DELETE FROM t".toList)).ret = SQL_ERROR ∧
    (((SQLExecDirect World.offline HandleRegistry.orphaned [] 2
      (some "DELETE FROM t".toList)).reg.get_stmt 2).map
        (fun s => s.diag.records_.map DiagRecord.sqlstate)) = some ["42000".toList] := by
  refine ⟨rfl, rfl, by decide, by decide, by decide⟩

/-- C19 (counterexample): the statement guard rejects the text
DELETE FROM GEOMETRY_COLUMNS WHERE ID IN (SELECT 1), yet SQLExecDirect on a
live statement returns SQL_SUCCESS for it and installs a result set. -/
theorem exec_direct_rejected_geometry_text_succeeds :
    (HandleRegistry.orphaned.get_stmt 2).isSome = true ∧
    SQLGuard.is_allowed "DELETE FROM GEOMETRY_COLUMNS WHERE ID IN (SELECT 1)".toList = false ∧
    (SQLExecDirect World.offline HandleRegistry.orphaned [] 2
      (some "DELETE FROM GEOMETRY_COLUMNS WHERE ID IN (SELECT 1)".toList)).ret = SQL_SUCCESS ∧
    ((SQLExecDirect World.offline HandleRegistry.orphaned [] 2
      (some "DELETE FROM GEOMETRY_COLUMNS WHERE ID IN (SELECT 1)".toList)).reg.get_stmt 2).map
        (fun s => s.resultset.isSome) = some true := by
  refine ⟨rfl, by decide, by decide, by decide⟩

/-- C19 (amended): for a live statement and a text that the statement guard
rejects, SQLExecDirect sends no request to the backend; when the text is not
taken as a GEOMETRY_COLUMNS metadata query it returns SQL_ERROR, leaves exactly
one diagnostic record on the statement, with state 42000, and leaves the
statement without a result set and not executed. -/
theorem exec_direct_rejected_text (w : World) (reg : HandleRegistry) (sent : List Request)
    (h : Nat) (stmt0 : StmtHandle) (text : Option CString)
    (hs : reg.get_stmt h = some stmt0)
    (hrej : SQLGuard.is_allowed (text.getD []) = false) :
    (SQLExecDirect w reg sent h text).sent = sent ∧
    (is_geometry_query (text.getD []) = false →
      (SQLExecDirect w reg sent h text).ret = SQL_ERROR ∧
      ∃ s, (SQLExecDirect w reg sent h text).reg.get_stmt h = some s ∧
        s.diag.records_ =
          [⟨"42000".toList, 0, "Only SELECT statements are allowed".toList⟩] ∧
        s.resultset = none ∧ s.executed = false) := by
  unfold SQLExecDirect
  simp only [hs, hrej, Bool.not_false, if_true]
  constructor
  · split <;> rfl
  · intro hgeo
    simp only [hgeo, Bool.false_eq_true, if_false]
    exact ⟨rfl, _, (exec_fail_spec reg h stmt0 _ _ _ sent hs).2.2, rfl, rfl, rfl⟩

theorem exec_direct_rejected_text_witness :
    (SQLExecDirect World.offline HandleRegistry.orphaned [] 2 (some "DELETE FROM t".toList)).sent
      = [] ∧
    (SQLExecDirect World.offline HandleRegistry.orphaned [] 2 (some "DELETE FROM t".toList)).ret
      = SQL_ERROR :=
  ⟨(exec_direct_rejected_text World.offline HandleRegistry.orphaned [] 2
      { StmtHandle.new with conn_handle := 2 } (some "DELETE FROM t".toList) rfl (by decide)).1,
    ((exec_direct_rejected_text World.offline HandleRegistry.orphaned [] 2
      { StmtHandle.new with conn_handle := 2 } (some "DELETE FROM t".toList) rfl
      (by decide)).2 (by decide)).1⟩

theorem execute_query_sent (w : World) (c : LeafClient) (sent : List Request)
    (sql eng : CString) (res : Json) :
    (c.execute_query w sent sql eng res).sent = sent ∨
      (c.execute_query w sent sql eng res).sent = sent ++ [.query sql eng c.auth_token_] := by
  unfold LeafClient.execute_query http_post
  split
  · exact Or.inl rfl
  · right
    simp only
    split
    · rfl
    · split
      · rfl
      · split
        · rfl
        · split <;> rfl

theorem authenticate_sent (w : World) (c : LeafClient) (sent : List Request)
    (u p : CString) (r : Bool) :
    (c.authenticate w sent u p r).sent = sent ++ [.authenticate u p r] := by
  unfold LeafClient.authenticate http_post
  simp only
  split
  · rfl
  · split
    · rfl
    · split
      · rfl
      · split
        · split <;> rfl
        · rfl

theorem authenticate_ok (w : World) (c : LeafClient) (sent : List Request)
    (u p : CString) (r : Bool) (hok : (c.authenticate w sent u p r).ok = true) :
    (w.backend (sent ++ [.authenticate u p r])).ok = true ∧
    (w.backend (sent ++ [.authenticate u p r])).status_code = 200 ∧
    ∃ parsed token, w.parse (w.backend (sent ++ [.authenticate u p r])).body = some parsed ∧
      parsed.at_key "id_token".toList = .string token := by
  unfold LeafClient.authenticate http_post at hok
  simp only at hok
  split at hok
  · exact absurd hok (by simp)
  · rename_i h1
    split at hok
    · exact absurd hok (by simp)
    · rename_i h2
      split at hok
      · exact absurd hok (by simp)
      · rename_i parsed hp
        split at hok
        · split at hok
          · rename_i token ht
            exact ⟨by simpa using h1, by simpa using h2, parsed, token, hp, ht⟩
          · exact absurd hok (by simp)
        · exact absurd hok (by simp)

theorem execute_query_sent_of_token (w : World) (c : LeafClient) (sent : List Request)
    (sql eng : CString) (res : Json) (htok : c.auth_token_.isEmpty = false) :
    (c.execute_query w sent sql eng res).sent = sent ++ [.query sql eng c.auth_token_] := by
  unfold LeafClient.execute_query http_post
  rw [if_neg (by simp [htok])]
  simp only
  split
  · rfl
  · split
    · rfl
    · split
      · rfl
      · split <;> rfl

theorem authenticate_token (w : World) (c : LeafClient) (sent : List Request)
    (u p : CString) (r : Bool) (hok : (c.authenticate w sent u p r).ok = true) :
    ∃ parsed, w.parse (w.backend (sent ++ [.authenticate u p r])).body = some parsed ∧
      parsed.at_key "id_token".toList = .string (c.authenticate w sent u p r).client.auth_token_ := by
  unfold LeafClient.authenticate http_post at hok ⊢
  simp only at hok ⊢
  split at hok
  · exact absurd hok (by simp)
  · rename_i h1
    rw [if_neg h1]
    split at hok
    · exact absurd hok (by simp)
    · rename_i h2
      rw [if_neg h2]
      split at hok
      · exact absurd hok (by simp)
      · rename_i parsed hp
        simp only [hp]
        split at hok
        · rename_i hcont
          rw [if_pos hcont]
          split at hok
          · rename_i token ht
            simp only [ht]
            exact ⟨parsed, rfl, ht⟩
          · exact absurd hok (by simp)
        · exact absurd hok (by simp)

/-- The requests that the backend part of one execution adds: the query; or
the query and one authentication; or the query, one authentication that the
backend accepted, and a second query carrying the token just obtained. -/
theorem exec_backend_trace (w : World) (reg : HandleRegistry) (sent : List Request) (h : Nat)
    (stmt : StmtHandle) (conn : ConnHandle) (sql : CString)
    (hconn : conn.is_connected = true) :
    (exec_backend w reg sent h stmt conn sql).sent =
        sent ++ [.query sql conn.sql_engine conn.auth_token] ∨
    (exec_backend w reg sent h stmt conn sql).sent =
        sent ++ [.query sql conn.sql_engine conn.auth_token,
          .authenticate conn.username conn.password conn.remember_me] ∨
    ∃ token, (exec_backend w reg sent h stmt conn sql).sent =
        sent ++ [.query sql conn.sql_engine conn.auth_token,
          .authenticate conn.username conn.password conn.remember_me,
          .query sql conn.sql_engine token] ∧
      (w.backend (sent ++ [.query sql conn.sql_engine conn.auth_token,
          .authenticate conn.username conn.password conn.remember_me])).ok = true ∧
      (w.backend (sent ++ [.query sql conn.sql_engine conn.auth_token,
          .authenticate conn.username conn.password conn.remember_me])).status_code = 200 ∧
      ∃ parsed, w.parse (w.backend (sent ++ [.query sql conn.sql_engine conn.auth_token,
          .authenticate conn.username conn.password conn.remember_me])).body = some parsed ∧
        parsed.at_key "id_token".toList = .string token := by
  have htok : conn.auth_token.isEmpty = false := by
    simp only [ConnHandle.is_connected, Bool.and_eq_true, Bool.not_eq_true'] at hconn
    exact hconn.2
  unfold exec_backend
  simp only
  generalize hcl : (⟨conn.endpoint_base, conn.user_agent, conn.timeout_sec, conn.verify_tls,
    conn.auth_token⟩ : LeafClient) = client
  have hct : client.auth_token_ = conn.auth_token := by rw [← hcl]
  have hq1 : (client.execute_query w sent sql conn.sql_engine .null).sent =
      sent ++ [.query sql conn.sql_engine conn.auth_token] := by
    rw [execute_query_sent_of_token w client sent sql conn.sql_engine .null (by rw [hct]; exact htok),
      hct]
  generalize client.execute_query w sent sql conn.sql_engine .null = qr1 at hq1 ⊢
  have ha := authenticate_sent w client qr1.sent conn.username conn.password conn.remember_me
  split
  · split
    · split
      · rename_i haok
        have hacc := authenticate_ok w client _ conn.username conn.password conn.remember_me haok
        have htk := authenticate_token w client _ conn.username conn.password conn.remember_me
          haok
        generalize client.authenticate w qr1.sent conn.username conn.password conn.remember_me
          = ar at ha htk ⊢
        have hq2 := execute_query_sent w ar.client ar.sent sql conn.sql_engine qr1.result
        generalize ar.client.execute_query w ar.sent sql conn.sql_engine qr1.result = qr2
          at hq2 ⊢
        rw [hq1] at hacc htk ha
        simp only [List.append_assoc, List.singleton_append] at hacc htk ha
        have key : ∀ r : ExecResult, r.sent = qr2.sent →
            r.sent = sent ++ [.query sql conn.sql_engine conn.auth_token] ∨
            r.sent = sent ++ [.query sql conn.sql_engine conn.auth_token,
              .authenticate conn.username conn.password conn.remember_me] ∨
            ∃ token, r.sent = sent ++ [.query sql conn.sql_engine conn.auth_token,
                .authenticate conn.username conn.password conn.remember_me,
                .query sql conn.sql_engine token] ∧
              (w.backend (sent ++ [.query sql conn.sql_engine conn.auth_token,
                .authenticate conn.username conn.password conn.remember_me])).ok = true ∧
              (w.backend (sent ++ [.query sql conn.sql_engine conn.auth_token,
                .authenticate conn.username conn.password conn.remember_me])).status_code
                  = 200 ∧
              ∃ parsed, w.parse (w.backend (sent ++ [.query sql conn.sql_engine conn.auth_token,
                .authenticate conn.username conn.password conn.remember_me])).body
                  = some parsed ∧
                parsed.at_key "id_token".toList = .string token := by
          intro r hr
          rcases hq2 with e | e
          · exact Or.inr (Or.inl (by rw [hr, e, ha]))
          · refine Or.inr (Or.inr ⟨ar.client.auth_token_, ?_, hacc.1, hacc.2.1, htk⟩)
            rw [hr, e, ha]
            simp
        split
        · exact key _ rfl
        · exact key _ rfl
      · refine Or.inr (Or.inl ?_)
        show (client.authenticate w qr1.sent conn.username conn.password conn.remember_me).sent
          = _
        rw [ha, hq1]
        simp
    · exact Or.inl hq1
  · exact Or.inl hq1

/-- C20: for every backend behaviour, registry state and statement text, the
requests that one SQLExecDirect call adds to those sent before contain at most
two query requests and at most one authentication request; when there are two
query requests the call sent exactly a query, an authentication and a query, in
this order, and the backend accepted that authentication (transfer completed,
status 200, a body with a string id_token) before the second query; no further
request follows. -/
theorem exec_direct_bounded_retry (w : World) (reg : HandleRegistry) (sent : List Request)
    (h : Nat) (text : Option CString) :
    ∃ new : List Request, (SQLExecDirect w reg sent h text).sent = sent ++ new ∧
      (new.filter Request.is_query).length ≤ 2 ∧
      (new.filter Request.is_authenticate).length ≤ 1 ∧
      ((new.filter Request.is_query).length = 2 →
        ∃ q1 a q2, new = [q1, a, q2] ∧ q1.is_query = true ∧ a.is_authenticate = true ∧
          q2.is_query = true ∧
          (w.backend (sent ++ [q1, a])).ok = true ∧
          (w.backend (sent ++ [q1, a])).status_code = 200 ∧
          ∃ parsed token, w.parse (w.backend (sent ++ [q1, a])).body = some parsed ∧
            parsed.at_key "id_token".toList = .string token) := by
  have quiet : ∀ r : ExecResult, r.sent = sent →
      ∃ new : List Request, r.sent = sent ++ new ∧
      (new.filter Request.is_query).length ≤ 2 ∧
      (new.filter Request.is_authenticate).length ≤ 1 ∧
      ((new.filter Request.is_query).length = 2 →
        ∃ q1 a q2, new = [q1, a, q2] ∧ q1.is_query = true ∧ a.is_authenticate = true ∧
          q2.is_query = true ∧
          (w.backend (sent ++ [q1, a])).ok = true ∧
          (w.backend (sent ++ [q1, a])).status_code = 200 ∧
          ∃ parsed token, w.parse (w.backend (sent ++ [q1, a])).body = some parsed ∧
            parsed.at_key "id_token".toList = .string token) := by
    intro r hr
    exact ⟨[], by rw [hr, List.append_nil], by simp, by simp, by simp⟩
  unfold SQLExecDirect
  split
  · exact quiet _ rfl
  · simp only
    split
    · exact quiet _ rfl
    · split
      · exact quiet _ rfl
      · split
        · exact quiet _ rfl
        · split
          · exact quiet _ rfl
          · rename_i conn hconn
            split
            · exact quiet _ rfl
            · rename_i hcon
              have hcon2 : conn.is_connected = true := by simpa using hcon
              rcases exec_backend_trace w reg sent h _ conn (text.getD []) hcon2 with e | e | e
              · exact ⟨_, e, by simp [Request.is_query], by simp [Request.is_authenticate],
                  by simp [Request.is_query]⟩
              · exact ⟨_, e, by simp [Request.is_query], by simp [Request.is_authenticate],
                  by simp [Request.is_query]⟩
              · obtain ⟨token, e, hok, hst, parsed, hp, ht⟩ := e
                exact ⟨_, e, by simp [Request.is_query], by simp [Request.is_authenticate],
                  fun _ => ⟨_, _, _, rfl, rfl, rfl, rfl, hok, hst, parsed, token, hp, ht⟩⟩

/-! ## Retry and connection state -/

/-- C21: evaluation at the failing input.  On a connected statement, with a
backend that answers every request with status 500, SQLExecDirect for the text
SELECT 1 sends the query and then an authentication request, and returns
SQL_ERROR with a record of state 28000 instead of HY000. -/
theorem exec_direct_reauthenticates_on_any_failure :
    (SQLExecDirect (World.status 500) HandleRegistry.connected [] 2
      (some "SELECT 1".toList)).sent =
      [.query "SELECT 1".toList "SPARK_SQL".toList "tok".toList,
        .authenticate "u".toList "p".toList true] ∧
    (SQLExecDirect (World.status 500) HandleRegistry.connected [] 2
      (some "SELECT 1".toList)).ret = SQL_ERROR ∧
    ((SQLExecDirect (World.status 500) HandleRegistry.connected [] 2
      (some "SELECT 1".toList)).reg.get_stmt 2).map
        (fun s => s.diag.records_.map DiagRecord.sqlstate) = some ["28000".toList] := by
  refine ⟨by decide, by decide, by decide⟩

/-- C23: evaluation at the failing input.  With a backend whose authentication
answer carries the empty string as id_token, SQLConnect on a live connection
returns SQL_SUCCESS, yet the connection holds an empty token and is_connected
is false. -/
theorem connect_succeeds_with_empty_token :
    (SQLConnect (World.token []) (fun _ => ConnectionParams.new) HandleRegistry.fresh_conn []
      2 none (some "u".toList) (some "p".toList)).ret = SQL_SUCCESS ∧
    ((SQLConnect (World.token []) (fun _ => ConnectionParams.new) HandleRegistry.fresh_conn []
      2 none (some "u".toList) (some "p".toList)).reg.get_conn 2).map
        (fun c => (c.auth_token, c.token_valid, c.is_connected)) = some ([], true, false) := by
  refine ⟨by decide, by decide⟩

/-- C24 (counterexample): on a connection that an earlier call left connected,
an SQLConnect whose authentication fails returns SQL_ERROR with one record of
state 28000, and the connection is still connected afterwards. -/
theorem failed_connect_keeps_connected :
    (HandleRegistry.connected.get_conn 2).map ConnHandle.is_connected = some true ∧
    (SQLConnect (World.status 401) (fun _ => ConnectionParams.new) HandleRegistry.connected []
      2 none (some "u".toList) (some "x".toList)).ret = SQL_ERROR ∧
    ((SQLConnect (World.status 401) (fun _ => ConnectionParams.new) HandleRegistry.connected []
      2 none (some "u".toList) (some "x".toList)).reg.get_conn 2).map
        (fun c => (c.diag.records_.map DiagRecord.sqlstate, c.is_connected))
      = some (["28000".toList], true) := by
  refine ⟨by decide, by decide, by decide⟩

/-- C25 (counterexample): on a connected statement, with a backend that answers
every request with status 401, SQLExecDirect fails with a record of state 28000
after a failed re-authentication, the connection is still connected afterwards,
and a following SQLExecDirect sends a query to the backend again. -/
theorem failed_reauth_keeps_connected :
    (SQLExecDirect (World.status 401) HandleRegistry.connected [] 2
      (some "SELECT 1".toList)).ret = SQL_ERROR ∧
    ((SQLExecDirect (World.status 401) HandleRegistry.connected [] 2
      (some "SELECT 1".toList)).reg.get_stmt 2).map
        (fun s => s.diag.records_.map DiagRecord.sqlstate) = some ["28000".toList] ∧
    ((SQLExecDirect (World.status 401) HandleRegistry.connected [] 2
      (some "SELECT 1".toList)).reg.get_conn 2).map ConnHandle.is_connected = some true ∧
    (SQLExecDirect (World.status 401)
      (SQLExecDirect (World.status 401) HandleRegistry.connected [] 2
        (some "SELECT 1".toList)).reg [] 2 (some "SELECT 1".toList)).sent =
      [.query "SELECT 1".toList "SPARK_SQL".toList "tok".toList,
        .authenticate "u".toList "p".toList true] := by
  refine ⟨by decide, by decide, by decide, by decide⟩

/-- C28: evaluation at the failing input.  In the text
SELECT updatex FROM t; UPDATE t SET a = 1 the keyword UPDATE occurs as a whole
word (at index 23 of the normalised text), yet is_allowed returns true: only
the first occurrence of a keyword, here inside UPDATEX, is examined. -/
theorem is_allowed_misses_later_occurrence :
    whole_word_at (SQLGuard.normalize_sql "SELECT updatex FROM t; UPDATE t SET a = 1".toList)
      "UPDATE".toList 23 = true ∧
    occurs_as_whole_word
      (SQLGuard.normalize_sql "SELECT updatex FROM t; UPDATE t SET a = 1".toList)
      "UPDATE".toList = true ∧
    SQLGuard.is_allowed "SELECT updatex FROM t; UPDATE t SET a = 1".toList = true := by
  refine ⟨by decide, by decide, by decide⟩

theorem get_conn_set_conn (reg : HandleRegistry) (h : Nat) (c0 c : ConnHandle)
    (hc : reg.get_conn h = some c0) : (reg.set_conn h c).get_conn h = some c := by
  simp only [HandleRegistry.get_conn] at hc
  simp [HandleRegistry.get_conn, HandleRegistry.set_conn, find_update, hc]

theorem get_conn_set_stmt (reg : HandleRegistry) (h c : Nat) (s : StmtHandle) :
    (reg.set_stmt h s).get_conn c = reg.get_conn c := rfl

theorem get_stmt_set_conn (reg : HandleRegistry) (h c : Nat) (x : ConnHandle) :
    (reg.set_conn c x).get_stmt h = reg.get_stmt h := rfl

theorem exec_backend_steps (w : World) (reg : HandleRegistry) (sent : List Request) (h : Nat)
    (stmt : StmtHandle) (conn : ConnHandle) (sql : CString) :
    exec_backend w reg sent h stmt conn sql =
      if !(exec_first_query w sent conn sql).ok then
        if conn.token_valid then
          if (exec_reauth w sent conn sql).ok then
            if !(exec_retry w sent conn sql).ok then
              exec_fail
                (reg.set_conn stmt.conn_handle
                  { conn with auth_token := (exec_reauth w sent conn sql).client.auth_token_ })
                h stmt "HY000".toList "Query execution failed".toList
                (exec_retry w sent conn sql).sent
            else
              exec_load w
                (reg.set_conn stmt.conn_handle
                  { conn with auth_token := (exec_reauth w sent conn sql).client.auth_token_ })
                h stmt (exec_retry w sent conn sql).result (exec_retry w sent conn sql).sent
          else
            exec_fail reg h stmt "28000".toList "Reauthentication failed".toList
              (exec_reauth w sent conn sql).sent
        else
          exec_fail reg h stmt "HY000".toList "Query execution failed".toList
            (exec_first_query w sent conn sql).sent
      else
        exec_load w reg h stmt (exec_first_query w sent conn sql).result
          (exec_first_query w sent conn sql).sent := rfl

/-- On a live statement with an allowed text that is no metadata query and a
connected owner, `SQLExecDirect` is its backend part run on the reset
statement. -/
theorem exec_direct_connected (w : World) (reg : HandleRegistry) (sent : List Request)
    (h : Nat) (stmt0 : StmtHandle) (conn : ConnHandle) (text : Option CString)
    (hs : reg.get_stmt h = some stmt0)
    (hgeo : is_geometry_query (text.getD []) = false)
    (hallow : SQLGuard.is_allowed (text.getD []) = true)
    (hch : stmt0.conn_handle ≠ 0) (hc : reg.get_conn stmt0.conn_handle = some conn)
    (hcon : conn.is_connected = true) :
    SQLExecDirect w reg sent h text =
      exec_backend w reg sent h
        { stmt0 with diag := stmt0.diag.clear
                     sql_text := text.getD []
                     executed := false
                     resultset := none
                     current_row := 0 } conn (text.getD []) := by
  unfold SQLExecDirect
  simp only [hs, hgeo, hallow, hch, hc, hcon, Bool.false_eq_true, if_false, Bool.not_true]

theorem first_query_unauthorized (w : World) (sent : List Request) (conn : ConnHandle)
    (sql : CString) (hcon : conn.is_connected = true)
    (h401 : (w.backend (sent ++ [.query sql conn.sql_engine conn.auth_token])).status_code
      = 401) :
    (exec_first_query w sent conn sql).ok = false := by
  have htok : conn.auth_token.isEmpty = false := by
    simp only [ConnHandle.is_connected, Bool.and_eq_true, Bool.not_eq_true'] at hcon
    exact hcon.2
  unfold exec_first_query LeafClient.execute_query http_post exec_client
  simp only [htok, Bool.false_eq_true, if_false, h401]
  split
  · rfl
  · simp

theorem load_rows_elements (ord : HashOrder) (j : Json) (rs0 : ResultSet) :
    (load_from_json ord j rs0).rows_ = j.elements := by
  cases j with
  | array rows => exact (load_array_rows ord rows rs0).1
  | _ => rfl

/-- C22: on a connected statement whose first query the backend answers with
status 401: when the re-authentication fails SQLExecDirect returns SQL_ERROR
with one record of state 28000; when it succeeds and the retried query fails,
SQL_ERROR with one record of state HY000; when the retried query succeeds,
SQL_SUCCESS, the connection then holds the token just obtained, and the
statement holds the result set loaded from the payload of the retried query,
whose rows are the elements of that payload. -/
theorem exec_direct_after_unauthorized (w : World) (reg : HandleRegistry)
    (sent : List Request) (h : Nat) (stmt0 : StmtHandle) (conn : ConnHandle)
    (text : Option CString)
    (hs : reg.get_stmt h = some stmt0)
    (hgeo : is_geometry_query (text.getD []) = false)
    (hallow : SQLGuard.is_allowed (text.getD []) = true)
    (hch : stmt0.conn_handle ≠ 0) (hc : reg.get_conn stmt0.conn_handle = some conn)
    (hcon : conn.is_connected = true)
    (h401 : (w.backend (sent ++
      [.query (text.getD []) conn.sql_engine conn.auth_token])).status_code = 401) :
    ((exec_reauth w sent conn (text.getD [])).ok = false →
      (SQLExecDirect w reg sent h text).ret = SQL_ERROR ∧
      ∃ s, (SQLExecDirect w reg sent h text).reg.get_stmt h = some s ∧
        s.diag.records_ = [⟨"28000".toList, 0, "Reauthentication failed".toList⟩]) ∧
    ((exec_reauth w sent conn (text.getD [])).ok = true →
      (exec_retry w sent conn (text.getD [])).ok = false →
      (SQLExecDirect w reg sent h text).ret = SQL_ERROR ∧
      ∃ s, (SQLExecDirect w reg sent h text).reg.get_stmt h = some s ∧
        s.diag.records_ = [⟨"HY000".toList, 0, "Query execution failed".toList⟩]) ∧
    ((exec_reauth w sent conn (text.getD [])).ok = true →
      (exec_retry w sent conn (text.getD [])).ok = true →
      (SQLExecDirect w reg sent h text).ret = SQL_SUCCESS ∧
      ((SQLExecDirect w reg sent h text).reg.get_conn stmt0.conn_handle).map
          ConnHandle.auth_token = some (exec_reauth w sent conn (text.getD [])).client.auth_token_ ∧
      ∃ s, (SQLExecDirect w reg sent h text).reg.get_stmt h = some s ∧
        s.resultset =
          some (load_from_json w.ord (exec_retry w sent conn (text.getD [])).result
            ResultSet.new) ∧
        s.resultset.map ResultSet.rows_ =
          some (exec_retry w sent conn (text.getD [])).result.elements ∧
        s.executed = true ∧ s.diag.records_ = []) := by
  have hq1 := first_query_unauthorized w sent conn (text.getD []) hcon h401
  have htv : conn.token_valid = true := by
    simp only [ConnHandle.is_connected, Bool.and_eq_true] at hcon
    exact hcon.1
  rw [exec_direct_connected w reg sent h stmt0 conn text hs hgeo hallow hch hc hcon,
    exec_backend_steps]
  simp only [hq1, htv, Bool.not_false, if_true]
  refine ⟨?_, ?_, ?_⟩
  · intro ha
    simp only [ha, Bool.false_eq_true, if_false]
    exact ⟨rfl, _, (exec_fail_spec reg h stmt0 _ _ _ _ hs).2.2, rfl⟩
  · intro ha hq2
    simp only [ha, hq2, if_true, Bool.not_false]
    exact ⟨rfl, _, (exec_fail_spec _ h stmt0 _ _ _ _
      (by rw [get_stmt_set_conn]; exact hs)).2.2, rfl⟩
  · intro ha hq2
    simp only [ha, hq2, if_true, Bool.not_true, Bool.false_eq_true, if_false]
    refine ⟨rfl, ?_, _, get_stmt_set_stmt _ h stmt0 _ (by rw [get_stmt_set_conn]; exact hs),
      rfl, ?_, rfl, rfl⟩
    · simp only [exec_load, get_conn_set_stmt]
      rw [get_conn_set_conn reg _ conn _ hc]
      rfl
    · simp only [Option.map_some', load_rows_elements]

theorem exec_direct_after_unauthorized_witness :
    (SQLExecDirect (World.status 401) HandleRegistry.connected [] 2
      (some "SELECT 1".toList)).ret = SQL_ERROR :=
  ((exec_direct_after_unauthorized (World.status 401) HandleRegistry.connected [] 2
    { StmtHandle.new with conn_handle := 2 }
    { ConnHandle.new with username := "u".toList
                          password := "p".toList
                          auth_token := "tok".toList
                          token_valid := true }
    (some "SELECT 1".toList) rfl (by decide) (by decide) (by decide) rfl (by decide)
    (by decide)).1 (by decide)).1

theorem connect_authenticate_failed (w : World) (sent : List Request) (conn : ConnHandle)
    (hf : (connect_authenticate w sent conn).ok = false) :
    (connect_authenticate w sent conn).conn =
      { conn with diag := conn.diag.add "28000".toList 0 "Authentication failed".toList } := by
  unfold connect_authenticate at hf ⊢
  simp only at hf ⊢
  split
  · rfl
  · rename_i h
    rw [if_neg h] at hf
    exact absurd hf (by simp)

theorem add_on_cleared (d : DiagStack) (s : CString) (n : Int) (m : CString) :
    (d.clear.add s n m).records_ = [⟨s, n, m⟩] := rfl

theorem connect_shape (w : World) (parse_dsn : CString → ConnectionParams)
    (reg : HandleRegistry) (sent : List Request) (h : Nat) (conn0 : ConnHandle)
    (hc : reg.get_conn h = some conn0) (dsn uid pwd : Option CString) :
    ∃ cfg : ConnHandle, cfg.auth_token = conn0.auth_token ∧
      cfg.token_valid = conn0.token_valid ∧ cfg.diag = conn0.diag.clear ∧
      (SQLConnect w parse_dsn reg sent h dsn uid pwd).ret =
        (if (connect_authenticate w sent cfg).ok then SQL_SUCCESS else SQL_ERROR) ∧
      (SQLConnect w parse_dsn reg sent h dsn uid pwd).reg =
        reg.set_conn h (connect_authenticate w sent cfg).conn ∧
      (SQLConnect w parse_dsn reg sent h dsn uid pwd).sent =
        (connect_authenticate w sent cfg).sent := by
  refine ⟨ConnHandle.apply_params { conn0 with diag := conn0.diag.clear }
    (connect_params parse_dsn dsn uid pwd), rfl, rfl, rfl, ?_⟩
  unfold SQLConnect
  simp only [hc]
  generalize connect_authenticate w sent _ = step
  cases step.ok <;> exact ⟨rfl, rfl, rfl⟩

theorem driver_connect_shape (w : World) (rt : Runtime)
    (parse_dsn : CString → ConnectionParams)
    (reg : HandleRegistry) (sent : List Request) (h : Nat) (conn0 : ConnHandle)
    (hc : reg.get_conn h = some conn0) (text : Option CString) (out : Bool) (len : Int)
    (lp : Bool) :
    ∃ cfg : ConnHandle, cfg.auth_token = conn0.auth_token ∧
      cfg.token_valid = conn0.token_valid ∧ cfg.diag = conn0.diag.clear ∧
      (SQLDriverConnect w rt parse_dsn reg sent h text out len lp).ret =
        (if (connect_authenticate w sent cfg).ok then SQL_SUCCESS else SQL_ERROR) ∧
      (SQLDriverConnect w rt parse_dsn reg sent h text out len lp).reg =
        reg.set_conn h (connect_authenticate w sent cfg).conn ∧
      (SQLDriverConnect w rt parse_dsn reg sent h text out len lp).sent =
        (connect_authenticate w sent cfg).sent := by
  refine ⟨ConnHandle.apply_params { conn0 with diag := conn0.diag.clear }
    (driver_connect_params rt w.ord parse_dsn (text.getD [])), rfl, rfl, rfl, ?_⟩
  unfold SQLDriverConnect
  simp only [hc]
  generalize connect_authenticate w sent _ = step
  cases step.ok
  · exact ⟨rfl, rfl, rfl⟩
  · simp only [Bool.not_true, Bool.false_eq_true, if_false, if_true]
    split <;> exact ⟨rfl, rfl, rfl⟩

theorem failed_connect_state (w : World) (sent : List Request) (cfg conn0 : ConnHandle)
    (ht : cfg.auth_token = conn0.auth_token) (hv : cfg.token_valid = conn0.token_valid)
    (hd : cfg.diag = conn0.diag.clear)
    (hne : (if (connect_authenticate w sent cfg).ok then SQL_SUCCESS else SQL_ERROR)
      ≠ SQL_SUCCESS) :
    (if (connect_authenticate w sent cfg).ok then SQL_SUCCESS else SQL_ERROR) = SQL_ERROR ∧
    (connect_authenticate w sent cfg).conn.diag.records_ =
      [⟨"28000".toList, 0, "Authentication failed".toList⟩] ∧
    (connect_authenticate w sent cfg).conn.auth_token = conn0.auth_token ∧
    (connect_authenticate w sent cfg).conn.token_valid = conn0.token_valid ∧
    (connect_authenticate w sent cfg).conn.is_connected = conn0.is_connected := by
  cases hok : (connect_authenticate w sent cfg).ok
  · rw [connect_authenticate_failed w sent cfg hok]
    refine ⟨by simp, ?_, ht, hv, ?_⟩
    · show (cfg.diag.add _ _ _).records_ = _
      rw [hd]
      rfl
    · simp only [ConnHandle.is_connected, ht, hv]
  · rw [hok] at hne
    exact absurd rfl hne

/-- C24 (amended): for a live connection in any prior state, an SQLConnect or
SQLDriverConnect that does not return success returns SQL_ERROR, leaves exactly
one diagnostic record on the connection, with state 28000, and leaves the
token and the validity flag as they were, so that is_connected is what it was
before the call: a connection that was not connected stays disconnected. -/
theorem failed_connect_keeps_token (w : World) (rt : Runtime)
    (parse_dsn : CString → ConnectionParams) (reg : HandleRegistry) (sent : List Request)
    (h : Nat) (conn0 : ConnHandle) (hc : reg.get_conn h = some conn0) :
    (∀ dsn uid pwd : Option CString,
      (SQLConnect w parse_dsn reg sent h dsn uid pwd).ret ≠ SQL_SUCCESS →
      (SQLConnect w parse_dsn reg sent h dsn uid pwd).ret = SQL_ERROR ∧
      ∃ c, (SQLConnect w parse_dsn reg sent h dsn uid pwd).reg.get_conn h = some c ∧
        c.diag.records_ = [⟨"28000".toList, 0, "Authentication failed".toList⟩] ∧
        c.auth_token = conn0.auth_token ∧ c.token_valid = conn0.token_valid ∧
        c.is_connected = conn0.is_connected) ∧
    (∀ (text : Option CString) (out : Bool) (len : Int) (lp : Bool),
      (SQLDriverConnect w rt parse_dsn reg sent h text out len lp).ret ≠ SQL_SUCCESS →
      (SQLDriverConnect w rt parse_dsn reg sent h text out len lp).ret = SQL_ERROR ∧
      ∃ c, (SQLDriverConnect w rt parse_dsn reg sent h text out len lp).reg.get_conn h
          = some c ∧
        c.diag.records_ = [⟨"28000".toList, 0, "Authentication failed".toList⟩] ∧
        c.auth_token = conn0.auth_token ∧ c.token_valid = conn0.token_valid ∧
        c.is_connected = conn0.is_connected) := by
  constructor
  · intro dsn uid pwd hne
    obtain ⟨cfg, ht, hv, hd, hret, hreg, -⟩ := connect_shape w parse_dsn reg sent h conn0 hc
      dsn uid pwd
    rw [hret] at hne ⊢
    rw [hreg]
    have hst := failed_connect_state w sent cfg conn0 ht hv hd hne
    exact ⟨hst.1, _, get_conn_set_conn reg h conn0 _ hc, hst.2⟩
  · intro text out len lp hne
    obtain ⟨cfg, ht, hv, hd, hret, hreg, -⟩ := driver_connect_shape w rt parse_dsn reg sent h
      conn0 hc text out len lp
    rw [hret] at hne ⊢
    rw [hreg]
    have hst := failed_connect_state w sent cfg conn0 ht hv hd hne
    exact ⟨hst.1, _, get_conn_set_conn reg h conn0 _ hc, hst.2⟩

theorem failed_connect_keeps_token_witness :
    (SQLConnect (World.status 401) (fun _ => ConnectionParams.new) HandleRegistry.fresh_conn []
      2 none (some "u".toList) (some "x".toList)).ret = SQL_ERROR :=
  (((failed_connect_keeps_token (World.status 401) Runtime.trivial
    (fun _ => ConnectionParams.new) HandleRegistry.fresh_conn [] 2 ConnHandle.new rfl).1
    none (some "u".toList) (some "x".toList)) (by decide)).1

/-- C25 (amended): after an SQLExecDirect on a connected statement whose first
query fails and whose re-authentication attempt fails, the call has returned
SQL_ERROR with one record of state 28000 and the owning connection is the
object it was before the call: it keeps its token and validity flag, so
is_connected stays true, and a following SQLExecDirect with the same text sends
a query request to the backend. -/
theorem failed_reauth_leaves_connection (w : World) (reg : HandleRegistry)
    (sent : List Request) (h : Nat) (stmt0 : StmtHandle) (conn : ConnHandle)
    (text : Option CString)
    (hs : reg.get_stmt h = some stmt0)
    (hgeo : is_geometry_query (text.getD []) = false)
    (hallow : SQLGuard.is_allowed (text.getD []) = true)
    (hch : stmt0.conn_handle ≠ 0) (hc : reg.get_conn stmt0.conn_handle = some conn)
    (hcon : conn.is_connected = true)
    (hq1 : (exec_first_query w sent conn (text.getD [])).ok = false)
    (ha : (exec_reauth w sent conn (text.getD [])).ok = false) :
    (SQLExecDirect w reg sent h text).ret = SQL_ERROR ∧
    (∃ s, (SQLExecDirect w reg sent h text).reg.get_stmt h = some s ∧
      s.diag.records_ = [⟨"28000".toList, 0, "Reauthentication failed".toList⟩]) ∧
    (SQLExecDirect w reg sent h text).reg.get_conn stmt0.conn_handle = some conn ∧
    ((SQLExecDirect w reg sent h text).reg.get_conn stmt0.conn_handle).map
      ConnHandle.is_connected = some true ∧
    ∃ rest, (SQLExecDirect w (SQLExecDirect w reg sent h text).reg
        (SQLExecDirect w reg sent h text).sent h text).sent =
      (SQLExecDirect w reg sent h text).sent ++
        (Request.query (text.getD []) conn.sql_engine conn.auth_token :: rest) := by
  have htv : conn.token_valid = true := by
    simp only [ConnHandle.is_connected, Bool.and_eq_true] at hcon
    exact hcon.1
  have hr : SQLExecDirect w reg sent h text =
      exec_fail reg h
        { stmt0 with diag := stmt0.diag.clear
                     sql_text := text.getD []
                     executed := false
                     resultset := none
                     current_row := 0 }
        "28000".toList "Reauthentication failed".toList
        (exec_reauth w sent conn (text.getD [])).sent := by
    rw [exec_direct_connected w reg sent h stmt0 conn text hs hgeo hallow hch hc hcon,
      exec_backend_steps]
    simp only [hq1, htv, ha, Bool.not_false, if_true, Bool.false_eq_true, if_false]
  rw [hr]
  have hspec := exec_fail_spec reg h stmt0
    { stmt0 with diag := stmt0.diag.clear
                 sql_text := text.getD []
                 executed := false
                 resultset := none
                 current_row := 0 }
    "28000".toList "Reauthentication failed".toList
    (exec_reauth w sent conn (text.getD [])).sent hs
  refine ⟨rfl, ⟨_, hspec.2.2, rfl⟩, ?_, ?_, ?_⟩
  · simp only [exec_fail, get_conn_set_stmt]
    exact hc
  · simp only [exec_fail, get_conn_set_stmt, hc, Option.map_some', hcon]
  · have hc2 : (exec_fail reg h
        { stmt0 with diag := stmt0.diag.clear
                     sql_text := text.getD []
                     executed := false
                     resultset := none
                     current_row := 0 }
        "28000".toList "Reauthentication failed".toList
        (exec_reauth w sent conn (text.getD [])).sent).reg.get_conn stmt0.conn_handle
        = some conn := by
      simp only [exec_fail, get_conn_set_stmt]
      exact hc
    rw [exec_direct_connected w _ _ h _ conn text hspec.2.2 hgeo hallow hch hc2 hcon]
    rcases exec_backend_trace w _ _ h _ conn (text.getD []) hcon with e | e | ⟨tok, e, -⟩
    · exact ⟨[], e⟩
    · exact ⟨_, e⟩
    · exact ⟨_, e⟩

theorem failed_reauth_leaves_connection_witness :
    ((SQLExecDirect (World.status 401) HandleRegistry.connected [] 2
      (some "SELECT 1".toList)).reg.get_conn 2).map ConnHandle.is_connected = some true :=
  (failed_reauth_leaves_connection (World.status 401) HandleRegistry.connected [] 2
    { StmtHandle.new with conn_handle := 2 }
    { ConnHandle.new with username := "u".toList
                          password := "p".toList
                          auth_token := "tok".toList
                          token_valid := true }
    (some "SELECT 1".toList) rfl (by decide) (by decide) (by decide) rfl (by decide)
    (by decide) (by decide)).2.2.2.1

theorem update_update {α : Type} (m : HandleMap α) (h : Nat) (v : α) :
    HandleMap.update (HandleMap.update m h v) h v = HandleMap.update m h v := by
  induction m with
  | nil => rfl
  | cons p m ih =>
    have ih2 : List.map (fun p : Nat × α => if p.1 = h then (p.1, v) else p)
        (List.map (fun p : Nat × α => if p.1 = h then (p.1, v) else p) m) =
        List.map (fun p : Nat × α => if p.1 = h then (p.1, v) else p) m := ih
    obtain ⟨k, v0⟩ := p
    by_cases hk : k = h
    · simp [HandleMap.update, hk, ih2]
    · simp [HandleMap.update, hk, ih2]

/-- C26: for a live connection in any state, SQLDisconnect returns success and
leaves the connection object with an empty token and the validity flag unset,
so that is_connected is false, and with every other member (configuration,
credentials, diagnostics) as it was; a second SQLDisconnect returns success and
leaves the registry exactly as the first did. -/
theorem disconnect_clears_token_idempotent (reg : HandleRegistry) (h : Nat) (conn : ConnHandle)
    (hc : reg.get_conn h = some conn) :
    (SQLDisconnect reg h).1 = SQL_SUCCESS ∧
    (SQLDisconnect reg h).2.get_conn h =
      some { conn with auth_token := [], token_valid := false } ∧
    ((SQLDisconnect reg h).2.get_conn h).map ConnHandle.is_connected = some false ∧
    ((SQLDisconnect reg h).2.get_conn h).map
      (fun c => (c.endpoint_base, c.username, c.password, c.remember_me, c.sql_engine,
        c.timeout_sec, c.verify_tls, c.user_agent)) =
      some (conn.endpoint_base, conn.username, conn.password, conn.remember_me,
        conn.sql_engine, conn.timeout_sec, conn.verify_tls, conn.user_agent) ∧
    SQLDisconnect (SQLDisconnect reg h).2 h = (SQL_SUCCESS, (SQLDisconnect reg h).2) := by
  have h1 : SQLDisconnect reg h =
      (SQL_SUCCESS, reg.set_conn h { conn with auth_token := [], token_valid := false }) := by
    unfold SQLDisconnect
    simp only [hc]
  have h2 := get_conn_set_conn reg h conn { conn with auth_token := [], token_valid := false } hc
  rw [h1]
  refine ⟨rfl, h2, ?_, ?_, ?_⟩
  · simp only [h2, Option.map_some']
    simp [ConnHandle.is_connected]
  · simp only [h2, Option.map_some']
  · unfold SQLDisconnect
    simp only [h2]
    simp only [HandleRegistry.set_conn, update_update]

theorem disconnect_clears_token_idempotent_witness :
    (SQLDisconnect HandleRegistry.connected 2).1 = SQL_SUCCESS ∧
    ((SQLDisconnect HandleRegistry.connected 2).2.get_conn 2).map ConnHandle.is_connected
      = some false :=
  ⟨(disconnect_clears_token_idempotent HandleRegistry.connected 2
      { ConnHandle.new with username := "u".toList
                            password := "p".toList
                            auth_token := "tok".toList
                            token_valid := true } rfl).1,
    (disconnect_clears_token_idempotent HandleRegistry.connected 2
      { ConnHandle.new with username := "u".toList
                            password := "p".toList
                            auth_token := "tok".toList
                            token_valid := true } rfl).2.2.1⟩

/-! ## Payload normalisation -/

theorem load_non_array (ord : HashOrder) (j : Json) (rs0 : ResultSet)
    (hj : j.is_array = false) : load_from_json ord j rs0 = ⟨[], [], 0⟩ := by
  unfold load_from_json
  simp [hj]

theorem normalize_load (ord : HashOrder) (p : Json) (rs0 : ResultSet) :
    load_from_json ord (normalize_payload p) rs0 =
      match spec_payload_rows p with
      | some rows => load_from_json ord (.array rows) rs0
      | none => ⟨[], [], 0⟩ := by
  cases p with
  | array rows => rfl
  | object ms =>
    unfold normalize_payload spec_payload_rows
    simp only [Json.is_array, Json.is_object, Bool.false_eq_true, if_false, Bool.true_and]
    by_cases hc : (Json.object ms).contains "rows".toList = true
    · simp only [hc, if_true]
      cases hr : (Json.object ms).at_key "rows".toList with
      | array rows => simp [Json.is_array]
      | object ms2 =>
        simp only [Json.is_array, Json.is_object, Bool.false_eq_true, if_false, Bool.true_and]
        by_cases hc2 : (Json.object ms2).contains "rows".toList = true
        · simp only [hc2, if_true]
          cases hr2 : (Json.object ms2).at_key "rows".toList <;> rfl
        · simp only [hc2, Bool.false_eq_true, if_false]
          exact load_non_array ord _ rs0 rfl
      | null =>
        simp only [Json.is_array, Json.is_object, Bool.false_eq_true, if_false, Bool.false_and]
        exact load_non_array ord _ rs0 rfl
      | boolean b =>
        simp only [Json.is_array, Json.is_object, Bool.false_eq_true, if_false, Bool.false_and]
        exact load_non_array ord _ rs0 rfl
      | number_integer v =>
        simp only [Json.is_array, Json.is_object, Bool.false_eq_true, if_false, Bool.false_and]
        exact load_non_array ord _ rs0 rfl
      | number_unsigned v =>
        simp only [Json.is_array, Json.is_object, Bool.false_eq_true, if_false, Bool.false_and]
        exact load_non_array ord _ rs0 rfl
      | number_float d =>
        simp only [Json.is_array, Json.is_object, Bool.false_eq_true, if_false, Bool.false_and]
        exact load_non_array ord _ rs0 rfl
      | string s =>
        simp only [Json.is_array, Json.is_object, Bool.false_eq_true, if_false, Bool.false_and]
        exact load_non_array ord _ rs0 rfl
    · simp only [hc, Bool.false_eq_true, if_false]
      exact load_non_array ord _ rs0 rfl
  | null => rfl
  | boolean b => rfl
  | number_integer v => rfl
  | number_unsigned v => rfl
  | number_float d => rfl
  | string s => rfl

theorem execute_query_payload (w : World) (c : LeafClient) (sent : List Request)
    (sql eng : CString) (res : Json) (hok : (c.execute_query w sent sql eng res).ok = true) :
    ∃ p, w.parse (w.backend (c.execute_query w sent sql eng res).sent).body = some p ∧
      (c.execute_query w sent sql eng res).result = normalize_payload p := by
  unfold LeafClient.execute_query http_post at hok ⊢
  split at hok
  · exact absurd hok (by simp)
  · rename_i h0
    rw [if_neg h0]
    simp only at hok ⊢
    split at hok
    · exact absurd hok (by simp)
    · rename_i h1
      rw [if_neg h1]
      split at hok
      · exact absurd hok (by simp)
      · rename_i h2
        rw [if_neg h2]
        split at hok
        · exact absurd hok (by simp)
        · rename_i h3
          rw [if_neg h3]
          split at hok
          · exact absurd hok (by simp)
          · rename_i p hp
            simp only [hp]
            exact ⟨p, rfl, rfl⟩

/-- C27: when SQLExecDirect on a connected statement (text allowed, no metadata
query) returns success, the body of the backend's answer to the last request
sent parses to a payload p, and the installed result set is the one loaded
from: p itself when p is an array; p.rows when that is an array; p.rows.rows
when p.rows is an object whose rows member is an array; in every other shape
the installed result set has no rows and no columns. -/
theorem exec_direct_installs_normalized_payload (w : World) (reg : HandleRegistry)
    (sent : List Request) (h : Nat) (stmt0 : StmtHandle) (conn : ConnHandle)
    (text : Option CString)
    (hs : reg.get_stmt h = some stmt0)
    (hgeo : is_geometry_query (text.getD []) = false)
    (hallow : SQLGuard.is_allowed (text.getD []) = true)
    (hch : stmt0.conn_handle ≠ 0) (hc : reg.get_conn stmt0.conn_handle = some conn)
    (hcon : conn.is_connected = true)
    (hret : (SQLExecDirect w reg sent h text).ret = SQL_SUCCESS) :
    ∃ p, w.parse (w.backend (SQLExecDirect w reg sent h text).sent).body = some p ∧
      ∃ s, (SQLExecDirect w reg sent h text).reg.get_stmt h = some s ∧
        s.resultset = some (match spec_payload_rows p with
          | some rows => load_from_json w.ord (.array rows) ResultSet.new
          | none => ⟨[], [], 0⟩) ∧
        s.resultset.map ResultSet.rows_ = some ((spec_payload_rows p).getD []) ∧
        (spec_payload_rows p = none → s.resultset.map ResultSet.columns_ = some []) := by
  have installed : ∀ (reg1 : HandleRegistry) (stmt : StmtHandle) (q : QueryResult) (p : Json),
      reg1.get_stmt h = some stmt0 → q.result = normalize_payload p →
      ∃ s, (exec_load w reg1 h stmt q.result q.sent).reg.get_stmt h = some s ∧
        s.resultset = some (match spec_payload_rows p with
          | some rows => load_from_json w.ord (.array rows) ResultSet.new
          | none => ⟨[], [], 0⟩) ∧
        s.resultset.map ResultSet.rows_ = some ((spec_payload_rows p).getD []) ∧
        (spec_payload_rows p = none → s.resultset.map ResultSet.columns_ = some []) := by
    intro reg1 stmt q p hs1 hq
    refine ⟨_, get_stmt_set_stmt reg1 h stmt0 _ hs1, ?_, ?_, ?_⟩
    · simp only [hq, normalize_load]
    · simp only [hq, normalize_load, Option.map_some']
      cases spec_payload_rows p with
      | none => rfl
      | some rows => simp [load_array_rows]
    · intro hn
      simp only [hq, normalize_load, hn, Option.map_some']
  have nofail : ∀ (reg1 : HandleRegistry) (stmt : StmtHandle) (a b : CString)
      (snt : List Request), (exec_fail reg1 h stmt a b snt).ret = SQL_SUCCESS → False := by
    intro reg1 stmt a b snt hr
    have hr2 : SQL_ERROR = SQL_SUCCESS := hr
    exact absurd hr2 (by decide)
  rw [exec_direct_connected w reg sent h stmt0 conn text hs hgeo hallow hch hc hcon,
    exec_backend_steps] at hret ⊢
  cases hq1 : (exec_first_query w sent conn (text.getD [])).ok
  · simp only [hq1, Bool.not_false, if_true] at hret ⊢
    cases htv : conn.token_valid
    · simp only [htv, Bool.false_eq_true, if_false] at hret ⊢
      exact (nofail _ _ _ _ _ hret).elim
    · simp only [htv, if_true] at hret ⊢
      cases ha : (exec_reauth w sent conn (text.getD [])).ok
      · simp only [ha, Bool.false_eq_true, if_false] at hret ⊢
        exact (nofail _ _ _ _ _ hret).elim
      · simp only [ha, if_true] at hret ⊢
        cases hq2 : (exec_retry w sent conn (text.getD [])).ok
        · simp only [hq2, Bool.not_false, if_true] at hret ⊢
          exact (nofail _ _ _ _ _ hret).elim
        · simp only [hq2, Bool.not_true, Bool.false_eq_true, if_false] at hret ⊢
          obtain ⟨p, hp, hres⟩ := execute_query_payload w _ _ _ _ _ hq2
          exact ⟨p, hp, installed _ _ (exec_retry w sent conn (text.getD [])) p
            (by rw [get_stmt_set_conn]; exact hs) hres⟩
  · simp only [hq1, Bool.not_true, Bool.false_eq_true, if_false] at hret ⊢
    obtain ⟨p, hp, hres⟩ := execute_query_payload w _ _ _ _ _ hq1
    exact ⟨p, hp, installed _ _ (exec_first_query w sent conn (text.getD [])) p hs hres⟩

theorem exec_direct_installs_normalized_payload_witness :
    ∃ p, (World.payload (.object [("rows".toList,
        .array [.object [("a".toList, .number_integer 1)]])])).parse
        ((World.payload (.object [("rows".toList,
          .array [.object [("a".toList, .number_integer 1)]])])).backend
          (SQLExecDirect (World.payload (.object [("rows".toList,
            .array [.object [("a".toList, .number_integer 1)]])]))
            HandleRegistry.connected [] 2 (some "SELECT 1".toList)).sent).body = some p ∧
      ∃ s, (SQLExecDirect (World.payload (.object [("rows".toList,
            .array [.object [("a".toList, .number_integer 1)]])]))
            HandleRegistry.connected [] 2 (some "SELECT 1".toList)).reg.get_stmt 2 = some s ∧
        s.resultset.map ResultSet.rows_ = some ((spec_payload_rows p).getD []) := by
  obtain ⟨p, hp, s, hs, -, hrows, -⟩ := exec_direct_installs_normalized_payload
    (World.payload (.object [("rows".toList,
      .array [.object [("a".toList, .number_integer 1)]])]))
    HandleRegistry.connected [] 2
    { StmtHandle.new with conn_handle := 2 }
    { ConnHandle.new with username := "u".toList
                          password := "p".toList
                          auth_token := "tok".toList
                          token_valid := true }
    (some "SELECT 1".toList) rfl (by decide) (by decide) (by decide) rfl (by decide)
    (by decide)
  exact ⟨p, hp, s, hs, hrows⟩

/-! ## Statement guard -/

theorem find_at_starts (s kw : CString) (i p : Nat) (h : find_at s kw i = some p) :
    i ≤ p ∧ p - i ≤ s.length ∧ starts_with (s.drop (p - i)) kw = true := by
  induction s generalizing i with
  | nil =>
    simp only [find_at] at h
    split at h
    · rename_i hs
      have hp : i = p := by simpa using h
      subst hp
      simpa using hs
    · exact absurd h (by simp)
  | cons c cs ih =>
    simp only [find_at] at h
    split at h
    · rename_i hs
      have hp : i = p := by simpa using h
      subst hp
      simpa using hs
    · obtain ⟨h1, h2, h3⟩ := ih (i + 1) h
      refine ⟨by omega, by simp only [List.length_cons]; omega, ?_⟩
      have hpi : p - i = (p - (i + 1)) + 1 := by omega
      rw [hpi, List.drop_succ_cons]
      exact h3

theorem find_at_complete (s kw : CString) (i k : Nat) (hk : k ≤ s.length)
    (h : starts_with (s.drop k) kw = true) : (find_at s kw i).isSome = true := by
  induction s generalizing i k with
  | nil =>
    have hk0 : k = 0 := by simpa using hk
    subst hk0
    simp only [List.drop_nil] at h
    simp [find_at, h]
  | cons c cs ih =>
    simp only [find_at]
    split
    · rfl
    · rename_i hns
      cases k with
      | zero => exact absurd (by simpa using h) hns
      | succ k =>
        rw [List.drop_succ_cons] at h
        exact ih (i + 1) k (by simpa using hk) h

theorem find_at_of_starts (s kw : CString) (i : Nat) (h : starts_with s kw = true) :
    find_at s kw i = some i := by
  cases s with
  | nil =>
    simp only [find_at]
    rw [if_pos h]
  | cons c cs =>
    simp only [find_at]
    rw [if_pos h]

theorem keyword_blocks_whole_word (n kw : CString)
    (h : SQLGuard.keyword_blocks n kw = true) : occurs_as_whole_word n kw = true := by
  unfold SQLGuard.keyword_blocks at h
  split at h
  · exact absurd h (by simp)
  · rename_i pos hf
    obtain ⟨-, h2, h3⟩ := find_at_starts n kw 0 pos hf
    simp only [Nat.sub_zero] at h2 h3
    split at h
    · rename_i hpre
      simp only at h
      split at h
      · rename_i hpost
        unfold occurs_as_whole_word
        rw [List.any_eq_true]
        refine ⟨pos, List.mem_range.mpr (by omega), ?_⟩
        unfold whole_word_at occurs_at
        simp only [Bool.and_eq_true, decide_eq_true_eq, Bool.or_eq_true, beq_iff_eq]
        refine ⟨⟨⟨h2, h3⟩, ?_⟩, ?_⟩
        · rcases hpre with hp | hp
          · exact Or.inl hp
          · exact Or.inr hp
        · rcases hpost with hp | hp
          · exact Or.inl hp
          · exact Or.inr hp
      · exact absurd h (by simp)
    · exact absurd h (by simp)

/-- C29: a statement text whose trimmed, upper-cased form starts with SELECT, or
starts with WITH and contains SELECT, and in which none of the blocked keywords
occurs as a whole word, is allowed by is_allowed. -/
theorem is_allowed_select_without_keywords (sql : CString)
    (hstart : (SQLGuard.normalize_sql sql).take 6 = "SELECT".toList ∨
      (starts_with (SQLGuard.normalize_sql sql) "WITH".toList = true ∧
        ∃ pos, occurs_at (SQLGuard.normalize_sql sql) "SELECT".toList pos = true))
    (hno : ∀ kw ∈ SQLGuard.blocked_keywords,
      occurs_as_whole_word (SQLGuard.normalize_sql sql) kw = false) :
    SQLGuard.is_allowed sql = true := by
  have hblk : SQLGuard.blocked_keywords.any
      (SQLGuard.keyword_blocks (SQLGuard.normalize_sql sql)) = false := by
    rw [Bool.eq_false_iff]
    intro hany
    rw [List.any_eq_true] at hany
    obtain ⟨kw, hmem, hb⟩ := hany
    have := keyword_blocks_whole_word _ kw hb
    rw [hno kw hmem] at this
    exact absurd this (by simp)
  unfold SQLGuard.is_allowed
  simp only [hblk, Bool.false_eq_true, if_false]
  unfold SQLGuard.is_select
  simp only
  rcases hstart with hsel | ⟨hwith, pos, hocc⟩
  · rw [if_pos hsel]
  · split
    · rfl
    · have hw : str_find (SQLGuard.normalize_sql sql) "WITH".toList = some 0 :=
        find_at_of_starts _ _ 0 hwith
      rw [hw]
      simp only [Nat.lt_irrefl, Nat.zero_lt_succ, if_true]
      unfold occurs_at at hocc
      simp only [Bool.and_eq_true, decide_eq_true_eq] at hocc
      unfold str_find_from
      simp only [Nat.not_lt_zero, if_false, List.drop_zero]
      exact find_at_complete _ _ 0 pos hocc.1 hocc.2

theorem is_allowed_select_without_keywords_witness :
    SQLGuard.is_allowed "SELECT 1".toList = true ∧
    SQLGuard.is_allowed "WITH x AS (SELECT 1) SELECT * FROM x".toList = true ∧
    SQLGuard.is_allowed "SELECT updatex FROM t".toList = true :=
  ⟨is_allowed_select_without_keywords "SELECT 1".toList (Or.inl (by decide)) (by decide),
    is_allowed_select_without_keywords "WITH x AS (SELECT 1) SELECT * FROM x".toList
      (Or.inr ⟨by decide, 11, by decide⟩) (by decide),
    is_allowed_select_without_keywords "SELECT updatex FROM t".toList (Or.inl (by decide))
      (by decide)⟩

/-! ## Prepared execution -/

theorem c_str_text_of_no_nul (s : CString) (h : Char.ofNat 0 ∉ s) : c_str_text s = s := by
  unfold c_str_text
  induction s with
  | nil => rfl
  | cons c cs ih =>
    have hc : c ≠ Char.ofNat 0 := fun e => h (by rw [e]; exact List.mem_cons_self _ _)
    have hcs : Char.ofNat 0 ∉ cs := fun hm => h (List.mem_cons_of_mem _ hm)
    rw [List.takeWhile_cons]
    simp only [bne_iff_ne, ne_eq, hc, not_false_eq_true, if_true]
    rw [ih hcs]

/-- C30 (counterexample): a statement prepared with a text that holds a NUL
char, here SELECT 1 followed by NUL and DELETE FROM t, is executed by
SQLExecute as the text SELECT 1: on a connected statement the query goes to the
backend, while SQLExecDirect with the prepared text sends nothing and fails
with a record of state 42000. -/
theorem execute_cuts_text_at_nul :
    ((SQLPrepare HandleRegistry.connected 2
      (some ("SELECT 1".toList ++ [Char.ofNat 0] ++ "DELETE FROM t".toList))).2.get_stmt 2).map
        (fun s => (s.prepared, s.sql_text))
      = some (true, "SELECT 1".toList ++ [Char.ofNat 0] ++ "DELETE FROM t".toList) ∧
    (SQLExecute (World.status 500)
      (SQLPrepare HandleRegistry.connected 2
        (some ("SELECT 1".toList ++ [Char.ofNat 0] ++ "DELETE FROM t".toList))).2 [] 2).sent
      = [.query "SELECT 1".toList "SPARK_SQL".toList "tok".toList,
          .authenticate "u".toList "p".toList true] ∧
    (SQLExecDirect (World.status 500)
      (SQLPrepare HandleRegistry.connected 2
        (some ("SELECT 1".toList ++ [Char.ofNat 0] ++ "DELETE FROM t".toList))).2 [] 2
      (some ("SELECT 1".toList ++ [Char.ofNat 0] ++ "DELETE FROM t".toList))).sent = [] ∧
    ((SQLExecute (World.status 500)
      (SQLPrepare HandleRegistry.connected 2
        (some ("SELECT 1".toList ++ [Char.ofNat 0] ++ "DELETE FROM t".toList))).2 [] 2).reg.get_stmt
        2).map (fun s => s.diag.records_.map DiagRecord.sqlstate) = some ["28000".toList] ∧
    ((SQLExecDirect (World.status 500)
      (SQLPrepare HandleRegistry.connected 2
        (some ("SELECT 1".toList ++ [Char.ofNat 0] ++ "DELETE FROM t".toList))).2 [] 2
      (some ("SELECT 1".toList ++ [Char.ofNat 0] ++ "DELETE FROM t".toList))).reg.get_stmt
        2).map (fun s => s.diag.records_.map DiagRecord.sqlstate) = some ["42000".toList] := by
  refine ⟨by decide, by decide, by decide, by decide, by decide⟩

/-- C30 (amended): SQLExecute on a live statement that is not prepared returns
SQL_ERROR, sends no request, puts a record of state HY010 in front of the
statement's diagnostics and leaves its text, flags, cursor and result set as
they were; on a prepared statement whose stored text holds no NUL char it is
SQLExecDirect with that text: same return code, same registry state (hence
same diagnostics and result set) and same requests. -/
theorem execute_requires_prepare (w : World) (reg : HandleRegistry) (sent : List Request)
    (h : Nat) (stmt : StmtHandle) (hs : reg.get_stmt h = some stmt) :
    (stmt.prepared = false →
      (SQLExecute w reg sent h).ret = SQL_ERROR ∧ (SQLExecute w reg sent h).sent = sent ∧
      ∃ s, (SQLExecute w reg sent h).reg.get_stmt h = some s ∧
        s.diag.records_.head? = some ⟨"HY010".toList, 0, "Function sequence error".toList⟩ ∧
        s.diag = stmt.diag.add "HY010".toList 0 "Function sequence error".toList ∧
        s.sql_text = stmt.sql_text ∧ s.prepared = stmt.prepared ∧
        s.executed = stmt.executed ∧ s.current_row = stmt.current_row ∧
        s.conn_handle = stmt.conn_handle ∧ s.resultset = stmt.resultset) ∧
    (stmt.prepared = true → Char.ofNat 0 ∉ stmt.sql_text →
      SQLExecute w reg sent h = SQLExecDirect w reg sent h (some stmt.sql_text)) := by
  constructor
  · intro hp
    have e : SQLExecute w reg sent h =
        ⟨SQL_ERROR,
          reg.set_stmt h
            { stmt with diag :=
                (stmt.diag.add "HY010".toList 0 "Function sequence error".toList) },
          sent⟩ := by
      unfold SQLExecute
      simp only [hs, hp, Bool.not_false, if_true]
    rw [e]
    refine ⟨rfl, rfl, _, get_stmt_set_stmt reg h stmt _ hs, ?_, rfl, rfl, rfl, rfl, rfl, rfl,
      rfl⟩
    simp only [diag_add_records]
    rfl
  · intro hp hn
    unfold SQLExecute
    simp only [hs, hp, Bool.not_true, Bool.false_eq_true, if_false, c_str_text_of_no_nul _ hn]

theorem execute_requires_prepare_witness :
    (SQLExecute World.offline HandleRegistry.connected [] 2).ret = SQL_ERROR ∧
    SQLExecute World.offline (SQLPrepare HandleRegistry.connected 2 (some "SELECT 1".toList)).2
        [] 2 =
      SQLExecDirect World.offline
        (SQLPrepare HandleRegistry.connected 2 (some "SELECT 1".toList)).2 [] 2
        (some "SELECT 1".toList) :=
  ⟨((execute_requires_prepare World.offline HandleRegistry.connected [] 2
      { StmtHandle.new with conn_handle := 2 } rfl).1 rfl).1,
    (execute_requires_prepare World.offline
      (SQLPrepare HandleRegistry.connected 2 (some "SELECT 1".toList)).2 [] 2
      { StmtHandle.new with conn_handle := 2
                            sql_text := "SELECT 1".toList
                            prepared := true } rfl).2 rfl (by decide)⟩

/-! ## Diagnostics across calls -/

/-- C31: evaluation at the failing input.  A connected statement on which
SQLExecDirect with the text DELETE FROM t has failed holds one record of state
42000 and is not prepared; SQLExecute on it returns SQL_ERROR, sends nothing,
and leaves two records on the statement, HY010 in front of the 42000 record of
the earlier call: the stack is not cleared on this path. -/
theorem execute_unprepared_keeps_earlier_diagnostics :
    ((SQLExecDirect World.offline HandleRegistry.connected [] 2
      (some "DELETE FROM t".toList)).reg.get_stmt 2).map
        (fun s => (s.prepared, s.diag.records_.map DiagRecord.sqlstate))
      = some (false, ["42000".toList]) ∧
    (SQLExecute World.offline
      (SQLExecDirect World.offline HandleRegistry.connected [] 2
        (some "DELETE FROM t".toList)).reg [] 2).ret = SQL_ERROR ∧
    (SQLExecute World.offline
      (SQLExecDirect World.offline HandleRegistry.connected [] 2
        (some "DELETE FROM t".toList)).reg [] 2).sent = [] ∧
    ((SQLExecute World.offline
      (SQLExecDirect World.offline HandleRegistry.connected [] 2
        (some "DELETE FROM t".toList)).reg [] 2).reg.get_stmt 2).map
        (fun s => s.diag.records_.map DiagRecord.sqlstate)
      = some ["HY010".toList, "42000".toList] := by
  refine ⟨by decide, by decide, by decide, by decide⟩

/-- C32: evaluation at the failing input.  On a connected statement whose
SQLExecDirect has installed the one-row result with the field a holding the
string abc, SQLGetData before the first SQLFetch returns SQL_ERROR; after the
first SQLFetch, SQLGetData for column 2 (there is one column) returns SQL_ERROR,
and SQLGetData for column 1 with the SQL_C_LONG target (abc is no number)
returns SQL_ERROR; after each of the three calls the diagnostic stack of the
statement is empty. -/
theorem get_data_failure_adds_no_record :
    (SQLGetData Runtime.standard
      (SQLExecDirect (World.payload (.array [.object [("a".toList, .string "abc".toList)]]))
        HandleRegistry.connected [] 2 (some "SELECT 1".toList)).reg
      2 1 SQL_C_CHAR true 10 true).ret = SQL_ERROR ∧
    ((SQLGetData Runtime.standard
      (SQLExecDirect (World.payload (.array [.object [("a".toList, .string "abc".toList)]]))
        HandleRegistry.connected [] 2 (some "SELECT 1".toList)).reg
      2 1 SQL_C_CHAR true 10 true).reg.get_stmt 2).map (fun s => s.diag.records_) = some [] ∧
    (SQLFetch
      (SQLExecDirect (World.payload (.array [.object [("a".toList, .string "abc".toList)]]))
        HandleRegistry.connected [] 2 (some "SELECT 1".toList)).reg 2).1 = SQL_SUCCESS ∧
    (SQLGetData Runtime.standard
      (SQLFetch
        (SQLExecDirect (World.payload (.array [.object [("a".toList, .string "abc".toList)]]))
          HandleRegistry.connected [] 2 (some "SELECT 1".toList)).reg 2).2
      2 2 SQL_C_CHAR true 10 true).ret = SQL_ERROR ∧
    ((SQLGetData Runtime.standard
      (SQLFetch
        (SQLExecDirect (World.payload (.array [.object [("a".toList, .string "abc".toList)]]))
          HandleRegistry.connected [] 2 (some "SELECT 1".toList)).reg 2).2
      2 2 SQL_C_CHAR true 10 true).reg.get_stmt 2).map (fun s => s.diag.records_) = some [] ∧
    (SQLGetData Runtime.standard
      (SQLFetch
        (SQLExecDirect (World.payload (.array [.object [("a".toList, .string "abc".toList)]]))
          HandleRegistry.connected [] 2 (some "SELECT 1".toList)).reg 2).2
      2 1 SQL_C_LONG true 4 true).ret = SQL_ERROR ∧
    ((SQLGetData Runtime.standard
      (SQLFetch
        (SQLExecDirect (World.payload (.array [.object [("a".toList, .string "abc".toList)]]))
          HandleRegistry.connected [] 2 (some "SELECT 1".toList)).reg 2).2
      2 1 SQL_C_LONG true 4 true).reg.get_stmt 2).map (fun s => s.diag.records_) = some [] := by
  refine ⟨by decide, by decide, by decide, by decide, by decide, by decide, by decide⟩

/-! ## Precedence of configuration sources -/

theorem visit_nil (ord : HashOrder) : ord.visit [] = [] :=
  List.perm_nil.mp (ord.visit_perm [])

theorem parse_empty (rt : Runtime) (ord : HashOrder) :
    ConnectionStringParser.parse rt ord [] = ConnectionParams.new := by
  have hp : ConnectionStringParser.parse_key_value_pairs [] = [] := by decide
  unfold ConnectionStringParser.parse
  simp only [hp, List.map_nil, visit_nil, List.foldl_nil]

theorem parse_dsn_only (rt : Runtime) (ord : HashOrder) :
    ConnectionStringParser.parse rt ord "DSN=prod".toList = ConnectionParams.new := by
  have hp : ConnectionStringParser.parse_key_value_pairs "DSN=prod".toList
      = [("dsn".toList, "prod".toList)] := by decide
  have hk : ∀ p : ConnectionParams,
      ConnectionStringParser.apply_option rt p "dsn".toList "prod".toList = p := by
    intro p
    unfold ConnectionStringParser.apply_option
    simp
  unfold ConnectionStringParser.parse
  simp only [hp, List.map_cons, List.map_nil, visit_singleton, List.foldl_cons, List.foldl_nil]
  exact hk _

theorem merge_new (d : ConnectionParams) :
    ConnectionStringParser.merge d ConnectionParams.new =
      { d with endpoint_base := DEFAULT_ENDPOINT_BASE
               sql_engine := DEFAULT_SQL_ENGINE
               timeout_sec := DEFAULT_TIMEOUT_SEC
               user_agent := DEFAULT_USER_AGENT } := by
  rfl

/-- C33: evaluation at the failing input.  For every DSN configuration d, the
merge of d with the parse of the empty connection string, which mentions no
option, takes the endpoint base, the SQL engine, the timeout and the user agent
from the built-in defaults and not from d; SQLDriverConnect builds the same
configuration from the connection string DSN=prod; a DSN configuration with
endpoint base https://eu.example, engine PRESTO, timeout 30 and agent X ends
with https://api.withleaf.io, SPARK_SQL, 60 and LeafODBC/0.1. -/
theorem merge_lets_defaults_override_dsn (rt : Runtime) (ord : HashOrder)
    (d : ConnectionParams) (parse_dsn : CString → ConnectionParams) :
    ConnectionStringParser.merge d (ConnectionStringParser.parse rt ord []) =
      { d with endpoint_base := DEFAULT_ENDPOINT_BASE
               sql_engine := DEFAULT_SQL_ENGINE
               timeout_sec := DEFAULT_TIMEOUT_SEC
               user_agent := DEFAULT_USER_AGENT } ∧
    driver_connect_params rt ord parse_dsn "DSN=prod".toList =
      { parse_dsn "prod".toList with endpoint_base := DEFAULT_ENDPOINT_BASE
                                     sql_engine := DEFAULT_SQL_ENGINE
                                     timeout_sec := DEFAULT_TIMEOUT_SEC
                                     user_agent := DEFAULT_USER_AGENT } ∧
    ConnectionStringParser.merge
      { ConnectionParams.new with endpoint_base := "https://eu.example".toList
                                  sql_engine := "PRESTO".toList
                                  timeout_sec := 30
                                  user_agent := "X".toList }
      (ConnectionStringParser.parse rt ord []) = ConnectionParams.new ∧
    ("https://eu.example".toList, "PRESTO".toList, (30 : Int), "X".toList) ≠
      (ConnectionParams.new.endpoint_base, ConnectionParams.new.sql_engine,
        ConnectionParams.new.timeout_sec, ConnectionParams.new.user_agent) := by
  refine ⟨?_, ?_, ?_, by decide⟩
  · rw [parse_empty, merge_new]
  · have hn : driver_dsn_name "DSN=prod".toList = "prod".toList := by decide
    unfold driver_connect_params
    simp only [hn, parse_dsn_only, merge_new]
    rfl
  · rw [parse_empty, merge_new]
    rfl

theorem parse_remember_me (rt : Runtime) (ord : HashOrder) :
    ConnectionStringParser.parse rt ord "RememberMe=true".toList = ConnectionParams.new := by
  have hp : ConnectionStringParser.parse_key_value_pairs "RememberMe=true".toList
      = [("rememberme".toList, "true".toList)] := by decide
  have hk : ∀ p : ConnectionParams,
      ConnectionStringParser.apply_option rt p "rememberme".toList "true".toList =
        { p with remember_me := true } := by
    intro p
    have hb : ConnectionStringParser.parse_bool "true".toList = true := by decide
    unfold ConnectionStringParser.apply_option
    simp
    exact hb
  unfold ConnectionStringParser.parse
  simp only [hp, List.map_cons, List.map_nil, visit_singleton, List.foldl_cons, List.foldl_nil]
  rw [show ConnectionStringParser.pairs_get [("rememberme".toList, "true".toList)]
    "rememberme".toList = "true".toList from by decide, hk]
  rfl

theorem parse_verify_tls (rt : Runtime) (ord : HashOrder) :
    ConnectionStringParser.parse rt ord "VerifyTLS=true".toList = ConnectionParams.new := by
  have hp : ConnectionStringParser.parse_key_value_pairs "VerifyTLS=true".toList
      = [("verifytls".toList, "true".toList)] := by decide
  have hk : ∀ p : ConnectionParams,
      ConnectionStringParser.apply_option rt p "verifytls".toList "true".toList =
        { p with verify_tls := true } := by
    intro p
    have hb : ConnectionStringParser.parse_bool "true".toList = true := by decide
    unfold ConnectionStringParser.apply_option
    simp
    exact hb
  unfold ConnectionStringParser.parse
  simp only [hp, List.map_cons, List.map_nil, visit_singleton, List.foldl_cons, List.foldl_nil]
  rw [show ConnectionStringParser.pairs_get [("verifytls".toList, "true".toList)]
    "verifytls".toList = "true".toList from by decide, hk]
  rfl

/-- C34: evaluation at the failing input.  The connection string
RememberMe=true parses to a configuration with remember-me true, yet for every
DSN configuration d the merge keeps the remember-me value of d, and likewise
VerifyTLS=true keeps the TLS-verify value of d: with a DSN configuration that
has both options false, the merged configuration has them false although the
connection string sets them to true, and so has the configuration that
SQLDriverConnect builds from the connection string DSN=prod;RememberMe=true. -/
theorem merge_drops_explicit_true (rt : Runtime) (ord : HashOrder) (d : ConnectionParams) :
    (ConnectionStringParser.parse rt ord "RememberMe=true".toList).remember_me = true ∧
    (ConnectionStringParser.merge d
      (ConnectionStringParser.parse rt ord "RememberMe=true".toList)).remember_me
        = d.remember_me ∧
    (ConnectionStringParser.parse rt ord "VerifyTLS=true".toList).verify_tls = true ∧
    (ConnectionStringParser.merge d
      (ConnectionStringParser.parse rt ord "VerifyTLS=true".toList)).verify_tls
        = d.verify_tls ∧
    (ConnectionStringParser.merge { ConnectionParams.new with remember_me := false }
      (ConnectionStringParser.parse rt ord "RememberMe=true".toList)).remember_me = false ∧
    (ConnectionStringParser.merge { ConnectionParams.new with verify_tls := false }
      (ConnectionStringParser.parse rt ord "VerifyTLS=true".toList)).verify_tls = false ∧
    (driver_connect_params Runtime.plain HashOrder.insertion
      (fun _ => { ConnectionParams.new with remember_me := false })
      "DSN=prod;RememberMe=true".toList).remember_me = false := by
  rw [parse_remember_me, parse_verify_tls, merge_new]
  refine ⟨rfl, rfl, rfl, rfl, rfl, rfl, by decide⟩

/-! ## Statement guard: texts that are no SELECT -/

/-- C37: evaluation at the failing input.  The text CALL purge() followed by
the comment -- WITH SELECT is allowed by is_allowed, although its trimmed,
upper-cased form begins neither with SELECT nor with WITH: the word WITH stands
at index 16, below 20, and SELECT follows it.  SQLExecDirect on a connected
statement sends the text to the backend as a query. -/
theorem is_allowed_admits_with_inside_text :
    SQLGuard.is_allowed "CALL purge() -- WITH SELECT".toList = true ∧
    (SQLGuard.normalize_sql "CALL purge() -- WITH SELECT".toList).take 6 ≠ "SELECT".toList ∧
    starts_with (SQLGuard.normalize_sql "CALL purge() -- WITH SELECT".toList) "WITH".toList
      = false ∧
    str_find (SQLGuard.normalize_sql "CALL purge() -- WITH SELECT".toList) "WITH".toList
      = some 16 ∧
    (SQLExecDirect (World.status 500) HandleRegistry.connected [] 2
      (some "CALL purge() -- WITH SELECT".toList)).sent.head?
      = some (.query "CALL purge() -- WITH SELECT".toList "SPARK_SQL".toList "tok".toList) := by
  refine ⟨by decide, by decide, by decide, by decide, by decide⟩

/-! ## Handle values across kinds -/

/-- C39: in a newly constructed registry the first environment, the first
connection and the first statement all receive the value 2, and all three are
live at once under that value; a free of one kind changes what no lookup of
another kind returns, and a lookup of one kind returns the same for two
registries that agree on the map of that kind, whatever the other maps and the
counters hold; so after the statement 2 is freed, the connection 2 and the
environment 2 still resolve. -/
theorem handle_values_coincide_across_kinds :
    (HandleRegistry.new.alloc_env true).out = some 2 ∧
    ((HandleRegistry.new.alloc_env true).reg.alloc_connect 2 true).out = some 2 ∧
    (((HandleRegistry.new.alloc_env true).reg.alloc_connect 2 true).reg.alloc_stmt 2 true).out
      = some 2 ∧
    ((((HandleRegistry.new.alloc_env true).reg.alloc_connect 2 true).reg.alloc_stmt 2
      true).reg.get_env 2).isSome = true ∧
    ((((HandleRegistry.new.alloc_env true).reg.alloc_connect 2 true).reg.alloc_stmt 2
      true).reg.get_conn 2).isSome = true ∧
    ((((HandleRegistry.new.alloc_env true).reg.alloc_connect 2 true).reg.alloc_stmt 2
      true).reg.get_stmt 2).isSome = true ∧
    (∀ (reg : HandleRegistry) (h k : Nat),
      (reg.free_stmt h).2.get_conn k = reg.get_conn k ∧
      (reg.free_stmt h).2.get_env k = reg.get_env k ∧
      (reg.free_connect h).2.get_stmt k = reg.get_stmt k ∧
      (reg.free_connect h).2.get_env k = reg.get_env k ∧
      (reg.free_env h).2.get_stmt k = reg.get_stmt k ∧
      (reg.free_env h).2.get_conn k = reg.get_conn k) ∧
    (∀ (e e2 : HandleMap EnvHandle) (c c2 : HandleMap ConnHandle) (s s2 : HandleMap StmtHandle)
      (n1 n2 n3 m1 m2 m3 k : Nat),
      HandleRegistry.get_env ⟨e, c, s, n1, n2, n3⟩ k
        = HandleRegistry.get_env ⟨e, c2, s2, m1, m2, m3⟩ k ∧
      HandleRegistry.get_conn ⟨e, c, s, n1, n2, n3⟩ k
        = HandleRegistry.get_conn ⟨e2, c, s2, m1, m2, m3⟩ k ∧
      HandleRegistry.get_stmt ⟨e, c, s, n1, n2, n3⟩ k
        = HandleRegistry.get_stmt ⟨e2, c2, s, m1, m2, m3⟩ k) ∧
    (((((HandleRegistry.new.alloc_env true).reg.alloc_connect 2 true).reg.alloc_stmt 2
      true).reg.free_stmt 2).2.get_stmt 2).isSome = false ∧
    (((((HandleRegistry.new.alloc_env true).reg.alloc_connect 2 true).reg.alloc_stmt 2
      true).reg.free_stmt 2).2.get_conn 2).isSome = true ∧
    (((((HandleRegistry.new.alloc_env true).reg.alloc_connect 2 true).reg.alloc_stmt 2
      true).reg.free_stmt 2).2.get_env 2).isSome = true := by
  refine ⟨by decide, by decide, by decide, by decide, by decide, by decide, ?_, ?_, by decide,
    by decide, by decide⟩
  · intro reg h k
    unfold HandleRegistry.free_stmt HandleRegistry.free_connect HandleRegistry.free_env
    refine ⟨?_, ?_, ?_, ?_, ?_, ?_⟩ <;> split <;> rfl
  · intro e e2 c c2 s s2 n1 n2 n3 m1 m2 m3 k
    exact ⟨rfl, rfl, rfl⟩

/-! ## Marshalling: null buffer and integer targets -/

/-- C35: on a positioned cursor and a valid column index whose field holds a
value other than JSON null, get_data with a null buffer pointer returns
success, stores nothing through the buffer pointer and stores SQL_NULL_DATA in
the indicator, for every target type and capacity. -/
theorem get_data_null_buffer (rt : Runtime) (rs : ResultSet) (column_number : Nat)
    (col_info : ColumnInfo) (row : Json) (target_type : Int) (buffer_length : Int)
    (ind_ptr : Bool)
    (hcol : 1 ≤ column_number) (hinfo : rs.columns_[column_number - 1]? = some col_info)
    (hcur : 1 ≤ rs.current_row_) (hrow : rs.rows_[rs.current_row_ - 1]? = some row)
    (hval : (row.at_key col_info.name).is_null = false) :
    get_data rt rs column_number target_type false buffer_length ind_ptr =
      ⟨SQL_SUCCESS, .nothing, if ind_ptr then some SQL_NULL_DATA else none⟩ ∧
    (get_data rt rs column_number target_type false buffer_length ind_ptr).written.byte_count
      = 0 := by
  have hpres := at_key_present row col_info.name hval
  have e : get_data rt rs column_number target_type false buffer_length ind_ptr =
      ⟨SQL_SUCCESS, .nothing, if ind_ptr then some SQL_NULL_DATA else none⟩ := by
    unfold get_data
    rw [if_neg (positioned_of_row rs row hcur hrow), if_neg (valid_of_column rs _ _ hcol hinfo),
      hinfo, hrow]
    simp [hpres, hval, convert_value, store_ind]
  rw [e]
  exact ⟨rfl, rfl⟩

theorem get_data_null_buffer_witness :
    get_data Runtime.trivial
      ⟨[make_column [] "a".toList], [.object [("a".toList, .string "abc".toList)]], 1⟩
      1 SQL_C_CHAR false 8 true = ⟨SQL_SUCCESS, .nothing, some SQL_NULL_DATA⟩ ∧
    get_data Runtime.trivial
      ⟨[make_column [] "a".toList], [.object [("a".toList, .number_integer 7)]], 1⟩
      1 SQL_C_LONG false 0 true = ⟨SQL_SUCCESS, .nothing, some SQL_NULL_DATA⟩ :=
  ⟨(get_data_null_buffer Runtime.trivial
      ⟨[make_column [] "a".toList], [.object [("a".toList, .string "abc".toList)]], 1⟩
      1 (make_column [] "a".toList)
      (.object [("a".toList, .string "abc".toList)]) SQL_C_CHAR 8 true (by decide) rfl
      (by decide) rfl rfl).1,
    (get_data_null_buffer Runtime.trivial
      ⟨[make_column [] "a".toList], [.object [("a".toList, .number_integer 7)]], 1⟩
      1 (make_column [] "a".toList)
      (.object [("a".toList, .number_integer 7)]) SQL_C_LONG 0 true (by decide) rfl
      (by decide) rfl rfl).1⟩

theorem wrap32_wrap64 (x : Int) : wrap32 (wrap64 x) = wrap32 x := by
  unfold wrap32 wrap64
  have h : ((x + 2 ^ 63) % 2 ^ 64 - 2 ^ 63 + 2 ^ 31) % 2 ^ 32 = (x + 2 ^ 31) % (2 ^ 32 : Int) := by
    omega
  rw [h]

theorem wrap32_spec (x : Int) :
    INT32_MIN ≤ wrap32 x ∧ wrap32 x ≤ INT32_MAX ∧ (wrap32 x - x) % 2 ^ 32 = 0 := by
  unfold wrap32 INT32_MIN INT32_MAX
  omega

theorem get_data_long_value (rt : Runtime) (rs : ResultSet) (column_number : Nat)
    (col_info : ColumnInfo) (row : Json) (target_type : Int) (buffer_length : Int)
    (ind_ptr : Bool)
    (hcol : 1 ≤ column_number) (hinfo : rs.columns_[column_number - 1]? = some col_info)
    (hcur : 1 ≤ rs.current_row_) (hrow : rs.rows_[rs.current_row_ - 1]? = some row)
    (htt : target_type = SQL_C_LONG ∨ target_type = SQL_C_SLONG ∨ target_type = SQL_INTEGER)
    (hval : (row.at_key col_info.name).is_null = false) :
    get_data rt rs column_number target_type true buffer_length ind_ptr =
      match (if (row.at_key col_info.name).is_number_integer then
          some (wrap32 (row.at_key col_info.name).get_int64)
        else if (row.at_key col_info.name).is_number_float then
          some (wrap32 ((row.at_key col_info.name).get_double rt).trunc)
        else if (row.at_key col_info.name).is_string then
          rt.stoi (row.at_key col_info.name).get_string
        else some 0 : Option Int) with
      | none => ⟨SQL_ERROR, .nothing, none⟩
      | some v => ⟨SQL_SUCCESS, .sqlinteger v, if ind_ptr then some 4 else none⟩ := by
  have hpres := at_key_present row col_info.name hval
  have h1 : ¬ (target_type = SQL_C_CHAR ∨ target_type = SQL_C_WCHAR ∨ target_type = SQL_VARCHAR
      ∨ target_type = SQL_LONGVARCHAR) := by
    rcases htt with h | h | h <;> rw [h] <;> decide
  have h2 : ¬ (target_type = SQL_C_BIT) := by
    rcases htt with h | h | h <;> rw [h] <;> decide
  unfold get_data
  rw [if_neg (positioned_of_row rs row hcur hrow), if_neg (valid_of_column rs _ _ hcol hinfo),
    hinfo, hrow]
  simp only [hpres, if_true, hval, Bool.false_eq_true, if_false]
  unfold convert_value
  simp only [Bool.not_true, Bool.false_eq_true, if_false, if_neg h1, if_neg h2, if_pos htt]
  cases hs : rt.stoi (row.at_key col_info.name).get_string <;>
    split_ifs <;> simp_all [store_ind]

/-- C38: on a positioned cursor and a valid column index, with a non-null
buffer pointer and a 32-bit integer target (SQL_C_LONG, SQL_C_SLONG or
SQL_INTEGER), get_data succeeds for every JSON integer value v, signed or
unsigned, and stores v reduced modulo 2^32 into the signed 32-bit range (so
3000000000 is stored as -1294967296); for a boolean, an array or an object it
succeeds and stores 0. -/
theorem get_data_long_of_integer (rt : Runtime) (rs : ResultSet) (column_number : Nat)
    (col_info : ColumnInfo) (row : Json) (target_type : Int) (buffer_length : Int)
    (ind_ptr : Bool)
    (hcol : 1 ≤ column_number) (hinfo : rs.columns_[column_number - 1]? = some col_info)
    (hcur : 1 ≤ rs.current_row_) (hrow : rs.rows_[rs.current_row_ - 1]? = some row)
    (htt : target_type = SQL_C_LONG ∨ target_type = SQL_C_SLONG ∨ target_type = SQL_INTEGER) :
    (∀ v : Int, row.at_key col_info.name = .number_integer v →
      get_data rt rs column_number target_type true buffer_length ind_ptr =
        ⟨SQL_SUCCESS, .sqlinteger (wrap32 v), if ind_ptr then some 4 else none⟩) ∧
    (∀ v : Nat, row.at_key col_info.name = .number_unsigned v →
      get_data rt rs column_number target_type true buffer_length ind_ptr =
        ⟨SQL_SUCCESS, .sqlinteger (wrap32 v), if ind_ptr then some 4 else none⟩) ∧
    (∀ v : Int, INT32_MIN ≤ wrap32 v ∧ wrap32 v ≤ INT32_MAX ∧ (wrap32 v - v) % 2 ^ 32 = 0) ∧
    wrap32 3000000000 = -1294967296 ∧
    (∀ b : Bool, row.at_key col_info.name = .boolean b →
      get_data rt rs column_number target_type true buffer_length ind_ptr =
        ⟨SQL_SUCCESS, .sqlinteger 0, if ind_ptr then some 4 else none⟩) ∧
    (∀ es : List Json, row.at_key col_info.name = .array es →
      get_data rt rs column_number target_type true buffer_length ind_ptr =
        ⟨SQL_SUCCESS, .sqlinteger 0, if ind_ptr then some 4 else none⟩) ∧
    (∀ ms : List (CString × Json), row.at_key col_info.name = .object ms →
      get_data rt rs column_number target_type true buffer_length ind_ptr =
        ⟨SQL_SUCCESS, .sqlinteger 0, if ind_ptr then some 4 else none⟩) := by
  refine ⟨?_, ?_, wrap32_spec, by decide, ?_, ?_, ?_⟩
  · intro v hv
    rw [get_data_long_value rt rs column_number col_info row target_type buffer_length ind_ptr
      hcol hinfo hcur hrow htt (by rw [hv]; rfl), hv]
    rfl
  · intro v hv
    rw [get_data_long_value rt rs column_number col_info row target_type buffer_length ind_ptr
      hcol hinfo hcur hrow htt (by rw [hv]; rfl), hv]
    simp only [Json.is_number_integer, if_true, Json.get_int64, wrap32_wrap64]
  · intro b hv
    rw [get_data_long_value rt rs column_number col_info row target_type buffer_length ind_ptr
      hcol hinfo hcur hrow htt (by rw [hv]; rfl), hv]
    rfl
  · intro es hv
    rw [get_data_long_value rt rs column_number col_info row target_type buffer_length ind_ptr
      hcol hinfo hcur hrow htt (by rw [hv]; rfl), hv]
    rfl
  · intro ms hv
    rw [get_data_long_value rt rs column_number col_info row target_type buffer_length ind_ptr
      hcol hinfo hcur hrow htt (by rw [hv]; rfl), hv]
    rfl

theorem get_data_long_of_integer_witness :
    get_data Runtime.trivial
      ⟨[make_column [] "a".toList], [.object [("a".toList, .number_integer 3000000000)]], 1⟩
      1 SQL_C_LONG true 4 true = ⟨SQL_SUCCESS, .sqlinteger (wrap32 3000000000), some 4⟩ ∧
    get_data Runtime.trivial
      ⟨[make_column [] "a".toList], [.object [("a".toList, .boolean true)]], 1⟩
      1 SQL_C_SLONG true 4 true = ⟨SQL_SUCCESS, .sqlinteger 0, some 4⟩ :=
  ⟨(get_data_long_of_integer Runtime.trivial
      ⟨[make_column [] "a".toList], [.object [("a".toList, .number_integer 3000000000)]], 1⟩
      1 (make_column [] "a".toList) (.object [("a".toList, .number_integer 3000000000)])
      SQL_C_LONG 4 true (by decide) rfl (by decide) rfl (Or.inl rfl)).1 3000000000 rfl,
    (get_data_long_of_integer Runtime.trivial
      ⟨[make_column [] "a".toList], [.object [("a".toList, .boolean true)]], 1⟩
      1 (make_column [] "a".toList) (.object [("a".toList, .boolean true)])
      SQL_C_SLONG 4 true (by decide) rfl (by decide) rfl (Or.inr (Or.inl rfl))).2.2.2.2.1 true
      rfl⟩

/-! ## The result set after a failed execution -/

theorem exec_direct_error_shape (w : World) (reg : HandleRegistry) (sent : List Request)
    (h : Nat) (stmt0 : StmtHandle) (text : Option CString)
    (hs : reg.get_stmt h = some stmt0)
    (hret : (SQLExecDirect w reg sent h text).ret = SQL_ERROR) :
    ∃ (reg1 : HandleRegistry) (state msg : CString) (snt : List Request),
      reg1.get_stmt h = some stmt0 ∧
      SQLExecDirect w reg sent h text =
        exec_fail reg1 h
          { stmt0 with diag := stmt0.diag.clear
                       sql_text := text.getD []
                       executed := false
                       resultset := none
                       current_row := 0 } state msg snt := by
  have noload : ∀ (reg1 : HandleRegistry) (stmt : StmtHandle) (j : Json) (snt : List Request),
      (exec_load w reg1 h stmt j snt).ret = SQL_ERROR → False := by
    intro reg1 stmt j snt hr
    have hr2 : SQL_SUCCESS = SQL_ERROR := hr
    exact absurd hr2 (by decide)
  unfold SQLExecDirect at hret ⊢
  simp only [hs] at hret ⊢
  cases hgeo : is_geometry_query (text.getD [])
  · simp only [hgeo, Bool.false_eq_true, if_false] at hret ⊢
    cases hal : SQLGuard.is_allowed (text.getD [])
    · simp only [hal, Bool.not_false, if_true]
      exact ⟨reg, _, _, _, hs, rfl⟩
    · simp only [hal, Bool.not_true, Bool.false_eq_true, if_false] at hret ⊢
      by_cases hch : stmt0.conn_handle = 0
      · simp only [hch, if_true]
        exact ⟨reg, _, _, _, hs, rfl⟩
      · simp only [hch, if_false] at hret ⊢
        cases hc : reg.get_conn stmt0.conn_handle with
        | none =>
          simp only [hc]
          exact ⟨reg, _, _, _, hs, rfl⟩
        | some conn =>
          simp only [hc] at hret ⊢
          cases hcon : conn.is_connected
          · simp only [hcon, Bool.not_false, if_true]
            exact ⟨reg, _, _, _, hs, rfl⟩
          · simp only [hcon, Bool.not_true, Bool.false_eq_true, if_false] at hret ⊢
            rw [exec_backend_steps] at hret ⊢
            cases hq1 : (exec_first_query w sent conn (text.getD [])).ok
            · simp only [hq1, Bool.not_false, if_true] at hret ⊢
              cases htv : conn.token_valid
              · simp only [htv, Bool.false_eq_true, if_false]
                exact ⟨reg, _, _, _, hs, rfl⟩
              · simp only [htv, if_true] at hret ⊢
                cases ha : (exec_reauth w sent conn (text.getD [])).ok
                · simp only [ha, Bool.false_eq_true, if_false]
                  exact ⟨reg, _, _, _, hs, rfl⟩
                · simp only [ha, if_true] at hret ⊢
                  cases hq2 : (exec_retry w sent conn (text.getD [])).ok
                  · simp only [hq2, Bool.not_false, if_true]
                    exact ⟨_, _, _, _, by rw [get_stmt_set_conn]; exact hs, rfl⟩
                  · simp only [hq2, Bool.not_true, Bool.false_eq_true, if_false] at hret
                    exact (noload _ _ _ _ hret).elim
            · simp only [hq1, Bool.not_true, Bool.false_eq_true, if_false] at hret
              exact (noload _ _ _ _ hret).elim
  · simp only [hgeo, if_true] at hret
    have hr2 : SQL_SUCCESS = SQL_ERROR := hret
    exact absurd hr2 (by decide)

/-- C40: for every live statement, whatever result set and flags it holds, an
SQLExecDirect that returns SQL_ERROR leaves the statement with no result set
and with executed false, and the SQLFetch that follows returns SQL_ERROR and
puts a record of state 24000 (Invalid cursor state) in front of the
statement's diagnostics, still with no result set. -/
theorem failed_exec_direct_drops_result_set (w : World) (reg : HandleRegistry)
    (sent : List Request) (h : Nat) (stmt0 : StmtHandle) (text : Option CString)
    (hs : reg.get_stmt h = some stmt0)
    (hret : (SQLExecDirect w reg sent h text).ret = SQL_ERROR) :
    (∃ s, (SQLExecDirect w reg sent h text).reg.get_stmt h = some s ∧
      s.resultset = none ∧ s.executed = false) ∧
    (SQLFetch (SQLExecDirect w reg sent h text).reg h).1 = SQL_ERROR ∧
    ∃ s2, (SQLFetch (SQLExecDirect w reg sent h text).reg h).2.get_stmt h = some s2 ∧
      s2.diag.records_.head? = some ⟨"24000".toList, 0, "Invalid cursor state".toList⟩ ∧
      s2.resultset = none ∧ s2.executed = false := by
  obtain ⟨reg1, state, msg, snt, hs1, e⟩ := exec_direct_error_shape w reg sent h stmt0 text hs hret
  rw [e]
  have hg := (exec_fail_spec reg1 h stmt0
    { stmt0 with diag := stmt0.diag.clear
                 sql_text := text.getD []
                 executed := false
                 resultset := none
                 current_row := 0 } state msg snt hs1).2.2
  refine ⟨⟨_, hg, rfl, rfl⟩, ?_, ?_⟩
  · unfold SQLFetch
    simp only [hg]
  · unfold SQLFetch
    simp only [hg]
    refine ⟨_, get_stmt_set_stmt _ h _ _ hg, ?_, rfl, rfl⟩
    simp only [diag_add_records]
    rfl

theorem failed_exec_direct_drops_result_set_witness :
    ((SQLExecDirect (World.payload (.array [.object [("a".toList, .number_integer 1)]]))
      HandleRegistry.connected [] 2 (some "SELECT 1".toList)).reg.get_stmt 2).map
        (fun s => s.resultset.isSome) = some true ∧
    (SQLFetch
      (SQLExecDirect World.offline
        (SQLExecDirect (World.payload (.array [.object [("a".toList, .number_integer 1)]]))
          HandleRegistry.connected [] 2 (some "SELECT 1".toList)).reg
        [] 2 (some "DELETE FROM t".toList)).reg 2).1 = SQL_ERROR :=
  ⟨by decide,
    (failed_exec_direct_drops_result_set World.offline
      (SQLExecDirect (World.payload (.array [.object [("a".toList, .number_integer 1)]]))
        HandleRegistry.connected [] 2 (some "SELECT 1".toList)).reg
      [] 2
      { StmtHandle.new with conn_handle := 2
                            sql_text := "SELECT 1".toList
                            resultset := some
                              (load_from_json HashOrder.insertion
                                (.array [.object [("a".toList, .number_integer 1)]])
                                ResultSet.new)
                            executed := true }
      (some "DELETE FROM t".toList) (by rfl) (by decide)).2.1⟩

/-! ## Text to 32-bit integer -/

theorem digit_not_space (c : Char) (h : c_isdigit c = true) : c_isspace c = false := by
  cases hs : c_isspace c
  · rfl
  · simp only [c_isspace, Bool.or_eq_true, beq_iff_eq] at hs
    rcases hs with ((((hs | hs) | hs) | hs) | hs) | hs <;> subst hs <;> exact absurd h (by decide)

theorem digit_not_sign (c : Char) (h : c_isdigit c = true) : c ≠ '-' ∧ c ≠ '+' := by
  constructor <;> intro hc <;> subst hc <;> exact absurd h (by decide)

theorem dropWhile_append_all {α : Type} (p : α → Bool) (ws l : List α)
    (h : ∀ c ∈ ws, p c = true) : (ws ++ l).dropWhile p = l.dropWhile p := by
  induction ws with
  | nil => rfl
  | cons c cs ih =>
    rw [List.cons_append, List.dropWhile_cons, if_pos (h c (List.mem_cons_self _ _))]
    exact ih (fun x hx => h x (List.mem_cons_of_mem _ hx))

theorem head_dropWhile_false {α : Type} (p : α → Bool) (l : List α) (c : α)
    (h : (l.dropWhile p).head? = some c) : p c = false := by
  induction l with
  | nil => simp at h
  | cons x xs ih =>
    rw [List.dropWhile_cons] at h
    by_cases hx : p x = true
    · rw [if_pos hx] at h
      exact ih h
    · rw [if_neg hx] at h
      simp only [List.head?_cons, Option.some.injEq] at h
      subst h
      simpa using hx

theorem takeWhile_append_stop {α : Type} (p : α → Bool) (ds rest : List α)
    (hd : ∀ c ∈ ds, p c = true) (hr : ∀ c, rest.head? = some c → p c = false) :
    (ds ++ rest).takeWhile p = ds := by
  induction ds with
  | nil =>
    cases rest with
    | nil => rfl
    | cons c cs =>
      rw [List.nil_append, List.takeWhile_cons, hr c rfl]
      rfl
  | cons c cs ih =>
    rw [List.cons_append, List.takeWhile_cons, hd c (List.mem_cons_self _ _)]
    simp only [if_true, List.cons.injEq, true_and]
    exact ih (fun x hx => hd x (List.mem_cons_of_mem _ hx))

theorem decimal_value_cons (d : Char) (ds : CString) :
    decimal_value (d :: ds) = (d.toNat - 48) * 10 ^ ds.length + decimal_value ds := by
  unfold decimal_value
  rw [List.reverse_cons, List.map_append, Nat.ofDigits_append]
  simp [Nat.ofDigits_singleton]
  ring

theorem strtol_digits_value (ds rest : CString) (acc : Nat)
    (hd : ∀ c ∈ ds, c_isdigit c = true) (hr : ∀ c, rest.head? = some c → c_isdigit c = false) :
    strtol_digits acc (ds ++ rest) = acc * 10 ^ ds.length + decimal_value ds := by
  induction ds generalizing acc with
  | nil =>
    cases rest with
    | nil => simp [strtol_digits, decimal_value]
    | cons c cs => simp [strtol_digits, hr c rfl, decimal_value]
  | cons d ds ih =>
    rw [List.cons_append, strtol_digits, if_pos (hd d (List.mem_cons_self _ _)),
      ih _ (fun x hx => hd x (List.mem_cons_of_mem _ hx)), decimal_value_cons]
    simp only [List.length_cons]
    ring

theorem strtol_of_begins (s : CString) (v : Int) (h : begins_with_integer s v) :
    std_strtol s = some v := by
  obtain ⟨ws, sign, ds, rest, hs, hws, hsign, hne, hds, hrest, hv⟩ := h
  obtain ⟨d, ds1, hd1⟩ := List.exists_cons_of_ne_nil hne
  have hdig : c_isdigit d = true := hds d (by rw [hd1]; exact List.mem_cons_self _ _)
  have hval : (strtol_digits 0 (ds ++ rest) : Int) = (decimal_value ds : Int) := by
    rw [strtol_digits_value ds rest 0 hds hrest]
    simp
  have hdrop : s.dropWhile c_isspace = sign ++ ds ++ rest := by
    rw [hs, List.append_assoc, List.append_assoc, dropWhile_append_all _ _ _ hws]
    rcases hsign with h0 | h0 | h0 <;> subst h0
    · rw [hd1]
      simp only [List.nil_append, List.cons_append, List.dropWhile_cons,
        digit_not_space d hdig]
      rfl
    · rfl
    · rfl
  unfold std_strtol
  simp only [hdrop]
  rcases hsign with h0 | h0 | h0 <;> subst h0
  · have hnm := (digit_not_sign d hdig).1
    have hnp := (digit_not_sign d hdig).2
    subst hd1
    simp [hnm, hnp, hdig] at hv ⊢
    rw [hv]
    exact_mod_cast hval
  · subst hd1
    simp [hdig] at hv ⊢
    rw [hv]
    exact_mod_cast hval
  · subst hd1
    simp [hdig] at hv ⊢
    rw [hv]
    exact_mod_cast congrArg Neg.neg hval

theorem begins_of_strtol (s : CString) (v : Int) (h : std_strtol s = some v) :
    begins_with_integer s v := by
  have hsplit : s = s.takeWhile c_isspace ++ s.dropWhile c_isspace :=
    (List.takeWhile_append_dropWhile c_isspace s).symm
  have hws : ∀ c ∈ s.takeWhile c_isspace, c_isspace c = true :=
    fun c hc => (List.mem_takeWhile_imp hc)
  have core : ∀ (s2 : CString) (c : Char) (cs : CString), s2 = c :: cs → c_isdigit c = true →
      s2 = s2.takeWhile c_isdigit ++ s2.dropWhile c_isdigit ∧
      s2.takeWhile c_isdigit ≠ [] ∧
      (∀ x ∈ s2.takeWhile c_isdigit, c_isdigit x = true) ∧
      (∀ x, (s2.dropWhile c_isdigit).head? = some x → c_isdigit x = false) ∧
      (strtol_digits 0 s2 : Int) = (decimal_value (s2.takeWhile c_isdigit) : Int) := by
    intro s2 c cs h2 hc
    have hsp := (List.takeWhile_append_dropWhile c_isdigit s2).symm
    have hall : ∀ x ∈ s2.takeWhile c_isdigit, c_isdigit x = true :=
      fun x hx => (List.mem_takeWhile_imp hx)
    have hrest := head_dropWhile_false c_isdigit s2
    refine ⟨hsp, ?_, hall, hrest, ?_⟩
    · rw [h2, List.takeWhile_cons, if_pos hc]
      exact List.cons_ne_nil _ _
    · have e := strtol_digits_value (s2.takeWhile c_isdigit) (s2.dropWhile c_isdigit) 0 hall hrest
      rw [← hsp] at e
      rw [e]
      simp
  unfold std_strtol at h
  generalize hs1 : s.dropWhile c_isspace = s1 at h hsplit
  cases s1 with
  | nil => simp at h
  | cons c r =>
    simp only [List.head?_cons, Option.some.injEq, List.tail_cons] at h
    by_cases hm : c = '-'
    · subst hm
      simp only [true_or, if_true] at h
      cases r with
      | nil => simp at h
      | cons d r2 =>
        simp only at h
        by_cases hd : c_isdigit d = true
        · rw [if_pos hd] at h
          obtain ⟨h1, h2, h3, h4, h5⟩ := core (d :: r2) d r2 rfl hd
          refine ⟨s.takeWhile c_isspace, ['-'], (d :: r2).takeWhile c_isdigit,
            (d :: r2).dropWhile c_isdigit, ?_, hws, Or.inr (Or.inr rfl), h2, h3, h4, ?_⟩
          · rw [List.append_assoc, List.append_assoc, ← h1]
            exact hsplit
          · simp only [if_true]
            rw [← h5]
            exact (Option.some.inj h).symm
        · rw [if_neg hd] at h
          exact absurd h (by simp)
    · by_cases hp : c = '+'
      · subst hp
        simp only [or_true, if_true] at h
        cases r with
        | nil => simp at h
        | cons d r2 =>
          simp only at h
          by_cases hd : c_isdigit d = true
          · rw [if_pos hd] at h
            obtain ⟨h1, h2, h3, h4, h5⟩ := core (d :: r2) d r2 rfl hd
            refine ⟨s.takeWhile c_isspace, ['+'], (d :: r2).takeWhile c_isdigit,
              (d :: r2).dropWhile c_isdigit, ?_, hws, Or.inr (Or.inl rfl), h2, h3, h4, ?_⟩
            · rw [List.append_assoc, List.append_assoc, ← h1]
              exact hsplit
            · have hpm : ¬ ('+' = '-') := by decide
              simp only [hpm, if_false] at h
              have hne : ¬ (['+'] = ['-']) := by decide
              rw [if_neg hne, ← h5]
              exact (Option.some.inj h).symm
          · rw [if_neg hd] at h
            exact absurd h (by simp)
      · simp only [hm, hp, or_self, if_false] at h
        by_cases hd : c_isdigit c = true
        · rw [if_pos hd] at h
          obtain ⟨h1, h2, h3, h4, h5⟩ := core (c :: r) c r rfl hd
          refine ⟨s.takeWhile c_isspace, [], (c :: r).takeWhile c_isdigit,
            (c :: r).dropWhile c_isdigit, ?_, hws, Or.inl rfl, h2, h3, h4, ?_⟩
          · rw [List.append_nil, List.append_assoc, ← h1]
            exact hsplit
          · have hne : ¬ (([] : CString) = ['-']) := by decide
            rw [if_neg hne, ← h5]
            exact (Option.some.inj h).symm
        · rw [if_neg hd] at h
          exact absurd h (by simp)

theorem stoi_iff_begins (s : CString) (v : Int) :
    std_stoi s = some v ↔ (begins_with_integer s v ∧ INT32_MIN ≤ v ∧ v ≤ INT32_MAX) := by
  unfold std_stoi
  constructor
  · intro h
    cases hs : std_strtol s with
    | none => rw [hs] at h; exact absurd h (by simp)
    | some x =>
      rw [hs] at h
      simp only at h
      split at h
      · exact absurd h (by simp)
      · rename_i hr
        have hx : x = v := Option.some.inj h
        subst hx
        exact ⟨begins_of_strtol s x hs, by omega, by omega⟩
  · rintro ⟨hb, h1, h2⟩
    rw [strtol_of_begins s v hb]
    simp only
    rw [if_neg (by omega)]

/-- C36: on a positioned cursor and a valid column index whose field holds the
string s, with a non-null buffer pointer, a 32-bit integer target (SQL_C_LONG,
SQL_C_SLONG or SQL_INTEGER) and the integer parser of the standard library:
when s, after optional leading white space, begins with an optionally signed
decimal integer of value v that fits in 32 bits, get_data succeeds and stores
v, whatever follows the digits; when s does not begin so (no digit at that
place, the empty string, a value outside the 32-bit range), get_data returns
SQL_ERROR and stores nothing; so get_data succeeds exactly when s begins with
such an integer. -/
theorem get_data_long_of_text (rt : Runtime) (rs : ResultSet) (column_number : Nat)
    (col_info : ColumnInfo) (row : Json) (s : CString) (target_type : Int)
    (buffer_length : Int) (ind_ptr : Bool)
    (hstoi : rt.stoi = std_stoi)
    (hcol : 1 ≤ column_number) (hinfo : rs.columns_[column_number - 1]? = some col_info)
    (hcur : 1 ≤ rs.current_row_) (hrow : rs.rows_[rs.current_row_ - 1]? = some row)
    (hval : row.at_key col_info.name = .string s)
    (htt : target_type = SQL_C_LONG ∨ target_type = SQL_C_SLONG ∨ target_type = SQL_INTEGER) :
    (∀ v : Int, begins_with_integer s v → INT32_MIN ≤ v → v ≤ INT32_MAX →
      get_data rt rs column_number target_type true buffer_length ind_ptr =
        ⟨SQL_SUCCESS, .sqlinteger v, if ind_ptr then some 4 else none⟩) ∧
    ((¬ ∃ v : Int, begins_with_integer s v ∧ INT32_MIN ≤ v ∧ v ≤ INT32_MAX) →
      get_data rt rs column_number target_type true buffer_length ind_ptr =
        ⟨SQL_ERROR, .nothing, none⟩) ∧
    ((get_data rt rs column_number target_type true buffer_length ind_ptr).ret = SQL_SUCCESS ↔
      ∃ v : Int, begins_with_integer s v ∧ INT32_MIN ≤ v ∧ v ≤ INT32_MAX) := by
  have e : get_data rt rs column_number target_type true buffer_length ind_ptr =
      match std_stoi s with
      | none => ⟨SQL_ERROR, .nothing, none⟩
      | some v => ⟨SQL_SUCCESS, .sqlinteger v, if ind_ptr then some 4 else none⟩ := by
    rw [get_data_long_value rt rs column_number col_info row target_type buffer_length ind_ptr
      hcol hinfo hcur hrow htt (by rw [hval]; rfl), hval, hstoi]
    rfl
  rw [e]
  refine ⟨?_, ?_, ?_⟩
  · intro v hb h1 h2
    rw [(stoi_iff_begins s v).mpr ⟨hb, h1, h2⟩]
  · intro hno
    cases hs : std_stoi s with
    | none => rfl
    | some v => exact absurd ⟨v, (stoi_iff_begins s v).mp hs⟩ hno
  · cases hs : std_stoi s with
    | none =>
      constructor
      · intro h
        have h2 : SQL_ERROR = SQL_SUCCESS := h
        exact absurd h2 (by decide)
      · rintro ⟨v, hv⟩
        rw [(stoi_iff_begins s v).mpr hv] at hs
        exact absurd hs (by simp)
    | some v => exact ⟨fun _ => ⟨v, (stoi_iff_begins s v).mp hs⟩, fun _ => rfl⟩

theorem get_data_long_of_text_witness :
    get_data Runtime.standard
      ⟨[make_column [] "a".toList], [.object [("a".toList, .string "12abc".toList)]], 1⟩
      1 SQL_C_LONG true 4 true = ⟨SQL_SUCCESS, .sqlinteger 12, some 4⟩ ∧
    get_data Runtime.standard
      ⟨[make_column [] "a".toList], [.object [("a".toList, .string " -7".toList)]], 1⟩
      1 SQL_C_SLONG true 4 true = ⟨SQL_SUCCESS, .sqlinteger (-7), some 4⟩ :=
  ⟨(get_data_long_of_text Runtime.standard
      ⟨[make_column [] "a".toList], [.object [("a".toList, .string "12abc".toList)]], 1⟩
      1 (make_column [] "a".toList) (.object [("a".toList, .string "12abc".toList)])
      "12abc".toList SQL_C_LONG 4 true rfl (by decide) rfl (by decide) rfl rfl (Or.inl rfl)).1 12
      ⟨[], [], "12".toList, "abc".toList, by decide, by decide, Or.inl rfl, by decide,
        by decide, (fun c hc => by cases hc; decide), by decide⟩
      (by decide) (by decide),
    (get_data_long_of_text Runtime.standard
      ⟨[make_column [] "a".toList], [.object [("a".toList, .string " -7".toList)]], 1⟩
      1 (make_column [] "a".toList) (.object [("a".toList, .string " -7".toList)])
      " -7".toList SQL_C_SLONG 4 true rfl (by decide) rfl (by decide) rfl rfl
      (Or.inr (Or.inl rfl))).1 (-7)
      ⟨" ".toList, "-".toList, "7".toList, [], by decide, by decide, Or.inr (Or.inr rfl),
        by decide, by decide, (fun c hc => by cases hc), by decide⟩
      (by decide) (by decide)⟩

end leafodbc
